import Mathlib

/-!
# Sandbox renderer: resource layer and compute stage

A shallow embedding of the GPU resource layer (`Buffer`, `Image`, `Cleaner`)
and of the interference compute stage of the renderer, with the properties
of the specification proved over it.

Conventions of the embedding.

* Vulkan handles, enum values and flag words are natural numbers carrying the
  numeric values of the Vulkan headers; flag words are combined with `|||`.
* A command buffer is the list of the commands recorded into it, oldest first.
* Calls into the driver that create or destroy objects are appended to a
  trace (`List VkCall`); what the driver answers is a parameter (`Driver`).
* A `throw` is an `Except.error` that carries the message and the state
  reached when the exception left the function.
-/

namespace Sandbox

/-! ## Vulkan constants used by the sources -/

abbrev VkImageLayout := Nat
abbrev VkAccessFlags := Nat
abbrev VkPipelineStageFlags := Nat
abbrev VkFormat := Nat
abbrev VkResult := Int
abbrev Handle := Nat

def VK_NULL_HANDLE : Handle := 0
def VK_SUCCESS : VkResult := 0

def VK_IMAGE_LAYOUT_UNDEFINED : VkImageLayout := 0
def VK_IMAGE_LAYOUT_GENERAL : VkImageLayout := 1
def VK_IMAGE_LAYOUT_COLOR_ATTACHMENT_OPTIMAL : VkImageLayout := 2
def VK_IMAGE_LAYOUT_DEPTH_STENCIL_ATTACHMENT_OPTIMAL : VkImageLayout := 3
def VK_IMAGE_LAYOUT_SHADER_READ_ONLY_OPTIMAL : VkImageLayout := 5
def VK_IMAGE_LAYOUT_TRANSFER_SRC_OPTIMAL : VkImageLayout := 6
def VK_IMAGE_LAYOUT_TRANSFER_DST_OPTIMAL : VkImageLayout := 7
def VK_IMAGE_LAYOUT_PRESENT_SRC_KHR : VkImageLayout := 1000001002

def VK_ACCESS_SHADER_READ_BIT : VkAccessFlags := 0x20
def VK_ACCESS_SHADER_WRITE_BIT : VkAccessFlags := 0x40
def VK_ACCESS_COLOR_ATTACHMENT_WRITE_BIT : VkAccessFlags := 0x100
def VK_ACCESS_TRANSFER_READ_BIT : VkAccessFlags := 0x800
def VK_ACCESS_TRANSFER_WRITE_BIT : VkAccessFlags := 0x1000

def VK_PIPELINE_STAGE_TOP_OF_PIPE_BIT : VkPipelineStageFlags := 0x1
def VK_PIPELINE_STAGE_FRAGMENT_SHADER_BIT : VkPipelineStageFlags := 0x80
def VK_PIPELINE_STAGE_COLOR_ATTACHMENT_OUTPUT_BIT : VkPipelineStageFlags := 0x400
def VK_PIPELINE_STAGE_COMPUTE_SHADER_BIT : VkPipelineStageFlags := 0x800
def VK_PIPELINE_STAGE_TRANSFER_BIT : VkPipelineStageFlags := 0x1000

def VK_FORMAT_UNDEFINED : VkFormat := 0
def VK_FORMAT_R8G8B8A8_SRGB : VkFormat := 43
def VK_FORMAT_R32G32B32A32_SFLOAT : VkFormat := 109

def VK_IMAGE_USAGE_TRANSFER_SRC_BIT : Nat := 0x1
def VK_IMAGE_USAGE_TRANSFER_DST_BIT : Nat := 0x2
def VK_IMAGE_USAGE_SAMPLED_BIT : Nat := 0x4
def VK_IMAGE_USAGE_STORAGE_BIT : Nat := 0x8

def VK_IMAGE_ASPECT_COLOR_BIT : Nat := 0x1
def VK_IMAGE_TYPE_2D : Nat := 1
def VK_IMAGE_VIEW_TYPE_2D : Nat := 1
def VK_SAMPLE_COUNT_1_BIT : Nat := 1
def VK_SHARING_MODE_EXCLUSIVE : Nat := 0
def VK_IMAGE_TILING_OPTIMAL : Nat := 0
def VK_COMPONENT_SWIZZLE_IDENTITY : Nat := 0
def VK_QUEUE_FAMILY_IGNORED : Nat := 0xFFFFFFFF

def VK_MEMORY_PROPERTY_DEVICE_LOCAL_BIT : Nat := 0x1
def VK_MEMORY_PROPERTY_HOST_VISIBLE_BIT : Nat := 0x2
def VK_MEMORY_PROPERTY_HOST_COHERENT_BIT : Nat := 0x4

def VK_SHADER_STAGE_COMPUTE_BIT : Nat := 0x20
def VK_PIPELINE_BIND_POINT_COMPUTE : Nat := 1

def VK_SHADER_STAGE_VERTEX_BIT : Nat := 0x1
def VK_SHADER_STAGE_FRAGMENT_BIT : Nat := 0x10
def VK_PIPELINE_BIND_POINT_GRAPHICS : Nat := 0
def VK_INDEX_TYPE_UINT32 : Nat := 1
def VK_SUBPASS_CONTENTS_INLINE : Nat := 0
def VK_FILTER_LINEAR : Nat := 1
def VK_SAMPLER_ADDRESS_MODE_REPEAT : Nat := 0
def VK_SAMPLER_MIPMAP_MODE_LINEAR : Nat := 1
def VK_BORDER_COLOR_INT_OPAQUE_BLACK : Nat := 3
def VK_COMPARE_OP_ALWAYS : Nat := 7
def VK_TRUE : Nat := 1
def VK_FALSE : Nat := 0
def VK_FORMAT_FEATURE_SAMPLED_IMAGE_FILTER_LINEAR_BIT : Nat := 0x1000

def VK_FORMAT_R8G8B8A8_UNORM : VkFormat := 37
def VK_FORMAT_R8G8B8_SRGB : VkFormat := 29
def VK_FORMAT_R32G32B32_SFLOAT : VkFormat := 106
def VK_IMAGE_CREATE_CUBE_COMPATIBLE_BIT : Nat := 0x10
def VK_IMAGE_VIEW_TYPE_CUBE : Nat := 3
def VK_FORMAT_D24_UNORM_S8_UINT : VkFormat := 129
def VK_IMAGE_USAGE_COLOR_ATTACHMENT_BIT : Nat := 0x10
def VK_IMAGE_USAGE_DEPTH_STENCIL_ATTACHMENT_BIT : Nat := 0x20
def VK_IMAGE_ASPECT_DEPTH_BIT : Nat := 0x2

/-! ## Plain data of the Vulkan structures the sources fill in -/

/-- The `Size<T>` pair of include.h at `T = uint` (the sources fill it from
`(uint)` casts and read it into `uint32_t` extents); both fields are 32-bit
unsigned. -/
structure UInt2D where
  width : Nat
  height : Nat
deriving DecidableEq, Repr

structure VkExtent3D where
  width : Nat
  height : Nat
  depth : Nat
deriving DecidableEq, Repr

structure VkImageSubresourceRange where
  aspectMask : Nat
  baseMipLevel : Nat
  levelCount : Nat
  baseArrayLayer : Nat
  layerCount : Nat
deriving DecidableEq, Repr

structure VkImageCreateInfo where
  flags : Nat
  imageType : Nat
  format : VkFormat
  extent : VkExtent3D
  mipLevels : Nat
  arrayLayers : Nat
  samples : Nat
  tiling : Nat
  usage : Nat
  sharingMode : Nat
  initialLayout : VkImageLayout
deriving DecidableEq, Repr

structure VkImageViewCreateInfo where
  image : Handle
  viewType : Nat
  format : VkFormat
  components : Nat × Nat × Nat × Nat
  subresourceRange : VkImageSubresourceRange
deriving DecidableEq, Repr

structure VkImageMemoryBarrier where
  srcAccessMask : VkAccessFlags
  dstAccessMask : VkAccessFlags
  oldLayout : VkImageLayout
  newLayout : VkImageLayout
  srcQueueFamilyIndex : Nat
  dstQueueFamilyIndex : Nat
  image : Handle
  subresourceRange : VkImageSubresourceRange
deriving DecidableEq, Repr

/-- Modelled from the spec: the declaration of the stage's `PCMisc` is in a
header that is not among the sources. The spec describes the pushed
simulation parameters as the sample counts along two axes; the source reads
them as `opdSample` and `rSample` and passes them where 32-bit unsigned values
are expected. -/
structure PCMisc where
  opdSample : Nat
  rSample : Nat
deriving DecidableEq, Repr

structure VkOffset3D where
  x : Int
  y : Int
  z : Int
deriving DecidableEq, Repr

structure VkImageSubresourceLayers where
  aspectMask : Nat
  mipLevel : Nat
  baseArrayLayer : Nat
  layerCount : Nat
deriving DecidableEq, Repr

/-- The blit region; each `Offsets` pair is the two corners `[0]` and `[1]`. -/
structure VkImageBlit where
  srcSubresource : VkImageSubresourceLayers
  srcOffsets : VkOffset3D × VkOffset3D
  dstSubresource : VkImageSubresourceLayers
  dstOffsets : VkOffset3D × VkOffset3D
deriving DecidableEq, Repr

structure VkImageCopy where
  srcSubresource : VkImageSubresourceLayers
  srcOffset : VkOffset3D
  dstSubresource : VkImageSubresourceLayers
  dstOffset : VkOffset3D
  extent : VkExtent3D
deriving DecidableEq, Repr

/-- The viewport; its `float` fields are read as the exact numbers they hold. -/
structure VkViewport where
  x : ℚ
  y : ℚ
  width : ℚ
  height : ℚ
  minDepth : ℚ
  maxDepth : ℚ
deriving DecidableEq, Repr

structure VkOffset2D where
  x : Int
  y : Int
deriving DecidableEq, Repr

structure VkRect2D where
  offset : VkOffset2D
  extent : UInt2D
deriving DecidableEq, Repr

/-- The clear value union: a colour of four floats or a depth with a stencil. -/
inductive VkClearValue where
  | color (r g b a : ℚ)
  | depthStencil (depth : ℚ) (stencil : Nat)
deriving DecidableEq, Repr

structure VkRenderPassBeginInfo where
  renderPass : Handle
  framebuffer : Handle
  renderArea : VkRect2D
  clearValues : List VkClearValue
deriving DecidableEq, Repr

/-- A `glm::vec3` over the number type `F` its floats are read in. -/
structure Vec3 (F : Type) where
  x : F
  y : F
  z : F
deriving DecidableEq, Repr

/-- A `glm::vec4`. -/
structure Vec4 (F : Type) where
  x : F
  y : F
  z : F
  w : F
deriving DecidableEq, Repr

/-- A `glm::mat4`, stored by columns as GLM does: `m[k]` is the column `ck`. -/
structure Mat4 (F : Type) where
  c0 : Vec4 F
  c1 : Vec4 F
  c2 : Vec4 F
  c3 : Vec4 F
deriving DecidableEq, Repr

/-- Modelled from the spec: the declaration of the scene stage's `PCMisc` is
in a header that is not among the sources. The spec names the pushed model
matrix and the flag `isLight`; the source also assigns `viewPosition` and
`reflectance`. -/
structure ScenePCMisc (F : Type) where
  model : Mat4 F
  viewPosition : Vec3 F
  reflectance : F
  isLight : Nat
deriving DecidableEq, Repr

/-- A command recorded into a command buffer (the `vkCmd*` calls). -/
inductive Cmd where
  | pushConstants (layout : Handle) (stageFlags offset : Nat) (values : PCMisc)
  | pushConstantsScene (layout : Handle) (stageFlags offset : Nat) (values : ScenePCMisc ℚ)
  | blitImage (srcImage : Handle) (srcImageLayout : VkImageLayout)
      (dstImage : Handle) (dstImageLayout : VkImageLayout)
      (regions : List VkImageBlit) (filter : Nat)
  | setViewport (firstViewport : Nat) (viewports : List VkViewport)
  | setScissor (firstScissor : Nat) (scissors : List VkRect2D)
  | beginRenderPass (info : VkRenderPassBeginInfo) (contents : Nat)
  | endRenderPass
  | bindVertexBuffers (firstBinding : Nat) (buffers : List Handle) (offsets : List Nat)
  | bindIndexBuffer (buffer : Handle) (offset indexType : Nat)
  | drawIndexed (indexCount instanceCount firstIndex : Nat) (vertexOffset : Int)
      (firstInstance : Nat)
  | draw (vertexCount instanceCount firstVertex firstInstance : Nat)
  | bindPipeline (bindPoint : Nat) (pipeline : Handle)
  | bindDescriptorSets (bindPoint : Nat) (layout : Handle) (firstSet : Nat)
      (sets : List Handle)
  | dispatch (groupCountX groupCountY groupCountZ : Nat)
  | pipelineBarrier (srcStage dstStage : VkPipelineStageFlags) (dependencyFlags : Nat)
      (imageBarriers : List VkImageMemoryBarrier)
  | copyImage (srcImage : Handle) (srcImageLayout : VkImageLayout)
      (dstImage : Handle) (dstImageLayout : VkImageLayout) (regions : List VkImageCopy)
deriving DecidableEq, Repr

abbrev CommandBuffer := List Cmd

structure VkBufferCreateInfo where
  flags : Nat
  size : Nat
  usage : Nat
  sharingMode : Nat
deriving DecidableEq, Repr

structure VkDescriptorBufferInfo where
  buffer : Handle
  offset : Nat
  range : Nat
deriving DecidableEq, Repr

structure VkMemoryRequirements where
  size : Nat
  alignment : Nat
  memoryTypeBits : Nat
deriving DecidableEq, Repr

/-- The sampler description; the `float` fields are read as exact numbers. -/
structure VkSamplerCreateInfo where
  flags : Nat
  magFilter : Nat
  minFilter : Nat
  mipmapMode : Nat
  addressModeU : Nat
  addressModeV : Nat
  addressModeW : Nat
  mipLodBias : ℚ
  anisotropyEnable : Nat
  maxAnisotropy : ℚ
  compareEnable : Nat
  compareOp : Nat
  minLod : ℚ
  maxLod : ℚ
  borderColor : Nat
  unnormalizedCoordinates : Nat
deriving DecidableEq, Repr

structure VkDescriptorImageInfo where
  sampler : Handle
  imageView : Handle
  imageLayout : VkImageLayout
deriving DecidableEq, Repr

/-- A driver call that creates, binds, maps or releases an object. -/
inductive VkCall where
  | createBuffer (info : VkBufferCreateInfo)
  | getBufferMemoryRequirements (buffer : Handle)
  | allocateMemory (allocationSize memoryTypeIndex : Nat)
  | bindBufferMemory (buffer memory : Handle) (offset : Nat)
  | freeMemory (memory : Handle)
  | destroyBuffer (buffer : Handle)
  | mapMemory (memory : Handle) (offset size : Nat)
  | unmapMemory (memory : Handle)
  | createImageView (info : VkImageViewCreateInfo)
  | destroyImageView (view : Option Handle)
  | frameCleanup (size : UInt2D)
  | frameCreateImageResource (size : UInt2D)
  | frameCreateDepthResource (size : UInt2D)
  | frameCreateFramebuffer (size : UInt2D) (renderpass : Handle)
  | createImage (info : VkImageCreateInfo)
  | destroyImage (image : Handle)
  | getImageMemoryRequirements (image : Handle)
  | bindImageMemory (image memory : Handle) (offset : Nat)
  | createSampler (info : VkSamplerCreateInfo)
  | destroySampler (sampler : Handle)
  | updateDescriptorSets (set : Handle) (writes : List (Nat × List VkDescriptorImageInfo))
deriving DecidableEq, Repr

abbrev Trace := List VkCall

/-- What the driver and the `Device` wrapper answer. Every answer may depend
on the calls made so far. On a creation call the second component is what
the driver leaves in the handle the caller passed. -/
structure Driver where
  createBuffer : Trace → VkBufferCreateInfo → VkResult × Handle
  getBufferMemoryRequirements : Trace → Handle → VkMemoryRequirements
  /-- Modelled from the spec: `Device::findMemoryTypeIndex` is not among the
  sources; it selects a memory-type index for the given type bits and property
  flags and fails fatally when no compatible memory type exists. -/
  findMemoryTypeIndex : Nat → Nat → Except String Nat
  allocateMemory : Trace → Nat → Nat → VkResult × Handle
  createImageView : Trace → VkImageViewCreateInfo → VkResult × Handle
  /-- Modelled from the spec: the handle of the framebuffer object a `Frame`
  builds (`Frame` is not among the sources). -/
  createFramebuffer : Trace → Handle
  createImage : Trace → VkImageCreateInfo → VkResult × Handle
  getImageMemoryRequirements : Trace → Handle → VkMemoryRequirements
  createSampler : Trace → VkSamplerCreateInfo → VkResult × Handle

/-- A byte of host or device memory. -/
abbrev Byte := Fin 256

/-! ## Cleaner (include.h) -/

/-- The stack of release actions. An action is a closure over the state `σ`
of the object that owns the cleaner (its fields and the driver trace); `σ`
does not contain the cleaner, so an action cannot push. The head of the
list is the top of the stack. -/
structure Cleaner (σ : Type) where
  stack : List (σ → σ)

/-- An empty `std::stack`. -/
def Cleaner.empty {σ : Type} : Cleaner σ := ⟨[]⟩

/-- Method `Cleaner::push`. -/
def Cleaner.push {σ : Type} (c : Cleaner σ) (function : σ → σ) : Cleaner σ :=
  ⟨function :: c.stack⟩

/-- The loop of `Cleaner::flush` on the stack and the state the actions act
on: while the stack is not empty, run its top, then pop it. The result is the
stack left and the state reached. -/
def Cleaner.flushLoop {σ : Type} : List (σ → σ) → σ → List (σ → σ) × σ
  | [], s => ([], s)
  | cleaning :: rest, s => Cleaner.flushLoop rest (cleaning s)

/-- Method `Cleaner::flush`. The owners call it with a label argument that
plays no role here. -/
def Cleaner.flush {σ : Type} (c : Cleaner σ) (s : σ) : Cleaner σ × σ :=
  let r := Cleaner.flushLoop c.stack s
  (⟨r.1⟩, r.2)

/-- Pushes the actions of a list one after the other, first element first. -/
def Cleaner.pushAll {σ : Type} (c : Cleaner σ) (fs : List (σ → σ)) : Cleaner σ :=
  fs.foldl Cleaner.push c

/-! ## Image (resources/image.cpp) -/

/-- The fields of `Image` other than its cleaner. -/
structure ImageData where
  m_image : Handle
  m_imageMemory : Handle
  m_imageViews : List Handle
  m_sampler : Handle
  m_imageLayout : VkImageLayout
  m_imageInfo : VkImageCreateInfo
  m_imageViewInfo : VkImageViewCreateInfo
  m_descriptorInfos : List VkDescriptorImageInfo := []
deriving DecidableEq, Repr

structure Image extends ImageData where
  m_cleaner : Cleaner (ImageData × Trace)

/-- `Image::GetDefaultImageCreateInfo` (value-initialised, then the listed fields). -/
def Image.GetDefaultImageCreateInfo : VkImageCreateInfo :=
  { flags := 0, imageType := VK_IMAGE_TYPE_2D, format := VK_FORMAT_UNDEFINED,
    extent := ⟨0, 0, 1⟩, mipLevels := 1, arrayLayers := 1,
    samples := VK_SAMPLE_COUNT_1_BIT, tiling := VK_IMAGE_TILING_OPTIMAL, usage := 0,
    sharingMode := VK_SHARING_MODE_EXCLUSIVE, initialLayout := VK_IMAGE_LAYOUT_UNDEFINED }

/-- `Image::GetDefaultImageViewCreateInfo`. -/
def Image.GetDefaultImageViewCreateInfo : VkImageViewCreateInfo :=
  { image := VK_NULL_HANDLE, viewType := VK_IMAGE_VIEW_TYPE_2D, format := VK_FORMAT_UNDEFINED,
    components := (VK_COMPONENT_SWIZZLE_IDENTITY, VK_COMPONENT_SWIZZLE_IDENTITY,
                   VK_COMPONENT_SWIZZLE_IDENTITY, VK_COMPONENT_SWIZZLE_IDENTITY),
    subresourceRange := { aspectMask := VK_IMAGE_ASPECT_COLOR_BIT, baseMipLevel := 0,
                          levelCount := 1, baseArrayLayer := 0, layerCount := 1 } }

/-- `Image::GetDefaultImageMemoryBarrier`. -/
def Image.GetDefaultImageMemoryBarrier : VkImageMemoryBarrier :=
  { srcAccessMask := 0, dstAccessMask := 0,
    oldLayout := VK_IMAGE_LAYOUT_UNDEFINED, newLayout := VK_IMAGE_LAYOUT_UNDEFINED,
    srcQueueFamilyIndex := VK_QUEUE_FAMILY_IGNORED,
    dstQueueFamilyIndex := VK_QUEUE_FAMILY_IGNORED,
    image := VK_NULL_HANDLE,
    subresourceRange := { aspectMask := VK_IMAGE_ASPECT_COLOR_BIT, baseMipLevel := 0,
                          levelCount := 1, baseArrayLayer := 0, layerCount := 1 } }

/-- Constructor `Image::Image`. -/
def Image.new : Image :=
  { m_image := VK_NULL_HANDLE, m_imageMemory := VK_NULL_HANDLE, m_imageViews := [],
    m_sampler := VK_NULL_HANDLE, m_imageLayout := VK_IMAGE_LAYOUT_UNDEFINED,
    m_imageInfo := Image.GetDefaultImageCreateInfo,
    m_imageViewInfo := Image.GetDefaultImageViewCreateInfo,
    m_cleaner := Cleaner.empty }

/-- Conversion of a 32-bit unsigned value to `int`, as happens when a `uint`
is passed for an `int` parameter (two's complement). -/
def toInt32 (n : Nat) : Int :=
  if n % 2 ^ 32 < 2 ^ 31 then ((n % 2 ^ 32 : Nat) : Int) else ((n % 2 ^ 32 : Nat) : Int) - 2 ^ 32

/-- Halving loop behind `floorLog2`: the number of times `n` can be halved
before it drops below 2, with at most as many halvings as the first argument. -/
def floorLog2Aux : Nat → Nat → Nat
  | 0, _ => 0
  | fuel + 1, n => if 2 ≤ n then floorLog2Aux fuel (n / 2) + 1 else 0

/-- The value of `std::floor(std::log2(m))` for an `int` `m >= 1`: the number
of times `m` can be halved before it drops below 2; an `int` has at most 31
binary digits, so 31 halvings are never exhausted. (The double logarithm of
an integer below `2^31` is far enough from the next integer for the rounded
result to have the same floor as the exact one.) -/
def floorLog2 (m : Nat) : Nat := floorLog2Aux 31 m

/-- Conversion of a 32-bit unsigned value to `float` (IEEE binary32, round to
nearest, ties to even), as happens when a `uint32_t` is assigned to a `float`
field: the value the `float` then holds, which is an integer. A value below
`2^24` is kept; a larger one keeps its 24 leading binary digits, the rest
rounded (`floorLog2Aux 31 m` is the position of the leading binary digit). -/
def roundToFloat32 (n : Nat) : Nat :=
  let m := n % 2 ^ 32
  if m < 2 ^ 24 then m
  else
    let ulp := 2 ^ (floorLog2Aux 31 m - 23)
    let q := m / ulp
    let r := m % ulp
    if 2 * r < ulp then q * ulp
    else if ulp < 2 * r then (q + 1) * ulp
    else if q % 2 = 0 then q * ulp
    else (q + 1) * ulp

/-- The `float` nearest to 0.2, `13421773 * 2^-26` (bits `0x3E4CCCCD`): what
`glm::vec3(0.2)` holds in each component. -/
def float_0_2 : ℚ := 13421773 / 67108864

/-- The `float` literal `0.1f`, `13421773 * 2^-27` (bits `0x3DCCCCCD`). -/
def float_0_1 : ℚ := 13421773 / 134217728

/-- `Image::MaxMipLevel(int width, int height)`:
`fmin(UINT32(std::floor(std::log2(std::max(width, height)))) + 1, 7)`.
For `max(width, height) <= 0` the logarithm is minus infinity or NaN, whose
conversion to `uint32_t` is undefined: no result. -/
def Image.MaxMipLevel (width height : Int) : Option Nat :=
  let m := max width height
  if m ≤ 0 then none
  else some (min (floorLog2 m.toNat + 1) 7)

/-- `Image::setupForTexture(UInt2D size)`. -/
def Image.setupForTexture (img : Image) (size : UInt2D) : Option Image :=
  match Image.MaxMipLevel (toInt32 size.width) (toInt32 size.height) with
  | none => none
  | some mipLevels =>
    let imageInfo := { img.m_imageInfo with
      extent := ⟨size.width, size.height, 1⟩,
      mipLevels := mipLevels,
      format := VK_FORMAT_R8G8B8A8_SRGB,
      usage := VK_IMAGE_USAGE_TRANSFER_SRC_BIT ||| VK_IMAGE_USAGE_TRANSFER_DST_BIT |||
               VK_IMAGE_USAGE_SAMPLED_BIT }
    some { img with
      m_imageInfo := imageInfo,
      m_imageViewInfo := { img.m_imageViewInfo with
        format := imageInfo.format,
        subresourceRange := { img.m_imageViewInfo.subresourceRange with
          levelCount := imageInfo.mipLevels } } }

/-- `Image::setupForHDRTexture(UInt2D size)`. -/
def Image.setupForHDRTexture (img : Image) (size : UInt2D) : Option Image :=
  match Image.MaxMipLevel (toInt32 size.width) (toInt32 size.height) with
  | none => none
  | some mipLevels =>
    let imageInfo := { img.m_imageInfo with
      extent := ⟨size.width, size.height, 1⟩,
      mipLevels := mipLevels,
      format := VK_FORMAT_R32G32B32A32_SFLOAT,
      usage := VK_IMAGE_USAGE_TRANSFER_SRC_BIT ||| VK_IMAGE_USAGE_TRANSFER_DST_BIT |||
               VK_IMAGE_USAGE_STORAGE_BIT ||| VK_IMAGE_USAGE_SAMPLED_BIT }
    some { img with
      m_imageInfo := imageInfo,
      m_imageViewInfo := { img.m_imageViewInfo with
        format := imageInfo.format,
        subresourceRange := { img.m_imageViewInfo.subresourceRange with
          levelCount := imageInfo.mipLevels } } }

/-- The release action pushed by `createImageViews`:
`vkDestroyImageView(device, m_imageViews.back(), nullptr); m_imageViews.pop_back();`.
The trace records `none` for the view when the vector is empty. -/
def Image.destroyBackView (s : ImageData × Trace) : ImageData × Trace :=
  ({ s.1 with m_imageViews := s.1.m_imageViews.dropLast },
   s.2 ++ [VkCall.destroyImageView s.1.m_imageViews.getLast?])

/-- `std::vector::resize` with value-initialised (null) new elements. -/
def resizeHandles (v : List Handle) (n : Nat) : List Handle :=
  v.take n ++ List.replicate (n - v.length) VK_NULL_HANDLE

/-- The body of the loop of `Image::createImageViews`, run for the indices of
the list in turn. The `CHECK_VKRESULT` inside the body leaves the loop with
the message and the state reached. -/
def Image.createImageViewsLoop (drv : Driver) (mipLevels : Nat) :
    List Nat → Image × Trace → Except (String × Image × Trace) (Image × Trace)
  | [], s => .ok s
  | i :: rest, (img, t) =>
    let info : VkImageViewCreateInfo := { img.m_imageViewInfo with
      subresourceRange := { img.m_imageViewInfo.subresourceRange with
        baseMipLevel := i, levelCount := mipLevels - i } }
    let answer := drv.createImageView t info
    let img1 : Image := { img with
      m_imageViewInfo := info, m_imageViews := img.m_imageViews.set i answer.2 }
    let t1 := t ++ [VkCall.createImageView info]
    if answer.1 ≠ VK_SUCCESS then .error ("failed to create image views!", img1, t1)
    else Image.createImageViewsLoop drv mipLevels rest
      ({ img1 with m_cleaner := img1.m_cleaner.push Image.destroyBackView }, t1)

/-- `Image::createImageViews`. The loop `for (int i = 0; i < mipLevels; i++)`
visits the indices `0 .. mipLevels - 1` in increasing order; the `int` counter
is exact while `mipLevels` is below `2^31`. -/
def Image.createImageViews (drv : Driver) (img : Image) (t : Trace) :
    Except (String × Image × Trace) (Image × Trace) :=
  let mipLevels := img.m_imageInfo.mipLevels
  let img0 : Image := { img with
    m_imageViews := resizeHandles img.m_imageViews mipLevels,
    m_imageViewInfo := { img.m_imageViewInfo with image := img.m_image } }
  match Image.createImageViewsLoop drv mipLevels (List.range mipLevels) (img0, t) with
  | .error e => .error e
  | .ok (img1, t1) =>
    .ok ({ img1 with
      m_imageViewInfo := { img1.m_imageViewInfo with
        subresourceRange := { img1.m_imageViewInfo.subresourceRange with
          baseMipLevel := 0, levelCount := mipLevels } } }, t1)

/-- The release action pushed by `createImage`:
`vkDestroyImage(device, m_image, nullptr)`. -/
def Image.destroyImageAction (s : ImageData × Trace) : ImageData × Trace :=
  (s.1, s.2 ++ [VkCall.destroyImage s.1.m_image])

/-- The release action pushed by `allocateImageMemory`:
`vkFreeMemory(device, m_imageMemory, nullptr)`. -/
def Image.freeMemoryAction (s : ImageData × Trace) : ImageData × Trace :=
  (s.1, s.2 ++ [VkCall.freeMemory s.1.m_imageMemory])

/-- The release action pushed by `createSampler`:
`vkDestroySampler(device, m_sampler, nullptr)`. -/
def Image.destroySamplerAction (s : ImageData × Trace) : ImageData × Trace :=
  (s.1, s.2 ++ [VkCall.destroySampler s.1.m_sampler])

/-- `Image::createImage`. -/
def Image.createImage (drv : Driver) (img : Image) (t : Trace) :
    Except (String × Image × Trace) (Image × Trace) :=
  let answer := drv.createImage t img.m_imageInfo
  let img1 : Image := { img with m_image := answer.2 }
  let t1 := t ++ [VkCall.createImage img.m_imageInfo]
  if answer.1 ≠ VK_SUCCESS then .error ("failed to create image!", img1, t1)
  else .ok ({ img1 with m_cleaner := img1.m_cleaner.push Image.destroyImageAction }, t1)

/-- `Image::allocateImageMemory`. The result of `vkBindImageMemory` is not
checked. -/
def Image.allocateImageMemory (drv : Driver) (img : Image) (t : Trace) :
    Except (String × Image × Trace) (Image × Trace) :=
  let image := img.m_image
  let memoryRequirements := drv.getImageMemoryRequirements t image
  let t1 := t ++ [VkCall.getImageMemoryRequirements image]
  match drv.findMemoryTypeIndex memoryRequirements.memoryTypeBits
      VK_MEMORY_PROPERTY_DEVICE_LOCAL_BIT with
  | .error msg => .error (msg, img, t1)
  | .ok memoryTypeIndex =>
    let answer := drv.allocateMemory t1 memoryRequirements.size memoryTypeIndex
    let img1 : Image := { img with m_imageMemory := answer.2 }
    let t2 := t1 ++ [VkCall.allocateMemory memoryRequirements.size memoryTypeIndex]
    if answer.1 ≠ VK_SUCCESS then .error ("failed to allocate image memory!", img1, t2)
    else
      let img2 : Image := { img1 with m_cleaner := img1.m_cleaner.push Image.freeMemoryAction }
      .ok (img2, t2 ++ [VkCall.bindImageMemory image img2.m_imageMemory 0])

/-- `Image::createSampler`. `float mipLevels = m_imageInfo.mipLevels` converts
the 32-bit count to `float`. -/
def Image.createSampler (drv : Driver) (img : Image) (t : Trace) :
    Except (String × Image × Trace) (Image × Trace) :=
  let mipLevels : ℚ := ((roundToFloat32 img.m_imageInfo.mipLevels : Nat) : ℚ)
  let samplerInfo : VkSamplerCreateInfo :=
    { flags := 0,
      magFilter := VK_FILTER_LINEAR,
      minFilter := VK_FILTER_LINEAR,
      addressModeU := VK_SAMPLER_ADDRESS_MODE_REPEAT,
      addressModeV := VK_SAMPLER_ADDRESS_MODE_REPEAT,
      addressModeW := VK_SAMPLER_ADDRESS_MODE_REPEAT,
      unnormalizedCoordinates := VK_FALSE,
      anisotropyEnable := VK_TRUE,
      maxAnisotropy := 16,
      borderColor := VK_BORDER_COLOR_INT_OPAQUE_BLACK,
      compareEnable := VK_FALSE,
      compareOp := VK_COMPARE_OP_ALWAYS,
      mipmapMode := VK_SAMPLER_MIPMAP_MODE_LINEAR,
      mipLodBias := 0,
      minLod := 0,
      maxLod := mipLevels }
  let answer := drv.createSampler t samplerInfo
  let img1 : Image := { img with m_sampler := answer.2 }
  let t1 := t ++ [VkCall.createSampler samplerInfo]
  if answer.1 ≠ VK_SUCCESS then .error ("failed to create texture sampler!", img1, t1)
  else .ok ({ img1 with m_cleaner := img1.m_cleaner.push Image.destroySamplerAction }, t1)

/-- `Image::create`. -/
def Image.create (drv : Driver) (img : Image) (t : Trace) :
    Except (String × Image × Trace) (Image × Trace) :=
  match img.createImage drv t with
  | .error e => .error e
  | .ok (img1, t1) =>
    match img1.allocateImageMemory drv t1 with
    | .error e => .error e
    | .ok (img2, t2) => img2.createImageViews drv t2

/-- `Image::createWithSampler`. -/
def Image.createWithSampler (drv : Driver) (img : Image) (t : Trace) :
    Except (String × Image × Trace) (Image × Trace) :=
  match img.createImage drv t with
  | .error e => .error e
  | .ok (img1, t1) =>
    match img1.allocateImageMemory drv t1 with
    | .error e => .error e
    | .ok (img2, t2) =>
      match img2.createImageViews drv t2 with
      | .error e => .error e
      | .ok (img3, t3) => img3.createSampler drv t3

/-- `Image::cleanup`: flushes the cleaner over the fields and the trace. -/
def Image.cleanup (img : Image) (t : Trace) : Image × Trace :=
  let r := img.m_cleaner.flush (img.toImageData, t)
  ({ toImageData := r.2.1, m_cleaner := r.1 }, r.2.2)

/-- `std::vector::resize` on the descriptor records, new elements
value-initialised. -/
def resizeInfos (v : List VkDescriptorImageInfo) (n : Nat) : List VkDescriptorImageInfo :=
  v.take n ++ List.replicate (n - v.length) ⟨VK_NULL_HANDLE, VK_NULL_HANDLE, 0⟩

/-- The loop of `Image::getDescriptorInfo`, run for the indices of the list in
turn. Reading `m_imageViews[i]` outside the vector is undefined: no result. -/
def Image.getDescriptorInfoLoop (img : Image) :
    List Nat → List VkDescriptorImageInfo → Option (List VkDescriptorImageInfo)
  | [], infos => some infos
  | i :: rest, infos =>
    match infos[i]?, img.m_imageViews[i]? with
    | some info, some view =>
      let info1 := { info with imageLayout := img.m_imageLayout }
      let info2 := { info1 with imageView := view }
      let info3 := { info2 with sampler := img.m_sampler }
      Image.getDescriptorInfoLoop img rest (infos.set i info3)
    | _, _ => none

/-- `Image::getDescriptorInfo`: the image with its refreshed records, and the
records the returned pointer designates. -/
def Image.getDescriptorInfo (img : Image) : Option (Image × List VkDescriptorImageInfo) :=
  let mipLevels := img.m_imageInfo.mipLevels
  let infos0 := resizeInfos img.m_descriptorInfos mipLevels
  match Image.getDescriptorInfoLoop img (List.range mipLevels) infos0 with
  | none => none
  | some infos => some ({ img with m_descriptorInfos := infos }, infos)

/-- `Image::cmdChangeLayout`. -/
def Image.cmdChangeLayout (img : Image) (cmdBuffer : CommandBuffer)
    (newLayout : VkImageLayout) (dstAccess : VkAccessFlags)
    (srcStage dstStage : VkPipelineStageFlags) : Image × CommandBuffer :=
  let barrier : VkImageMemoryBarrier := { Image.GetDefaultImageMemoryBarrier with
    image := img.m_image,
    oldLayout := img.m_imageLayout,
    newLayout := newLayout,
    dstAccessMask := dstAccess,
    subresourceRange := img.m_imageViewInfo.subresourceRange }
  ({ img with m_imageLayout := newLayout },
   cmdBuffer ++ [Cmd.pipelineBarrier srcStage dstStage 0 [barrier]])

/-- `Image::cmdTransitionToShaderR(VkCommandBuffer)`. -/
def Image.cmdTransitionToShaderR (img : Image) (cmdBuffer : CommandBuffer) :
    Image × CommandBuffer :=
  img.cmdChangeLayout cmdBuffer
    VK_IMAGE_LAYOUT_SHADER_READ_ONLY_OPTIMAL
    VK_ACCESS_SHADER_READ_BIT
    VK_PIPELINE_STAGE_COLOR_ATTACHMENT_OUTPUT_BIT
    VK_PIPELINE_STAGE_FRAGMENT_SHADER_BIT

/-- `Image::cmdTransitionToPresent(VkCommandBuffer)`. -/
def Image.cmdTransitionToPresent (img : Image) (cmdBuffer : CommandBuffer) :
    Image × CommandBuffer :=
  img.cmdChangeLayout cmdBuffer
    VK_IMAGE_LAYOUT_PRESENT_SRC_KHR
    VK_ACCESS_COLOR_ATTACHMENT_WRITE_BIT
    VK_PIPELINE_STAGE_FRAGMENT_SHADER_BIT
    VK_PIPELINE_STAGE_COLOR_ATTACHMENT_OUTPUT_BIT

/-- `Image::cmdTransitionToStorageW(VkCommandBuffer)`. -/
def Image.cmdTransitionToStorageW (img : Image) (cmdBuffer : CommandBuffer) :
    Image × CommandBuffer :=
  img.cmdChangeLayout cmdBuffer
    VK_IMAGE_LAYOUT_GENERAL
    VK_ACCESS_SHADER_WRITE_BIT
    VK_PIPELINE_STAGE_TOP_OF_PIPE_BIT
    VK_PIPELINE_STAGE_COMPUTE_SHADER_BIT

/-- `Image::cmdTransitionToStorageRW(VkCommandBuffer)`. -/
def Image.cmdTransitionToStorageRW (img : Image) (cmdBuffer : CommandBuffer) :
    Image × CommandBuffer :=
  img.cmdChangeLayout cmdBuffer
    VK_IMAGE_LAYOUT_GENERAL
    (VK_ACCESS_SHADER_WRITE_BIT ||| VK_ACCESS_SHADER_READ_BIT)
    VK_PIPELINE_STAGE_TOP_OF_PIPE_BIT
    VK_PIPELINE_STAGE_COMPUTE_SHADER_BIT

/-- `Image::cmdTransitionToTransferDst(VkCommandBuffer)`. -/
def Image.cmdTransitionToTransferDst (img : Image) (cmdBuffer : CommandBuffer) :
    Image × CommandBuffer :=
  img.cmdChangeLayout cmdBuffer
    VK_IMAGE_LAYOUT_TRANSFER_DST_OPTIMAL
    VK_ACCESS_TRANSFER_WRITE_BIT
    VK_PIPELINE_STAGE_TOP_OF_PIPE_BIT
    VK_PIPELINE_STAGE_TRANSFER_BIT

/-- `Image::cmdTransitionToTransferSrc(VkCommandBuffer)`. -/
def Image.cmdTransitionToTransferSrc (img : Image) (cmdBuffer : CommandBuffer) :
    Image × CommandBuffer :=
  img.cmdChangeLayout cmdBuffer
    VK_IMAGE_LAYOUT_TRANSFER_SRC_OPTIMAL
    VK_ACCESS_TRANSFER_READ_BIT
    VK_PIPELINE_STAGE_TOP_OF_PIPE_BIT
    VK_PIPELINE_STAGE_TRANSFER_BIT

/-- `Image::getImageSize`. -/
def Image.getImageSize (img : Image) : UInt2D :=
  ⟨img.m_imageInfo.extent.width, img.m_imageInfo.extent.height⟩

/-- `Image::cmdCopyImageToImage(cmdBuffer, pSrcImage, extent, srcMipLevel,
dstMipLevel)`; `img` is the destination. Neither image is written. -/
def Image.cmdCopyImageToImageRegion (img : Image) (cmdBuffer : CommandBuffer) (pSrcImage : Image)
    (extent : VkExtent3D) (srcMipLevel dstMipLevel : Nat) : CommandBuffer :=
  let srcImage := pSrcImage.m_image
  let srcImageLayout := pSrcImage.m_imageLayout
  let srcImageViewInfo := pSrcImage.m_imageViewInfo
  let dstImage := img.m_image
  let dstImageLayout := img.m_imageLayout
  let dstImageViewInfo := img.m_imageViewInfo
  let region : VkImageCopy :=
    { srcOffset := ⟨0, 0, 0⟩,
      srcSubresource :=
        { aspectMask := srcImageViewInfo.subresourceRange.aspectMask,
          baseArrayLayer := srcImageViewInfo.subresourceRange.baseArrayLayer,
          layerCount := srcImageViewInfo.subresourceRange.layerCount,
          mipLevel := srcMipLevel },
      dstOffset := ⟨0, 0, 0⟩,
      dstSubresource :=
        { aspectMask := dstImageViewInfo.subresourceRange.aspectMask,
          baseArrayLayer := dstImageViewInfo.subresourceRange.baseArrayLayer,
          layerCount := dstImageViewInfo.subresourceRange.layerCount,
          mipLevel := dstMipLevel },
      extent := extent }
  cmdBuffer ++ [Cmd.copyImage srcImage srcImageLayout dstImage dstImageLayout [region]]

/-- `Image::cmdCopyImageToImage(cmdBuffer, pSrcImage)`: the copy of
`m_imageInfo.extent`. The two mip-level parameters take their defaults,
declared in a header that is not among the sources; they are 0, the base
level. -/
def Image.cmdCopyImageToImage (img : Image) (cmdBuffer : CommandBuffer) (pSrcImage : Image) :
    CommandBuffer :=
  img.cmdCopyImageToImageRegion cmdBuffer pSrcImage img.m_imageInfo.extent 0 0

/-- Modelled from the spec: `Commander` is not among the sources. A one-shot
submission allocates a dedicated command buffer, records into it, submits it
and waits for completion; the result is what the recording returns together
with the commands submitted. -/
def Commander.singleTimeCommands {σ : Type} (record : CommandBuffer → σ × CommandBuffer) :
    σ × CommandBuffer :=
  record []

/-- `Image::cmdCall`: the one-shot form of a transition. -/
def Image.cmdCall (img : Image) (cmdFunc : Image → CommandBuffer → Image × CommandBuffer) :
    Image × CommandBuffer :=
  Commander.singleTimeCommands (cmdFunc img)

/-- The six layout transitions of `Image`. -/
inductive Transition where
  | ShaderR | Present | StorageW | StorageRW | TransferDst | TransferSrc
deriving DecidableEq, Repr

/-- The command-buffer form of each transition. -/
def Transition.cmd : Transition → Image → CommandBuffer → Image × CommandBuffer
  | .ShaderR => Image.cmdTransitionToShaderR
  | .Present => Image.cmdTransitionToPresent
  | .StorageW => Image.cmdTransitionToStorageW
  | .StorageRW => Image.cmdTransitionToStorageRW
  | .TransferDst => Image.cmdTransitionToTransferDst
  | .TransferSrc => Image.cmdTransitionToTransferSrc

/-- The one-shot form of each transition (`cmdCall(&Image::cmdTransitionTo...)`). -/
def Transition.oneShot (x : Transition) (img : Image) : Image × CommandBuffer :=
  img.cmdCall x.cmd

/-- The layout the specification associates with each transition. -/
def Transition.specLayout : Transition → VkImageLayout
  | .ShaderR => VK_IMAGE_LAYOUT_SHADER_READ_ONLY_OPTIMAL
  | .Present => VK_IMAGE_LAYOUT_PRESENT_SRC_KHR
  | .StorageW => VK_IMAGE_LAYOUT_GENERAL
  | .StorageRW => VK_IMAGE_LAYOUT_GENERAL
  | .TransferDst => VK_IMAGE_LAYOUT_TRANSFER_DST_OPTIMAL
  | .TransferSrc => VK_IMAGE_LAYOUT_TRANSFER_SRC_OPTIMAL

/-- The `(newLayout, dstAccessMask, srcStage, dstStage)` tuple the
specification lists for each transition. -/
def Transition.specTuple :
    Transition → VkImageLayout × VkAccessFlags × VkPipelineStageFlags × VkPipelineStageFlags
  | .ShaderR => (VK_IMAGE_LAYOUT_SHADER_READ_ONLY_OPTIMAL, VK_ACCESS_SHADER_READ_BIT,
      VK_PIPELINE_STAGE_COLOR_ATTACHMENT_OUTPUT_BIT, VK_PIPELINE_STAGE_FRAGMENT_SHADER_BIT)
  | .Present => (VK_IMAGE_LAYOUT_PRESENT_SRC_KHR, VK_ACCESS_COLOR_ATTACHMENT_WRITE_BIT,
      VK_PIPELINE_STAGE_FRAGMENT_SHADER_BIT, VK_PIPELINE_STAGE_COLOR_ATTACHMENT_OUTPUT_BIT)
  | .StorageW => (VK_IMAGE_LAYOUT_GENERAL, VK_ACCESS_SHADER_WRITE_BIT,
      VK_PIPELINE_STAGE_TOP_OF_PIPE_BIT, VK_PIPELINE_STAGE_COMPUTE_SHADER_BIT)
  | .StorageRW => (VK_IMAGE_LAYOUT_GENERAL,
      VK_ACCESS_SHADER_WRITE_BIT ||| VK_ACCESS_SHADER_READ_BIT,
      VK_PIPELINE_STAGE_TOP_OF_PIPE_BIT, VK_PIPELINE_STAGE_COMPUTE_SHADER_BIT)
  | .TransferDst => (VK_IMAGE_LAYOUT_TRANSFER_DST_OPTIMAL, VK_ACCESS_TRANSFER_WRITE_BIT,
      VK_PIPELINE_STAGE_TOP_OF_PIPE_BIT, VK_PIPELINE_STAGE_TRANSFER_BIT)
  | .TransferSrc => (VK_IMAGE_LAYOUT_TRANSFER_SRC_OPTIMAL, VK_ACCESS_TRANSFER_READ_BIT,
      VK_PIPELINE_STAGE_TOP_OF_PIPE_BIT, VK_PIPELINE_STAGE_TRANSFER_BIT)

/-- The answer of `vkGetPhysicalDeviceFormatProperties`. -/
structure VkFormatProperties where
  linearTilingFeatures : Nat
  optimalTilingFeatures : Nat
  bufferFeatures : Nat
deriving DecidableEq, Repr

/-- The physical device behind `m_pDevice->getPhysicalDevice()`: what it
reports for each format. -/
structure PhysicalDevice where
  formatProperties : VkFormat → VkFormatProperties

/-- The loop of `Image::cmdGenerateMipmaps`, run for the levels of the list in
turn. The state is the barrier record (kept across iterations), `mipWidth`,
`mipHeight` and the command buffer. `ceil(mipWidth / 2)` divides two `int`s,
which truncates toward zero, and the ceiling of the integer result is that
integer. -/
def Image.cmdGenerateMipmapsLoop (image : Handle) (layerCount : Nat) :
    List Nat → VkImageMemoryBarrier × Int × Int × CommandBuffer →
      VkImageMemoryBarrier × Int × Int × CommandBuffer
  | [], s => s
  | i :: rest, (barrier, mipWidth, mipHeight, cmdBuffer) =>
    let halfMipWidth := Int.tdiv mipWidth 2
    let halfMipHeight := Int.tdiv mipHeight 2
    let barrier1 : VkImageMemoryBarrier := { barrier with
      subresourceRange := { barrier.subresourceRange with baseMipLevel := i - 1 },
      oldLayout := VK_IMAGE_LAYOUT_TRANSFER_DST_OPTIMAL,
      newLayout := VK_IMAGE_LAYOUT_TRANSFER_SRC_OPTIMAL,
      srcAccessMask := VK_ACCESS_TRANSFER_WRITE_BIT,
      dstAccessMask := VK_ACCESS_TRANSFER_READ_BIT }
    let cb1 := cmdBuffer ++ [Cmd.pipelineBarrier VK_PIPELINE_STAGE_TRANSFER_BIT
      VK_PIPELINE_STAGE_TRANSFER_BIT 0 [barrier1]]
    let blit : VkImageBlit :=
      { srcOffsets := (⟨0, 0, 0⟩, ⟨mipWidth, mipHeight, 1⟩),
        srcSubresource := { aspectMask := VK_IMAGE_ASPECT_COLOR_BIT, mipLevel := i - 1,
                            baseArrayLayer := 0, layerCount := layerCount },
        dstOffsets := (⟨0, 0, 0⟩, ⟨halfMipWidth, halfMipHeight, 1⟩),
        dstSubresource := { aspectMask := VK_IMAGE_ASPECT_COLOR_BIT, mipLevel := i,
                            baseArrayLayer := 0, layerCount := layerCount } }
    let cb2 := cb1 ++ [Cmd.blitImage image VK_IMAGE_LAYOUT_TRANSFER_SRC_OPTIMAL
      image VK_IMAGE_LAYOUT_TRANSFER_DST_OPTIMAL [blit] VK_FILTER_LINEAR]
    let barrier2 : VkImageMemoryBarrier := { barrier1 with
      oldLayout := VK_IMAGE_LAYOUT_TRANSFER_SRC_OPTIMAL,
      newLayout := VK_IMAGE_LAYOUT_TRANSFER_DST_OPTIMAL,
      srcAccessMask := VK_ACCESS_TRANSFER_READ_BIT,
      dstAccessMask := VK_ACCESS_TRANSFER_WRITE_BIT }
    let cb3 := cb2 ++ [Cmd.pipelineBarrier VK_PIPELINE_STAGE_TRANSFER_BIT
      VK_PIPELINE_STAGE_TRANSFER_BIT 0 [barrier2]]
    Image.cmdGenerateMipmapsLoop image layerCount rest
      (barrier2, halfMipWidth, halfMipHeight, cb3)

/-- `Image::cmdGenerateMipmaps`. The loop `for (uint32_t i = 1; i < mipLevels; i++)`
visits the levels `1 .. mipLevels - 1`; the `int32_t` width and height start
from the unsigned extent converted to `int32_t`. -/
def Image.cmdGenerateMipmaps (pd : PhysicalDevice) (img : Image) (cmdBuffer : CommandBuffer) :
    Except (String × Image × CommandBuffer) (Image × CommandBuffer) :=
  let image := img.m_image
  let imageInfo := img.m_imageInfo
  let imageViewInfo := img.m_imageViewInfo
  let layerCount := imageViewInfo.subresourceRange.layerCount
  let formatProperties := pd.formatProperties imageInfo.format
  if formatProperties.optimalTilingFeatures &&&
      VK_FORMAT_FEATURE_SAMPLED_IMAGE_FILTER_LINEAR_BIT = 0 then
    .error ("texture image format does not support linear blitting!", img, cmdBuffer)
  else
    let barrier : VkImageMemoryBarrier := { Image.GetDefaultImageMemoryBarrier with
      image := image,
      subresourceRange := { Image.GetDefaultImageMemoryBarrier.subresourceRange with
        layerCount := layerCount } }
    let mipWidth := toInt32 imageInfo.extent.width
    let mipHeight := toInt32 imageInfo.extent.height
    let r := Image.cmdGenerateMipmapsLoop image layerCount
      (List.range' 1 (imageInfo.mipLevels - 1)) (barrier, mipWidth, mipHeight, cmdBuffer)
    .ok (img, r.2.2.2)

/-- The barrier record as one iteration of the mipmap loop leaves it. -/
def mipStepBarrier (barrier : VkImageMemoryBarrier) (i : Nat) : VkImageMemoryBarrier :=
  { barrier with
    subresourceRange := { barrier.subresourceRange with baseMipLevel := i - 1 },
    oldLayout := VK_IMAGE_LAYOUT_TRANSFER_SRC_OPTIMAL,
    newLayout := VK_IMAGE_LAYOUT_TRANSFER_DST_OPTIMAL,
    srcAccessMask := VK_ACCESS_TRANSFER_READ_BIT,
    dstAccessMask := VK_ACCESS_TRANSFER_WRITE_BIT }

/-- The three commands one iteration of the mipmap loop records. -/
def mipStepCmds (image : Handle) (layerCount : Nat) (barrier : VkImageMemoryBarrier)
    (mipWidth mipHeight : Int) (i : Nat) : List Cmd :=
  [ Cmd.pipelineBarrier VK_PIPELINE_STAGE_TRANSFER_BIT VK_PIPELINE_STAGE_TRANSFER_BIT 0
      [{ barrier with
         subresourceRange := { barrier.subresourceRange with baseMipLevel := i - 1 },
         oldLayout := VK_IMAGE_LAYOUT_TRANSFER_DST_OPTIMAL,
         newLayout := VK_IMAGE_LAYOUT_TRANSFER_SRC_OPTIMAL,
         srcAccessMask := VK_ACCESS_TRANSFER_WRITE_BIT,
         dstAccessMask := VK_ACCESS_TRANSFER_READ_BIT }],
    Cmd.blitImage image VK_IMAGE_LAYOUT_TRANSFER_SRC_OPTIMAL
      image VK_IMAGE_LAYOUT_TRANSFER_DST_OPTIMAL
      [{ srcOffsets := (⟨0, 0, 0⟩, ⟨mipWidth, mipHeight, 1⟩),
         srcSubresource := { aspectMask := VK_IMAGE_ASPECT_COLOR_BIT, mipLevel := i - 1,
                             baseArrayLayer := 0, layerCount := layerCount },
         dstOffsets := (⟨0, 0, 0⟩, ⟨Int.tdiv mipWidth 2, Int.tdiv mipHeight 2, 1⟩),
         dstSubresource := { aspectMask := VK_IMAGE_ASPECT_COLOR_BIT, mipLevel := i,
                             baseArrayLayer := 0, layerCount := layerCount } }]
      VK_FILTER_LINEAR,
    Cmd.pipelineBarrier VK_PIPELINE_STAGE_TRANSFER_BIT VK_PIPELINE_STAGE_TRANSFER_BIT 0
      [mipStepBarrier barrier i] ]

/-- The commands left in the command buffer, whether the call returned or threw. -/
def recordedOf {σ : Type} :
    Except (String × σ × CommandBuffer) (σ × CommandBuffer) → CommandBuffer
  | .ok r => r.2
  | .error e => e.2.2

/-- The far corners `(x, y)` of the source and of the destination of a blit. -/
def Cmd.blitCorners : Cmd → List ((Int × Int) × (Int × Int))
  | .blitImage _ _ _ _ regions _ =>
    regions.map (fun b => ((b.srcOffsets.2.x, b.srcOffsets.2.y), (b.dstOffsets.2.x, b.dstOffsets.2.y)))
  | _ => []

/-- The blit corners of a command buffer, in order. -/
def blitCornersOf (cmdBuffer : CommandBuffer) : List ((Int × Int) × (Int × Int)) :=
  cmdBuffer.flatMap Cmd.blitCorners

def Cmd.isBlit : Cmd → Bool
  | .blitImage _ _ _ _ _ _ => true
  | _ => false

def Cmd.isBarrier : Cmd → Bool
  | .pipelineBarrier _ _ _ _ => true
  | _ => false

/-- The size of mip level `i` as the specification words it: `w_0 = w` and
`w_i = floor(w_(i-1) / 2)`. -/
def specMipSize (w : Nat) : Nat → Nat
  | 0 => w
  | i + 1 => specMipSize w i / 2

/-- The barrier the specification describes on one mip level of an image,
from one transfer layout to the other. -/
def specMipBarrier (img : Image) (level : Nat) (oldLayout newLayout : VkImageLayout)
    (srcAccess dstAccess : VkAccessFlags) : Cmd :=
  Cmd.pipelineBarrier VK_PIPELINE_STAGE_TRANSFER_BIT VK_PIPELINE_STAGE_TRANSFER_BIT 0
    [{ srcAccessMask := srcAccess, dstAccessMask := dstAccess,
       oldLayout := oldLayout, newLayout := newLayout,
       srcQueueFamilyIndex := VK_QUEUE_FAMILY_IGNORED,
       dstQueueFamilyIndex := VK_QUEUE_FAMILY_IGNORED,
       image := img.m_image,
       subresourceRange := { aspectMask := VK_IMAGE_ASPECT_COLOR_BIT, baseMipLevel := level,
                             levelCount := 1, baseArrayLayer := 0,
                             layerCount := img.m_imageViewInfo.subresourceRange.layerCount } }]

/-- The triple the specification describes for level `i` of an image of extent
`(w, h)`: barrier on level `i - 1` to transfer-source, blit from level `i - 1`
of extent `(w_(i-1), h_(i-1))` to level `i` of extent
`(floor(w_(i-1) / 2), floor(h_(i-1) / 2))`, barrier on level `i - 1` back to
transfer-destination. -/
def specMipmapStep (img : Image) (w h i : Nat) : List Cmd :=
  [ specMipBarrier img (i - 1) VK_IMAGE_LAYOUT_TRANSFER_DST_OPTIMAL
      VK_IMAGE_LAYOUT_TRANSFER_SRC_OPTIMAL VK_ACCESS_TRANSFER_WRITE_BIT
      VK_ACCESS_TRANSFER_READ_BIT,
    Cmd.blitImage img.m_image VK_IMAGE_LAYOUT_TRANSFER_SRC_OPTIMAL
      img.m_image VK_IMAGE_LAYOUT_TRANSFER_DST_OPTIMAL
      [{ srcOffsets := (⟨0, 0, 0⟩,
           ⟨(specMipSize w (i - 1) : Nat), (specMipSize h (i - 1) : Nat), 1⟩),
         srcSubresource := { aspectMask := VK_IMAGE_ASPECT_COLOR_BIT, mipLevel := i - 1,
                             baseArrayLayer := 0,
                             layerCount := img.m_imageViewInfo.subresourceRange.layerCount },
         dstOffsets := (⟨0, 0, 0⟩,
           ⟨(specMipSize w (i - 1) / 2 : Nat), (specMipSize h (i - 1) / 2 : Nat), 1⟩),
         dstSubresource := { aspectMask := VK_IMAGE_ASPECT_COLOR_BIT, mipLevel := i,
                             baseArrayLayer := 0,
                             layerCount := img.m_imageViewInfo.subresourceRange.layerCount } }]
      VK_FILTER_LINEAR,
    specMipBarrier img (i - 1) VK_IMAGE_LAYOUT_TRANSFER_SRC_OPTIMAL
      VK_IMAGE_LAYOUT_TRANSFER_DST_OPTIMAL VK_ACCESS_TRANSFER_READ_BIT
      VK_ACCESS_TRANSFER_WRITE_BIT ]

/-- A physical device on which every format supports linear filtering of
sampled images with optimal tiling. -/
def samplePhysicalDevice : PhysicalDevice :=
  ⟨fun _ => ⟨0, VK_FORMAT_FEATURE_SAMPLED_IMAGE_FILTER_LINEAR_BIT, 0⟩⟩

/-- A physical device on which no format has any optimal-tiling feature. -/
def bareDevice : PhysicalDevice :=
  ⟨fun _ => ⟨0, 0, 0⟩⟩

/-- An image record of the given extent and mip level count, otherwise as
constructed. -/
def sampleImage (w h mipLevels : Nat) : Image :=
  { Image.new with
    m_image := 7,
    m_imageInfo := { Image.GetDefaultImageCreateInfo with
      extent := ⟨w, h, 1⟩, mipLevels := mipLevels } }

/-! ## Buffer (resources/buffer.cpp) -/

/-- The fields of `Buffer` other than its cleaner. -/
structure BufferData where
  m_buffer : Handle
  m_bufferMemory : Handle
  m_bufferInfo : VkBufferCreateInfo
  m_descriptorInfo : VkDescriptorBufferInfo
deriving DecidableEq, Repr

structure Buffer extends BufferData where
  m_cleaner : Cleaner (BufferData × Trace)

/-- `Buffer::GetDefaultBufferCreateInfo`. -/
def Buffer.GetDefaultBufferCreateInfo : VkBufferCreateInfo :=
  { flags := 0, size := 0, usage := 0, sharingMode := VK_SHARING_MODE_EXCLUSIVE }

/-- Constructor `Buffer::Buffer`: null handles, zeroed records, empty cleaner
(the spec's "created empty"). -/
def Buffer.new : Buffer :=
  { m_buffer := VK_NULL_HANDLE, m_bufferMemory := VK_NULL_HANDLE,
    m_bufferInfo := { flags := 0, size := 0, usage := 0, sharingMode := 0 },
    m_descriptorInfo := { buffer := VK_NULL_HANDLE, offset := 0, range := 0 },
    m_cleaner := Cleaner.empty }

/-- `Buffer::setup`. -/
def Buffer.setup (b : Buffer) (size usage : Nat) : Buffer :=
  let bufferInfo := { Buffer.GetDefaultBufferCreateInfo with size := size, usage := usage }
  { b with m_bufferInfo := bufferInfo }

/-- The release action pushed by `createBuffer`:
`vkDestroyBuffer(device, m_buffer, nullptr)`; the member is read when the
action runs. -/
def Buffer.destroyBufferAction (s : BufferData × Trace) : BufferData × Trace :=
  (s.1, s.2 ++ [VkCall.destroyBuffer s.1.m_buffer])

/-- The release action pushed by `allocateBufferMemory`:
`vkFreeMemory(device, m_bufferMemory, nullptr)`. -/
def Buffer.freeMemoryAction (s : BufferData × Trace) : BufferData × Trace :=
  (s.1, s.2 ++ [VkCall.freeMemory s.1.m_bufferMemory])

/-- `Buffer::createBuffer`. -/
def Buffer.createBuffer (drv : Driver) (b : Buffer) (t : Trace) :
    Except (String × Buffer × Trace) (Buffer × Trace) :=
  let answer := drv.createBuffer t b.m_bufferInfo
  let b1 : Buffer := { b with m_buffer := answer.2 }
  let t1 := t ++ [VkCall.createBuffer b.m_bufferInfo]
  if answer.1 ≠ VK_SUCCESS then .error ("failed to buffer!", b1, t1)
  else .ok ({ b1 with m_cleaner := b1.m_cleaner.push Buffer.destroyBufferAction }, t1)

/-- `Buffer::allocateBufferMemory`. -/
def Buffer.allocateBufferMemory (drv : Driver) (b : Buffer) (t : Trace) :
    Except (String × Buffer × Trace) (Buffer × Trace) :=
  let buffer := b.m_buffer
  let memoryRequirements := drv.getBufferMemoryRequirements t buffer
  let t1 := t ++ [VkCall.getBufferMemoryRequirements buffer]
  match drv.findMemoryTypeIndex memoryRequirements.memoryTypeBits
      (VK_MEMORY_PROPERTY_HOST_VISIBLE_BIT ||| VK_MEMORY_PROPERTY_HOST_COHERENT_BIT) with
  | .error msg => .error (msg, b, t1)
  | .ok memoryTypeIndex =>
    let answer := drv.allocateMemory t1 memoryRequirements.size memoryTypeIndex
    let bufferMemory := answer.2
    let t2 := t1 ++ [VkCall.allocateMemory memoryRequirements.size memoryTypeIndex]
    if answer.1 ≠ VK_SUCCESS then .error ("failed to allocate buffer memory!", b, t2)
    else
      let t3 := t2 ++ [VkCall.bindBufferMemory buffer bufferMemory 0]
      let b1 : Buffer := { b with m_bufferMemory := bufferMemory }
      .ok ({ b1 with m_cleaner := b1.m_cleaner.push Buffer.freeMemoryAction }, t3)

/-- `Buffer::createDescriptorInfo`. -/
def Buffer.createDescriptorInfo (b : Buffer) : Buffer :=
  { b with m_descriptorInfo :=
      { buffer := b.m_buffer, range := b.m_bufferInfo.size, offset := 0 } }

/-- `Buffer::create`. -/
def Buffer.create (drv : Driver) (b : Buffer) (t : Trace) :
    Except (String × Buffer × Trace) (Buffer × Trace) :=
  match b.createBuffer drv t with
  | .error e => .error e
  | .ok (b1, t1) =>
    match b1.allocateBufferMemory drv t1 with
    | .error e => .error e
    | .ok (b2, t2) => .ok (b2.createDescriptorInfo, t2)

/-- `Buffer::cleanup`: flushes the cleaner over the fields and the trace. -/
def Buffer.cleanup (b : Buffer) (t : Trace) : Buffer × Trace :=
  let r := b.m_cleaner.flush (b.toBufferData, t)
  ({ toBufferData := r.2.1, m_cleaner := r.1 }, r.2.2)

/-- `Buffer::mapMemory`: `vkMapMemory(device, m_bufferMemory, 0, size, 0, &ptr)`.
A host pointer into the allocation is its byte offset from the start of the
allocation; `mem` is the content of the allocation. No pointer results when
the range `[0, size)` is not inside the allocation. -/
def Buffer.mapMemory (b : Buffer) (mem : List Byte) (t : Trace) (size : Nat) :
    Option (Trace × Nat) :=
  if size ≤ mem.length then some (t ++ [VkCall.mapMemory b.m_bufferMemory 0 size], 0)
  else none

/-- `Buffer::unmapMemory`. -/
def Buffer.unmapMemory (b : Buffer) (t : Trace) : Trace :=
  t ++ [VkCall.unmapMemory b.m_bufferMemory]

/-- `memcpy(ptr, address, size)` into the allocation: the first `size` bytes
found at `address` replace the bytes `[ptr, ptr + size)`. Undefined (no
result) when `address` holds fewer than `size` bytes or the destination
range leaves the allocation. -/
def memcpy (mem : List Byte) (ptr : Nat) (address : List Byte) (size : Nat) :
    Option (List Byte) :=
  if size ≤ address.length ∧ ptr + size ≤ mem.length then
    some (mem.take ptr ++ address.take size ++ mem.drop (ptr + size))
  else none

/-- `Buffer::fillBuffer(address, size, shift)`: the new content of the
allocation, the trace and the returned pointer. -/
def Buffer.fillBuffer (b : Buffer) (mem : List Byte) (t : Trace)
    (address : List Byte) (size shift : Nat) : Option (List Byte × Trace × Nat) :=
  match b.mapMemory mem t size with
  | none => none
  | some (t1, ptr0) =>
    let ptr := ptr0 + shift
    match memcpy mem ptr address size with
    | none => none
    | some mem1 => some (mem1, b.unmapMemory t1, ptr)

/-- `Buffer::fillBufferFull`: `fillBuffer(address, m_bufferInfo.size)`. The
third parameter takes its default, declared in a header that is not among the
sources; it is 0, a write at the start of the memory as the spec describes. -/
def Buffer.fillBufferFull (b : Buffer) (mem : List Byte) (t : Trace)
    (address : List Byte) : Option (List Byte × Trace × Nat) :=
  b.fillBuffer mem t address b.m_bufferInfo.size 0

/-- A host read of `n` bytes at offset `ptr` of the allocation. -/
def hostRead (mem : List Byte) (ptr n : Nat) : List Byte :=
  (mem.drop ptr).take n

/-! ## ComputeInterference (pipelines/compute_interference.cpp) -/

def WORKGROUP_SIZE_X : Nat := 128

/-- Modelled from the spec: the set slots `S0..S4` are declared in a header
that is not among the sources; `S0` is the first slot. -/
def S0 : Nat := 0

/-- Modelled from the spec: `Pipeline` is not among the sources; the stage
uses the handle of the built pipeline object, returned by `get()`. -/
structure Pipeline where
  get : Handle

/-- Modelled from the spec: `Descriptor` is not among the sources; the stage
uses the set allocated for a set slot, returned by `getDescriptorSet`. The
group holds for each set slot "an ordered list of (binding-index -> resource
reference) entries": `m_imageWrites` are the staged image entries, each a set
slot, a binding index and the image descriptor records. -/
structure Descriptor where
  getDescriptorSet : Nat → Handle
  m_imageWrites : List (Nat × Nat × List VkDescriptorImageInfo) := []

/-- Modelled from the spec: `Descriptor::setupPointerImage(set, binding, info)`
(`bindImage` in the spec) "stages a write": the entry of that set slot and
binding becomes the given records. -/
def Descriptor.setupPointerImage (d : Descriptor) (set binding : Nat)
    (info : List VkDescriptorImageInfo) : Descriptor :=
  { d with m_imageWrites :=
      d.m_imageWrites.filter (fun w => !(w.1 == set && w.2.1 == binding)) ++
        [(set, binding, info)] }

/-- Modelled from the spec: `Descriptor::update(set)` (`flush` in the spec)
"applies all staged writes for that set via a descriptor-set update call". -/
def Descriptor.update (d : Descriptor) (set : Nat) (t : Trace) : Descriptor × Trace :=
  (d, t ++ [VkCall.updateDescriptorSets (d.getDescriptorSet set)
      ((d.m_imageWrites.filter (fun w => w.1 == set)).map (fun w => w.2))])

structure ComputeInterference where
  m_misc : PCMisc
  m_pipelineLayout : Handle
  m_pPipeline : Pipeline
  m_pDescriptor : Descriptor
  m_pOutputImage : Image
  m_cleaner : Cleaner (Image × Trace) := Cleaner.empty

/-- `ComputeInterference::dispatch(VkCommandBuffer)`. The group count along x
is computed in 32-bit unsigned arithmetic. -/
def ComputeInterference.dispatch (ci : ComputeInterference) (cmdBuffer : CommandBuffer) :
    ComputeInterference × CommandBuffer :=
  let pipelineLayout := ci.m_pipelineLayout
  let pipeline := ci.m_pPipeline.get
  let descSet := ci.m_pDescriptor.getDescriptorSet S0
  let misc := ci.m_misc
  let cb1 := cmdBuffer ++ [Cmd.pushConstants pipelineLayout VK_SHADER_STAGE_COMPUTE_BIT 0 misc]
  let cb2 := cb1 ++ [Cmd.bindPipeline VK_PIPELINE_BIND_POINT_COMPUTE pipeline]
  let cb3 := cb2 ++ [Cmd.bindDescriptorSets VK_PIPELINE_BIND_POINT_COMPUTE pipelineLayout 0
    [descSet]]
  let cb4 := cb3 ++ [Cmd.dispatch ((misc.opdSample / WORKGROUP_SIZE_X + 1) % 2 ^ 32)
    misc.rSample 1]
  let r := ci.m_pOutputImage.cmdTransitionToTransferSrc cb4
  ({ ci with m_pOutputImage := r.1 }, r.2)

/-- The group counts of a dispatch command. -/
def Cmd.groupCounts : Cmd → Option (Nat × Nat × Nat)
  | .dispatch x y z => some (x, y, z)
  | _ => none

/-- The group counts of the dispatch commands of a command buffer, in order. -/
def dispatchesOf (cmdBuffer : CommandBuffer) : List (Nat × Nat × Nat) :=
  cmdBuffer.filterMap Cmd.groupCounts

/-- The workgroup count along the first axis as the specification words it:
`ceil(opdSamples / 128)`, the ceiling of the exact quotient. -/
def specGroupCountX (opdSamples : Nat) : Nat :=
  ⌈(opdSamples : ℚ) / 128⌉₊

/-- The mip level count as the specification words it:
`min(floor(log2(max(w,h))) + 1, 7)`. -/
def specMipLevels (w h : Nat) : Nat :=
  min (Nat.log 2 (max w h) + 1) 7

/-- A stage with the given sample counts, fixed handles and a freshly
constructed output image. -/
def sampleStage (opdSamples rSamples : Nat) : ComputeInterference :=
  { m_misc := ⟨opdSamples, rSamples⟩, m_pipelineLayout := 11,
    m_pPipeline := ⟨12⟩, m_pDescriptor := { getDescriptorSet := fun _ => 13 },
    m_pOutputImage := Image.new }

/-- The view-creation record of mip level `i`: the stored record with
`baseMipLevel = i` and `levelCount = mipLevels - i`. -/
def Image.viewInfoAt (info : VkImageViewCreateInfo) (mipLevels i : Nat) :
    VkImageViewCreateInfo :=
  { info with subresourceRange := { info.subresourceRange with
      baseMipLevel := i, levelCount := mipLevels - i } }

/-- The `vkCreateImageView` calls for the mip levels `k, k + 1, .., k + n - 1`. -/
def viewCalls (info : VkImageViewCreateInfo) (mipLevels k n : Nat) : Trace :=
  (List.range' k n).map (fun i => VkCall.createImageView (Image.viewInfoAt info mipLevels i))

/-- A driver on which every call succeeds; handles are numbered after the
length of the trace. -/
def sampleDriver : Driver :=
  { createBuffer := fun t _ => (VK_SUCCESS, 100 + t.length),
    getBufferMemoryRequirements := fun _ _ => ⟨64, 16, 3⟩,
    findMemoryTypeIndex := fun _ _ => .ok 1,
    allocateMemory := fun t _ _ => (VK_SUCCESS, 100 + t.length),
    createImageView := fun t _ => (VK_SUCCESS, 100 + t.length),
    createFramebuffer := fun t => 100 + t.length,
    createImage := fun t _ => (VK_SUCCESS, 100 + t.length),
    getImageMemoryRequirements := fun _ _ => ⟨65536, 256, 3⟩,
    createSampler := fun t _ => (VK_SUCCESS, 100 + t.length) }

/-- An image record with handle 7 and 3 mip levels, views not yet created. -/
def sampleTexture : Image :=
  { Image.new with
    m_image := 7,
    m_imageInfo := { Image.GetDefaultImageCreateInfo with extent := ⟨4, 4, 1⟩, mipLevels := 3 } }

/-- What `vkCreateBuffer` answers when `create` is called in trace `t`. -/
def Buffer.creationAnswer (drv : Driver) (b : Buffer) (t : Trace) : VkResult × Handle :=
  drv.createBuffer t b.m_bufferInfo

/-- The trace of `create` up to and including the memory-requirements query. -/
def Buffer.traceToRequirements (drv : Driver) (b : Buffer) (t : Trace) : Trace :=
  t ++ [VkCall.createBuffer b.m_bufferInfo] ++
    [VkCall.getBufferMemoryRequirements (b.creationAnswer drv t).2]

/-- The memory requirements the driver reports for the buffer just created. -/
def Buffer.requirementsAnswer (drv : Driver) (b : Buffer) (t : Trace) : VkMemoryRequirements :=
  drv.getBufferMemoryRequirements (t ++ [VkCall.createBuffer b.m_bufferInfo])
    (b.creationAnswer drv t).2

/-- What the memory-type lookup answers in `allocateBufferMemory`. -/
def Buffer.lookupAnswer (drv : Driver) (b : Buffer) (t : Trace) : Except String Nat :=
  drv.findMemoryTypeIndex (b.requirementsAnswer drv t).memoryTypeBits
    (VK_MEMORY_PROPERTY_HOST_VISIBLE_BIT ||| VK_MEMORY_PROPERTY_HOST_COHERENT_BIT)

/-- What `vkAllocateMemory` answers for the memory type `memoryTypeIndex`. -/
def Buffer.allocationAnswer (drv : Driver) (b : Buffer) (t : Trace) (memoryTypeIndex : Nat) :
    VkResult × Handle :=
  drv.allocateMemory (b.traceToRequirements drv t) (b.requirementsAnswer drv t).size
    memoryTypeIndex

/-- A driver on which buffer creation and memory allocation report success
but no memory type is compatible. -/
def noMemoryTypeDriver : Driver :=
  { sampleDriver with findMemoryTypeIndex := fun _ _ => .error "failed to find suitable memory type!" }

/-! ## GraphicsScene (pipelines/graphics_scene.cpp)

The `float` members are read as exact numbers of a type `F`: the rationals
where values are recorded into commands, the reals where sine and cosine are
taken. -/

/-- A `glm::vec2`. -/
structure Vec2 (F : Type) where
  x : F
  y : F
deriving DecidableEq, Repr

/-- The sine, the cosine and the constant pi of the number type. -/
structure Trig (F : Type) where
  sin : F → F
  cos : F → F
  pi : F

/-- Library function `glm::radians`: degrees times pi / 180. -/
def glmRadians {F : Type} [Field F] (trig : Trig F) (degrees : F) : F :=
  degrees * (trig.pi / 180)

/-- Modelled from the spec: `Settings` is not among the sources. It is the
configuration provider "exposing simulation and rendering parameters (sample
counts, light count/color/radiance, clear colors, distances, an externally
driven iteration counter)"; the fields are those the sources read. -/
structure Settings (F : Type) where
  OPDSample : Nat
  RSample : Nat
  Radiance : F
  TotalLight : Nat
  LightColor : Vec4 F
  Distance : Vec2 F
  Iteration : Int
  Reflectance : F
  ClearColor : ℚ × ℚ × ℚ × ℚ
  ClearDepth : ℚ × Nat

/-- Modelled from the spec: the declaration of `UBLights` is in a header that
is not among the sources. It is the light uniform block: the fields the
source assigns, with `position` an array of fixed capacity (the length of the
list). -/
structure UBLights (F : Type) where
  color : Vec4 F
  radiance : F
  total : Nat
  position : List (Vec4 F)
deriving DecidableEq, Repr

/-- The loop of `GraphicsScene::updateLightInput`, run for the indices of the
list in turn, on the `position` array. An index outside the array is
undefined: no result. -/
def GraphicsScene.updateLightInputLoop {F : Type} [Field F] (trig : Trig F)
    (distance : Vec2 F) (iteration : Int) (interval : F) :
    List Nat → List (Vec4 F) → Option (List (Vec4 F))
  | [], position => some position
  | i :: rest, position =>
    match position[i]? with
    | none => none
    | some p =>
      let p1 := { p with z := distance.x }
      let p2 := { p1 with x := trig.sin ((iteration : F) / 100 + (i : F) * interval) * distance.y }
      let p3 := { p2 with y := trig.cos ((iteration : F) / 100 + (i : F) * interval) * distance.y }
      GraphicsScene.updateLightInputLoop trig distance iteration interval rest (position.set i p3)

/-- Modelled from the spec: the set slots `S1..S4` and the binding `B0` are
declared in a header that is not among the sources; the slots are numbered in
order after `S0` and `B0` is the first binding. -/
def S1 : Nat := 1

/-- Modelled from the spec: the third set slot (see `S1`). -/
def S2 : Nat := 2

/-- Modelled from the spec: the fourth set slot (see `S1`). -/
def S3 : Nat := 3

/-- Modelled from the spec: the fifth set slot (see `S1`). -/
def S4 : Nat := 4

/-- Modelled from the spec: the first binding of a set (see `S1`). -/
def B0 : Nat := 0

/-- `Image::setupForDepth`. -/
def Image.setupForDepth (img : Image) (size : UInt2D) : Image :=
  let imageInfo := { img.m_imageInfo with
    extent := ⟨size.width, size.height, 1⟩,
    format := VK_FORMAT_D24_UNORM_S8_UINT,
    usage := VK_IMAGE_USAGE_DEPTH_STENCIL_ATTACHMENT_BIT ||| VK_IMAGE_USAGE_TRANSFER_SRC_BIT |||
             VK_IMAGE_USAGE_SAMPLED_BIT }
  { img with
    m_imageInfo := imageInfo,
    m_imageViewInfo := { img.m_imageViewInfo with
      format := imageInfo.format,
      subresourceRange := { img.m_imageViewInfo.subresourceRange with
        aspectMask := VK_IMAGE_ASPECT_DEPTH_BIT } } }

/-- `Image::setupForColor`. -/
def Image.setupForColor (img : Image) (size : UInt2D) : Image :=
  let imageInfo := { img.m_imageInfo with
    extent := ⟨size.width, size.height, 1⟩,
    format := VK_FORMAT_R8G8B8A8_UNORM,
    usage := VK_IMAGE_USAGE_COLOR_ATTACHMENT_BIT ||| VK_IMAGE_USAGE_TRANSFER_SRC_BIT |||
             VK_IMAGE_USAGE_SAMPLED_BIT }
  { img with
    m_imageInfo := imageInfo,
    m_imageViewInfo := { img.m_imageViewInfo with
      format := imageInfo.format,
      subresourceRange := { img.m_imageViewInfo.subresourceRange with
        aspectMask := VK_IMAGE_ASPECT_COLOR_BIT } } }

/-- `Image::setupForStorage`. -/
def Image.setupForStorage (img : Image) (size : UInt2D) : Image :=
  let imageInfo := { img.m_imageInfo with
    extent := ⟨size.width, size.height, 1⟩,
    format := VK_FORMAT_R8G8B8A8_UNORM,
    usage := VK_IMAGE_USAGE_TRANSFER_SRC_BIT ||| VK_IMAGE_USAGE_TRANSFER_DST_BIT |||
             VK_IMAGE_USAGE_STORAGE_BIT ||| VK_IMAGE_USAGE_SAMPLED_BIT }
  { img with
    m_imageInfo := imageInfo,
    m_imageViewInfo := { img.m_imageViewInfo with format := imageInfo.format } }

/-- `Image::setupForCubemap`. -/
def Image.setupForCubemap (img : Image) (size : UInt2D) : Image :=
  let imageInfo := { img.m_imageInfo with
    extent := ⟨size.width, size.height, 1⟩,
    mipLevels := 1,
    arrayLayers := 6,
    format := VK_FORMAT_R32G32B32A32_SFLOAT,
    flags := VK_IMAGE_CREATE_CUBE_COMPATIBLE_BIT,
    usage := VK_IMAGE_USAGE_COLOR_ATTACHMENT_BIT ||| VK_IMAGE_USAGE_TRANSFER_SRC_BIT |||
             VK_IMAGE_USAGE_TRANSFER_DST_BIT ||| VK_IMAGE_USAGE_STORAGE_BIT |||
             VK_IMAGE_USAGE_SAMPLED_BIT }
  { img with
    m_imageInfo := imageInfo,
    m_imageViewInfo := { img.m_imageViewInfo with
      viewType := VK_IMAGE_VIEW_TYPE_CUBE,
      format := imageInfo.format,
      subresourceRange := { img.m_imageViewInfo.subresourceRange with
        levelCount := 1, layerCount := 6 } } }

/-- `Image::GetChannelSize`. -/
def Image.GetChannelSize (format : VkFormat) : Nat :=
  if format = VK_FORMAT_R8G8B8_SRGB then 3
  else if format = VK_FORMAT_R8G8B8A8_SRGB then 4
  else if format = VK_FORMAT_R32G32B32_SFLOAT then 12
  else if format = VK_FORMAT_R32G32B32A32_SFLOAT then 16
  else 0

/-- `Image::getChannelSize`. -/
def Image.getChannelSize (img : Image) : Nat :=
  Image.GetChannelSize img.m_imageInfo.format

/-- `Image::getDeviceSize`: the product of four 32-bit unsigned values, each
multiplication in 32-bit unsigned arithmetic, then widened to `VkDeviceSize`. -/
def Image.getDeviceSize (img : Image) : Nat :=
  (((img.m_imageInfo.extent.width * img.m_imageInfo.extent.height) % 2 ^ 32 *
      img.getChannelSize) % 2 ^ 32 * img.m_imageInfo.arrayLayers) % 2 ^ 32

/-- Modelled from the spec: `Renderpass` is not among the sources; the stages
use the handle of the renderpass object, returned by `get()`. -/
structure Renderpass where
  get : Handle

/-- Modelled from the spec: `Mesh` is not among the sources; the scene stage
uses the handles of its vertex and index buffers, its index count and its
model matrix. -/
structure Mesh (F : Type) where
  vertexBuffer : Handle
  indexBuffer : Handle
  indexSize : Nat
  matrix : Mat4 F

/-- Modelled from the spec: `GUI` is not among the sources; `renderGUI`
records the overlay's draw commands into the command buffer it is given. -/
structure GUI where
  drawCommands : List Cmd

/-- Modelled from the spec: method `GUI::renderGUI` (see `GUI`). -/
def GUI.renderGUI (gui : GUI) (cmdBuffer : CommandBuffer) : CommandBuffer :=
  cmdBuffer ++ gui.drawCommands

/-- Modelled from the spec: `Frame` is not among the sources. It is the
offscreen render target that "owns a color image, a depth image, and a
framebuffer object binding both to a renderpass", with the size it was built
for. -/
structure Frame where
  m_size : UInt2D
  m_pColorImage : Image
  m_pDepthImage : Image
  m_framebuffer : Handle

/-- Modelled from the spec: accessor `Frame::getSize`. -/
def Frame.getSize (f : Frame) : UInt2D := f.m_size

/-- Modelled from the spec: accessor `Frame::setSize`. -/
def Frame.setSize (f : Frame) (size : UInt2D) : Frame := { f with m_size := size }

/-- Modelled from the spec: accessor `Frame::getFramebuffer`. -/
def Frame.getFramebuffer (f : Frame) : Handle := f.m_framebuffer

/-- Modelled from the spec: accessor `Frame::getColorImage`. -/
def Frame.getColorImage (f : Frame) : Image := f.m_pColorImage

/-- Modelled from the spec: `Frame::cleanup` destroys the frame's attachments
and framebuffer; the trace records the release with the size released. -/
def Frame.cleanup (f : Frame) (t : Trace) : Frame × Trace :=
  (f, t ++ [VkCall.frameCleanup f.m_size])

/-- Modelled from the spec: `Frame::createImageResource` builds the color
image at the frame's size. -/
def Frame.createImageResource (f : Frame) (t : Trace) : Frame × Trace :=
  ({ f with m_pColorImage := Image.new.setupForColor f.m_size },
   t ++ [VkCall.frameCreateImageResource f.m_size])

/-- Modelled from the spec: `Frame::createDepthResource` builds the depth
image at the frame's size. -/
def Frame.createDepthResource (f : Frame) (t : Trace) : Frame × Trace :=
  ({ f with m_pDepthImage := Image.new.setupForDepth f.m_size },
   t ++ [VkCall.frameCreateDepthResource f.m_size])

/-- Modelled from the spec: `Frame::createFramebuffer` builds the framebuffer
binding the attachments to the renderpass; its handle is the driver's. -/
def Frame.createFramebuffer (drv : Driver) (f : Frame) (renderpass : Renderpass) (t : Trace) :
    Frame × Trace :=
  ({ f with m_framebuffer := drv.createFramebuffer t },
   t ++ [VkCall.frameCreateFramebuffer f.m_size renderpass.get])

structure GraphicsScene (F : Type) where
  m_pipelineLayout : Handle
  m_pPipeline : Pipeline
  m_pRenderpass : Renderpass
  m_pDescriptor : Descriptor
  m_pFrame : Frame
  m_scissor : VkRect2D
  m_viewport : VkViewport
  m_pSphere : Mesh F
  m_misc : ScenePCMisc F
  m_lights : UBLights F
  m_pCameraBuffer : Buffer
  m_pLightBuffer : Buffer
  m_pTextures : List Image
  m_pHeightmapImage : Option Image
  m_pInterferenceImage : Option Image

/-- `GraphicsScene::updateLightInput`. `encode` is the object representation
of the light block, whose length is `sizeof(UBLights)`; `mem` is the content
of the light buffer's memory. -/
def GraphicsScene.updateLightInput {F : Type} [Field F] (trig : Trig F) (settings : Settings F)
    (encode : UBLights F → List Byte) (scene : GraphicsScene F) (mem : List Byte) (t : Trace) :
    Option (GraphicsScene F × List Byte × Trace) :=
  let lights0 : UBLights F := { scene.m_lights with
    radiance := settings.Radiance, total := settings.TotalLight, color := settings.LightColor }
  let distance := settings.Distance
  let iteration := settings.Iteration
  let interval := glmRadians trig (360 / (lights0.total : F))
  match GraphicsScene.updateLightInputLoop trig distance iteration interval
      (List.range lights0.total) lights0.position with
  | none => none
  | some position =>
    let lights : UBLights F := { lights0 with position := position }
    match scene.m_pLightBuffer.fillBuffer mem t (encode lights) (encode lights).length 0 with
    | none => none
    | some (mem1, t1, _) => some ({ scene with m_lights := lights }, mem1, t1)

/-- `GraphicsScene::updateViewportScissor`. The `uint32_t` width and height of
the extent are assigned to the `float` fields of the viewport. -/
def GraphicsScene.updateViewportScissor {F : Type} (scene : GraphicsScene F) : GraphicsScene F :=
  let extent := scene.m_pFrame.getSize
  { scene with
    m_viewport := { x := 0, y := 0, width := ((roundToFloat32 extent.width : Nat) : ℚ),
                    height := ((roundToFloat32 extent.height : Nat) : ℚ),
                    minDepth := 0, maxDepth := 1 },
    m_scissor := { offset := ⟨0, 0⟩, extent := extent } }

/-- `GraphicsScene::recreateFrame`. -/
def GraphicsScene.recreateFrame {F : Type} (drv : Driver) (scene : GraphicsScene F)
    (size : UInt2D) (t : Trace) : GraphicsScene F × Trace :=
  let r1 := scene.m_pFrame.cleanup t
  let f2 := r1.1.setSize size
  let r3 := f2.createImageResource r1.2
  let r4 := r3.1.createDepthResource r3.2
  let r5 := Frame.createFramebuffer drv r4.1 scene.m_pRenderpass r4.2
  (GraphicsScene.updateViewportScissor { scene with m_pFrame := r5.1 }, r5.2)


/-- `GraphicsScene::updateHeightmapInput`: the stage, the driver trace and the
command buffer submitted by the one-shot transition. The image is shared
with the caller by pointer; its new state is returned inside the stage. No
result when the descriptor records are read outside the view vector. -/
def GraphicsScene.updateHeightmapInput {F : Type} (scene : GraphicsScene F)
    (pHeightmapImage : Image) (t : Trace) : Option (GraphicsScene F × Trace × CommandBuffer) :=
  let r := pHeightmapImage.cmdCall Image.cmdTransitionToShaderR
  match r.1.getDescriptorInfo with
  | none => none
  | some (img, infos) =>
    let d1 := scene.m_pDescriptor.setupPointerImage S3 B0 infos
    let r2 := d1.update S3 t
    some ({ scene with m_pHeightmapImage := some img, m_pDescriptor := r2.1 }, r2.2, r.2)

/-- `GraphicsScene::updateInterferenceInput` (see `updateHeightmapInput`). -/
def GraphicsScene.updateInterferenceInput {F : Type} (scene : GraphicsScene F)
    (pInterferenceImage : Image) (t : Trace) :
    Option (GraphicsScene F × Trace × CommandBuffer) :=
  let r := pInterferenceImage.cmdCall Image.cmdTransitionToShaderR
  match r.1.getDescriptorInfo with
  | none => none
  | some (img, infos) =>
    let d1 := scene.m_pDescriptor.setupPointerImage S4 B0 infos
    let r2 := d1.update S4 t
    some ({ scene with m_pInterferenceImage := some img, m_pDescriptor := r2.1 }, r2.2, r.2)

/-- Componentwise product of a column with a scalar (`m[k] * v[k]` in GLM). -/
def Vec4.scale {F : Type} [Mul F] (c : Vec4 F) (s : F) : Vec4 F :=
  ⟨c.x * s, c.y * s, c.z * s, c.w * s⟩

/-- Componentwise sum of two columns. -/
def Vec4.add {F : Type} [Add F] (a b : Vec4 F) : Vec4 F :=
  ⟨a.x + b.x, a.y + b.y, a.z + b.z, a.w + b.w⟩

/-- Library value `glm::mat4(1.0)`: the identity matrix. -/
def Mat4.identity {F : Type} [Zero F] [One F] : Mat4 F :=
  ⟨⟨1, 0, 0, 0⟩, ⟨0, 1, 0, 0⟩, ⟨0, 0, 1, 0⟩, ⟨0, 0, 0, 1⟩⟩

/-- Library function `glm::translate(m, v)`: `m` with
`m[3] = m[0] * v[0] + m[1] * v[1] + m[2] * v[2] + m[3]`. -/
def glmTranslate {F : Type} [Add F] [Mul F] (m : Mat4 F) (v : Vec3 F) : Mat4 F :=
  { m with c3 := (((m.c0.scale v.x).add (m.c1.scale v.y)).add (m.c2.scale v.z)).add m.c3 }

/-- Library function `glm::scale(m, v)`: the columns
`m[0] * v[0], m[1] * v[1], m[2] * v[2], m[3]`. -/
def glmScale {F : Type} [Mul F] (m : Mat4 F) (v : Vec3 F) : Mat4 F :=
  ⟨m.c0.scale v.x, m.c1.scale v.y, m.c2.scale v.z, m.c3⟩

/-- The product of a matrix with a column vector, as the vertex shader applies
the model matrix. -/
def Mat4.mulVec {F : Type} [Add F] [Mul F] (m : Mat4 F) (v : Vec4 F) : Vec4 F :=
  ((m.c0.scale v.x).add (m.c1.scale v.y)).add ((m.c2.scale v.z).add (m.c3.scale v.w))

/-- The model matrix `render` gives the light at `position`:
`glm::scale(glm::translate(glm::mat4(1.0), glm::vec3(position)), glm::vec3(0.2))`.
The components of `glm::vec3(0.2)` are `float`s. On the identity matrix every
product of `glm::translate` and `glm::scale` has a factor 0 or 1 and every sum
a zero term, so no `float` operation rounds. -/
def GraphicsScene.lightModel (position : Vec4 ℚ) : Mat4 ℚ :=
  let model := glmTranslate Mat4.identity ⟨position.x, position.y, position.z⟩
  glmScale model ⟨float_0_2, float_0_2, float_0_2⟩

/-- The loop over the lights of `GraphicsScene::render`, run for the indices
of the list in turn; the state is `m_misc` and the command buffer. Reading a
position outside the array is undefined: no result. -/
def GraphicsScene.renderLightsLoop (pipelineLayout : Handle) (indexSize : Nat)
    (position : List (Vec4 ℚ)) :
    List Nat → ScenePCMisc ℚ × CommandBuffer → Option (ScenePCMisc ℚ × CommandBuffer)
  | [], s => some s
  | i :: rest, (misc, cmdBuffer) =>
    match position[i]? with
    | none => none
    | some p =>
      let misc1 := { misc with model := GraphicsScene.lightModel p }
      let cb1 := cmdBuffer ++ [Cmd.pushConstantsScene pipelineLayout
        (VK_SHADER_STAGE_VERTEX_BIT ||| VK_SHADER_STAGE_FRAGMENT_BIT) 0 misc1]
      let cb2 := cb1 ++ [Cmd.drawIndexed indexSize 1 0 0 0]
      GraphicsScene.renderLightsLoop pipelineLayout indexSize position rest (misc1, cb2)

/-- `GraphicsScene::render`. -/
def GraphicsScene.render (settings : Settings ℚ) (scene : GraphicsScene ℚ)
    (cmdBuffer : CommandBuffer) : Option (GraphicsScene ℚ × CommandBuffer) :=
  let pipelineLayout := scene.m_pipelineLayout
  let pipeline := scene.m_pPipeline.get
  let renderpass := scene.m_pRenderpass.get
  let framebuffer := scene.m_pFrame.getFramebuffer
  let scissor := scene.m_scissor
  let viewport := scene.m_viewport
  let offsets := 0
  let vertexBuffer := scene.m_pSphere.vertexBuffer
  let indexBuffer := scene.m_pSphere.indexBuffer
  let indexSize := scene.m_pSphere.indexSize
  let cameraDescSet := scene.m_pDescriptor.getDescriptorSet S0
  let lightsDescSet := scene.m_pDescriptor.getDescriptorSet S1
  let textureDescSet := scene.m_pDescriptor.getDescriptorSet S2
  let heightmapDescSet := scene.m_pDescriptor.getDescriptorSet S3
  let interferenceDescSet := scene.m_pDescriptor.getDescriptorSet S4
  let clearValues : List VkClearValue :=
    [ VkClearValue.color settings.ClearColor.1 settings.ClearColor.2.1
        settings.ClearColor.2.2.1 settings.ClearColor.2.2.2,
      VkClearValue.depthStencil settings.ClearDepth.1 settings.ClearDepth.2 ]
  let renderBeginInfo : VkRenderPassBeginInfo :=
    { renderPass := renderpass, framebuffer := framebuffer, renderArea := scissor,
      clearValues := clearValues }
  let cb1 := cmdBuffer ++ [Cmd.setViewport 0 [viewport]]
  let cb2 := cb1 ++ [Cmd.setScissor 0 [scissor]]
  let cb3 := cb2 ++ [Cmd.beginRenderPass renderBeginInfo VK_SUBPASS_CONTENTS_INLINE]
  let cb4 := cb3 ++ [Cmd.bindPipeline VK_PIPELINE_BIND_POINT_GRAPHICS pipeline]
  let cb5 := cb4 ++ [Cmd.bindDescriptorSets VK_PIPELINE_BIND_POINT_GRAPHICS pipelineLayout S0
    [cameraDescSet]]
  let cb6 := cb5 ++ [Cmd.bindDescriptorSets VK_PIPELINE_BIND_POINT_GRAPHICS pipelineLayout S1
    [lightsDescSet]]
  let cb7 := cb6 ++ [Cmd.bindDescriptorSets VK_PIPELINE_BIND_POINT_GRAPHICS pipelineLayout S2
    [textureDescSet]]
  let cb8 := cb7 ++ [Cmd.bindDescriptorSets VK_PIPELINE_BIND_POINT_GRAPHICS pipelineLayout S3
    [heightmapDescSet]]
  let cb9 := cb8 ++ [Cmd.bindDescriptorSets VK_PIPELINE_BIND_POINT_GRAPHICS pipelineLayout S4
    [interferenceDescSet]]
  let cb10 := cb9 ++ [Cmd.bindVertexBuffers 0 [vertexBuffer] [offsets]]
  let cb11 := cb10 ++ [Cmd.bindIndexBuffer indexBuffer 0 VK_INDEX_TYPE_UINT32]
  let misc1 := { scene.m_misc with model := scene.m_pSphere.matrix }
  let misc2 := { misc1 with isLight := 0 }
  let cb12 := cb11 ++ [Cmd.pushConstantsScene pipelineLayout
    (VK_SHADER_STAGE_VERTEX_BIT ||| VK_SHADER_STAGE_FRAGMENT_BIT) 0 misc2]
  let cb13 := cb12 ++ [Cmd.drawIndexed indexSize 1 0 0 0]
  let misc3 := { misc2 with isLight := 1 }
  match GraphicsScene.renderLightsLoop pipelineLayout indexSize scene.m_lights.position
      (List.range scene.m_lights.total) (misc3, cb13) with
  | none => none
  | some (misc4, cb14) =>
    some ({ scene with m_misc := misc4 }, cb14 ++ [Cmd.endRenderPass])

/-! ## GraphicsScreen (pipelines/graphics_screen.cpp) -/

structure GraphicsScreen where
  m_pipelineLayout : Handle
  m_pPipeline : Pipeline
  m_pRenderpass : Renderpass
  m_pDescriptor : Descriptor
  m_pFrame : Frame
  m_pInputFrame : Frame
  m_scissor : VkRect2D
  m_viewport : VkViewport

/-- `GraphicsScreen::render`. The input frame is shared with the scene stage
by reference; its new state is returned inside the stage. -/
def GraphicsScreen.render (screen : GraphicsScreen) (cmdBuffer : CommandBuffer) (pGUI : GUI) :
    GraphicsScreen × CommandBuffer :=
  let pInputImage := screen.m_pInputFrame.getColorImage
  let pipelineLayout := screen.m_pipelineLayout
  let pipeline := screen.m_pPipeline.get
  let renderpass := screen.m_pRenderpass.get
  let framebuffer := screen.m_pFrame.getFramebuffer
  let scissor := screen.m_scissor
  let viewport := screen.m_viewport
  let textureDescSet := screen.m_pDescriptor.getDescriptorSet S0
  let clearValues : List VkClearValue :=
    [VkClearValue.color float_0_1 float_0_1 float_0_1 1.0, VkClearValue.depthStencil 1.0 0]
  let renderBeginInfo : VkRenderPassBeginInfo :=
    { renderPass := renderpass, framebuffer := framebuffer, renderArea := scissor,
      clearValues := clearValues }
  let r1 := pInputImage.cmdTransitionToShaderR cmdBuffer
  let cb2 := r1.2 ++ [Cmd.setViewport 0 [viewport]]
  let cb3 := cb2 ++ [Cmd.setScissor 0 [scissor]]
  let cb4 := cb3 ++ [Cmd.beginRenderPass renderBeginInfo VK_SUBPASS_CONTENTS_INLINE]
  let cb5 := cb4 ++ [Cmd.bindDescriptorSets VK_PIPELINE_BIND_POINT_GRAPHICS pipelineLayout S0
    [textureDescSet]]
  let cb6 := cb5 ++ [Cmd.bindPipeline VK_PIPELINE_BIND_POINT_GRAPHICS pipeline]
  let cb7 := cb6 ++ [Cmd.draw 3 1 0 0]
  let cb8 := pGUI.renderGUI cb7
  let cb9 := cb8 ++ [Cmd.endRenderPass]
  let r10 := r1.1.cmdTransitionToPresent cb9
  ({ screen with m_pInputFrame := { screen.m_pInputFrame with m_pColorImage := r10.1 } }, r10.2)

/-- `GraphicsScreen::updateViewportScissor`. The `uint32_t` width and height of
the extent are assigned to the `float` fields of the viewport. -/
def GraphicsScreen.updateViewportScissor (screen : GraphicsScreen) : GraphicsScreen :=
  let extent := screen.m_pFrame.getSize
  { screen with
    m_viewport := { x := 0, y := 0, width := ((roundToFloat32 extent.width : Nat) : ℚ),
                    height := ((roundToFloat32 extent.height : Nat) : ℚ),
                    minDepth := 0, maxDepth := 1 },
    m_scissor := { offset := ⟨0, 0⟩, extent := extent } }

/-- `GraphicsScreen::setFrame`. -/
def GraphicsScreen.setFrame (screen : GraphicsScreen) (pFrame : Frame) : GraphicsScreen :=
  GraphicsScreen.updateViewportScissor { screen with m_pFrame := pFrame }

/-- The position the light update gives the light of index `i`, from the old
position `p`: `x = sin(a) * distance.y`, `y = cos(a) * distance.y`,
`z = distance.x`, with `a = iteration / 100 + i * interval`. -/
def lightPosition {F : Type} [Field F] (trig : Trig F) (distance : Vec2 F) (iteration : Int)
    (interval : F) (p : Vec4 F) (i : Nat) : Vec4 F :=
  { x := trig.sin ((iteration : F) / 100 + (i : F) * interval) * distance.y,
    y := trig.cos ((iteration : F) / 100 + (i : F) * interval) * distance.y,
    z := distance.x,
    w := p.w }

/-- An image with one view in the given tracked layout. -/
def layoutImage (layout : VkImageLayout) : Image :=
  { Image.new with m_image := 7, m_imageViews := [8], m_imageLayout := layout }

/-- A frame of the given size whose attachments are in an undefined layout. -/
def sampleFrame (size : UInt2D) : Frame :=
  { m_size := size, m_pColorImage := layoutImage VK_IMAGE_LAYOUT_UNDEFINED,
    m_pDepthImage := layoutImage VK_IMAGE_LAYOUT_UNDEFINED, m_framebuffer := 9 }

/-- Settings with the given light count, distance (height, radius) and
iteration counter. -/
def lightSettings (F : Type) [Field F] (total : Nat) (height radius : F) (iteration : Int) :
    Settings F :=
  { OPDSample := 256, RSample := 64, Radiance := 1, TotalLight := total,
    LightColor := ⟨1, 1, 1, 1⟩, Distance := ⟨height, radius⟩, Iteration := iteration,
    Reflectance := 0, ClearColor := (0, 0, 0, 1), ClearDepth := (1, 0) }

/-- A scene stage with a 640x480 frame and a light block of the given capacity,
all positions at the origin. -/
def sampleScene (F : Type) [Field F] (capacity : Nat) : GraphicsScene F :=
  { m_pipelineLayout := 21, m_pPipeline := ⟨22⟩, m_pRenderpass := ⟨23⟩,
    m_pDescriptor := { getDescriptorSet := fun s => 30 + s }, m_pFrame := sampleFrame ⟨640, 480⟩,
    m_scissor := ⟨⟨0, 0⟩, ⟨640, 480⟩⟩, m_viewport := ⟨0, 0, 640, 480, 0, 1⟩,
    m_pSphere := ⟨24, 25, 36, Mat4.identity⟩,
    m_misc := ⟨Mat4.identity, ⟨0, 0, 0⟩, 0, 0⟩,
    m_lights := ⟨⟨0, 0, 0, 0⟩, 0, 0, List.replicate capacity ⟨0, 0, 0, 1⟩⟩,
    m_pCameraBuffer := Buffer.new, m_pLightBuffer := Buffer.new,
    m_pTextures := [], m_pHeightmapImage := none, m_pInterferenceImage := none }

def Cmd.isDrawIndexed : Cmd → Bool
  | .drawIndexed _ _ _ _ _ => true
  | _ => false

def Cmd.isBeginRenderPass : Cmd → Bool
  | .beginRenderPass _ _ => true
  | _ => false

def Cmd.isEndRenderPass : Cmd → Bool
  | .endRenderPass => true
  | _ => false

def Cmd.isBindVertexBuffers : Cmd → Bool
  | .bindVertexBuffers _ _ _ => true
  | _ => false

/-- The two commands one draw of the sphere mesh is recorded as in
`GraphicsScene::render`: the push-constant update with the block `misc`, then
the indexed draw. -/
def GraphicsScene.drawWith (pipelineLayout : Handle) (indexSize : Nat) (misc : ScenePCMisc ℚ) :
    List Cmd :=
  [ Cmd.pushConstantsScene pipelineLayout
      (VK_SHADER_STAGE_VERTEX_BIT ||| VK_SHADER_STAGE_FRAGMENT_BIT) 0 misc,
    Cmd.drawIndexed indexSize 1 0 0 0 ]

/-- The commands `GraphicsScene::render` records before its first push-constant
update, in source order. -/
def GraphicsScene.renderHead (settings : Settings ℚ) (scene : GraphicsScene ℚ) : List Cmd :=
  [ Cmd.setViewport 0 [scene.m_viewport],
    Cmd.setScissor 0 [scene.m_scissor],
    Cmd.beginRenderPass
      { renderPass := scene.m_pRenderpass.get, framebuffer := scene.m_pFrame.getFramebuffer,
        renderArea := scene.m_scissor,
        clearValues :=
          [ VkClearValue.color settings.ClearColor.1 settings.ClearColor.2.1
              settings.ClearColor.2.2.1 settings.ClearColor.2.2.2,
            VkClearValue.depthStencil settings.ClearDepth.1 settings.ClearDepth.2 ] }
      VK_SUBPASS_CONTENTS_INLINE,
    Cmd.bindPipeline VK_PIPELINE_BIND_POINT_GRAPHICS scene.m_pPipeline.get,
    Cmd.bindDescriptorSets VK_PIPELINE_BIND_POINT_GRAPHICS scene.m_pipelineLayout S0
      [scene.m_pDescriptor.getDescriptorSet S0],
    Cmd.bindDescriptorSets VK_PIPELINE_BIND_POINT_GRAPHICS scene.m_pipelineLayout S1
      [scene.m_pDescriptor.getDescriptorSet S1],
    Cmd.bindDescriptorSets VK_PIPELINE_BIND_POINT_GRAPHICS scene.m_pipelineLayout S2
      [scene.m_pDescriptor.getDescriptorSet S2],
    Cmd.bindDescriptorSets VK_PIPELINE_BIND_POINT_GRAPHICS scene.m_pipelineLayout S3
      [scene.m_pDescriptor.getDescriptorSet S3],
    Cmd.bindDescriptorSets VK_PIPELINE_BIND_POINT_GRAPHICS scene.m_pipelineLayout S4
      [scene.m_pDescriptor.getDescriptorSet S4],
    Cmd.bindVertexBuffers 0 [scene.m_pSphere.vertexBuffer] [0],
    Cmd.bindIndexBuffer scene.m_pSphere.indexBuffer 0 VK_INDEX_TYPE_UINT32 ]

/-- A composite stage drawing into `frame` and sampling `input`, with the
viewport and scissor of a 640x480 frame. -/
def sampleScreen (frame input : Frame) : GraphicsScreen :=
  { m_pipelineLayout := 41, m_pPipeline := ⟨42⟩, m_pRenderpass := ⟨43⟩,
    m_pDescriptor := { getDescriptorSet := fun s => 50 + s }, m_pFrame := frame, m_pInputFrame := input,
    m_scissor := ⟨⟨0, 0⟩, ⟨640, 480⟩⟩, m_viewport := ⟨0, 0, 640, 480, 0, 1⟩ }

/-- The sample scene with `total` lights at four set positions. -/
def litScene (total : Nat) : GraphicsScene ℚ :=
  { sampleScene ℚ 4 with
    m_lights := ⟨⟨1, 1, 1, 1⟩, 1, total,
      [⟨0, 2, 5, 1⟩, ⟨2, 0, 5, 1⟩, ⟨0, -2, 5, 1⟩, ⟨-2, 0, 5, 1⟩]⟩ }

/-- The image barrier `Image::cmdChangeLayout` builds for an image: from the
tracked layout to `newLayout`, over the range of the view description. -/
def Image.barrierTo (img : Image) (newLayout : VkImageLayout) (dstAccess : VkAccessFlags) :
    VkImageMemoryBarrier :=
  { Image.GetDefaultImageMemoryBarrier with
    image := img.m_image,
    oldLayout := img.m_imageLayout,
    newLayout := newLayout,
    dstAccessMask := dstAccess,
    subresourceRange := img.m_imageViewInfo.subresourceRange }

/-! ## ComputeInterference: output setup and repeated dispatch -/

/-- `ComputeInterference::setupInput`. -/
def ComputeInterference.setupInput {F : Type} (ci : ComputeInterference) (settings : Settings F) :
    ComputeInterference :=
  let misc1 := { ci.m_misc with opdSample := settings.OPDSample }
  let misc2 := { misc1 with rSample := settings.RSample }
  { ci with m_misc := misc2 }

/-- The release action pushed by `setupOutput`: `m_pOutputImage->cleanup()`. -/
def ComputeInterference.cleanupOutputAction (s : Image × Trace) : Image × Trace :=
  s.1.cleanup s.2

/-- `ComputeInterference::setupOutput`: the stage, the driver trace and the
command buffer submitted by the one-shot transition. A throw carries the
message and the state reached; no result at all when the descriptor records
are read outside the view vector. -/
def ComputeInterference.setupOutput (drv : Driver) (ci : ComputeInterference) (t : Trace) :
    Option (Except (String × ComputeInterference × Trace)
      (ComputeInterference × Trace × CommandBuffer)) :=
  let img0 := Image.new
  let img1 := img0.setupForStorage ⟨ci.m_misc.opdSample, ci.m_misc.rSample⟩
  match img1.createWithSampler drv t with
  | .error (msg, img, t1) => some (.error (msg, { ci with m_pOutputImage := img }, t1))
  | .ok (img2, t2) =>
    let r := img2.cmdCall Image.cmdTransitionToStorageW
    let cleaner := ci.m_cleaner.push ComputeInterference.cleanupOutputAction
    match r.1.getDescriptorInfo with
    | none => none
    | some (img3, infos) =>
      let d1 := ci.m_pDescriptor.setupPointerImage S0 B0 infos
      let r2 := d1.update S0 t2
      some (.ok ({ ci with m_pOutputImage := img3, m_cleaner := cleaner, m_pDescriptor := r2.1 },
        r2.2, r.2))

/-- `ComputeInterference::copyOutputImage`: the image returned, the driver
trace and the command buffer submitted. A throw of `createWithSampler`
carries the message and the state reached. The stage is not written. -/
def ComputeInterference.copyOutputImage (drv : Driver) (ci : ComputeInterference) (t : Trace) :
    Except (String × Image × Trace) (Image × Trace × CommandBuffer) :=
  let imageSize := ci.m_pOutputImage.getImageSize
  let imageCopy := Image.new.setupForStorage imageSize
  match imageCopy.createWithSampler drv t with
  | .error e => .error e
  | .ok (imageCopy1, t1) =>
    let r := Commander.singleTimeCommands (fun cmdBuffer =>
      let r1 := imageCopy1.cmdTransitionToTransferDst cmdBuffer
      (r1.1, r1.1.cmdCopyImageToImage r1.2 ci.m_pOutputImage))
    .ok (r.1, t1, r.2)

/-- The stage after `n` calls of `dispatch(cmdBuffer)` on one command buffer,
with the tracked layout of the output image found at each call, in order. -/
def ComputeInterference.dispatchTimes :
    Nat → ComputeInterference → CommandBuffer →
      ComputeInterference × CommandBuffer × List VkImageLayout
  | 0, ci, cmdBuffer => (ci, cmdBuffer, [])
  | n + 1, ci, cmdBuffer =>
    let r := ci.dispatch cmdBuffer
    let rest := ComputeInterference.dispatchTimes n r.1 r.2
    (rest.1, rest.2.1, ci.m_pOutputImage.m_imageLayout :: rest.2.2)

/-- Replay of a command stream for one image: for each compute dispatch
command, the layout the barriers recorded before it have left the image in
(`initial` when there is none). -/
def layoutsAtDispatch (image : Handle) : VkImageLayout → List Cmd → List VkImageLayout
  | _, [] => []
  | layout, Cmd.dispatch _ _ _ :: rest => layout :: layoutsAtDispatch image layout rest
  | layout, Cmd.pipelineBarrier _ _ _ barriers :: rest =>
    layoutsAtDispatch image
      (barriers.foldl (fun l b => if b.image = image then b.newLayout else l) layout) rest
  | layout, _ :: rest => layoutsAtDispatch image layout rest

/-- A sequence of `cmdChangeLayout` calls on one image and one command buffer;
each entry is the arguments `(newLayout, dstAccess, srcStage, dstStage)` of a
call. -/
def Image.cmdChangeLayouts (img : Image) (cmdBuffer : CommandBuffer) :
    List (VkImageLayout × VkAccessFlags × VkPipelineStageFlags × VkPipelineStageFlags) →
      Image × CommandBuffer
  | [] => (img, cmdBuffer)
  | r :: rest =>
    let s := img.cmdChangeLayout cmdBuffer r.1 r.2.1 r.2.2.1 r.2.2.2
    Image.cmdChangeLayouts s.1 s.2 rest

/-- The (oldLayout, newLayout) pairs of the image barriers of a command. -/
def Cmd.layoutChanges : Cmd → List (VkImageLayout × VkImageLayout)
  | .pipelineBarrier _ _ _ barriers => barriers.map (fun b => (b.oldLayout, b.newLayout))
  | _ => []

/-- The (oldLayout, newLayout) pairs of the image barriers of a command
buffer, in order. -/
def layoutChangesOf (cmdBuffer : CommandBuffer) : List (VkImageLayout × VkImageLayout) :=
  cmdBuffer.flatMap Cmd.layoutChanges

/-- The destination extents `(width, height)` of the blits of a command
buffer, in order: the far corner of each destination region, whose near
corner is the origin. -/
def blitDstExtentsOf (cmdBuffer : CommandBuffer) : List (Int × Int) :=
  (blitCornersOf cmdBuffer).map (fun c => c.2)

def Cmd.isCopyImage : Cmd → Bool
  | .copyImage _ _ _ _ _ => true
  | _ => false

/-- A stage whose output image has been created and dispatched into once: the
image of handle 7 of the given size, tracked in TRANSFER_SRC_OPTIMAL. -/
def dispatchedStage (w h : Nat) : ComputeInterference :=
  { sampleStage w h with
    m_pOutputImage :=
      { (Image.new.setupForStorage ⟨w, h⟩) with
        m_image := 7, m_imageViews := [8],
        m_imageLayout := VK_IMAGE_LAYOUT_TRANSFER_SRC_OPTIMAL } }

/-! ## Window (window/window.cpp) -/

def GLFW_RELEASE : Int := 0
def GLFW_PRESS : Int := 1
def GLFW_MOUSE_BUTTON_LEFT : Int := 0
def GLFW_MOUSE_BUTTON_RIGHT : Int := 1

/-- The member of `Window` the mouse-button code uses: the stored button
states, an array of `bool` read and written by index. -/
structure Window where
  m_mouseBtn : Nat → Bool

/-- `Window::setMouseButton`. The indices `mouse_btn_left` and
`mouse_btn_right` of the state array are declared in a header that is not
among the sources; they are parameters here. -/
def Window.setMouseButton (mouse_btn_left mouse_btn_right : Nat) (win : Window)
    (button action : Int) : Window :=
  let win1 : Window := { win with
    m_mouseBtn := Function.update win.m_mouseBtn mouse_btn_left
      (if button = GLFW_MOUSE_BUTTON_LEFT then decide (action = GLFW_PRESS)
       else win.m_mouseBtn mouse_btn_left) }
  { win1 with
    m_mouseBtn := Function.update win1.m_mouseBtn mouse_btn_right
      (if button = GLFW_MOUSE_BUTTON_LEFT then decide (action = GLFW_PRESS)
       else win1.m_mouseBtn mouse_btn_right) }

/-- `Window::getMouseBtnState`. -/
def Window.getMouseBtnState (win : Window) (idx : Nat) : Bool :=
  win.m_mouseBtn idx

/-- `Window::MouseButtonCallback`: the window registered as user pointer
receives `setMouseButton(button, action)`. -/
def Window.MouseButtonCallback (mouse_btn_left mouse_btn_right : Nat) (app : Window)
    (button action _mods : Int) : Window :=
  app.setMouseButton mouse_btn_left mouse_btn_right button action

/-- Spec-side: a 32-bit unsigned value that a `float` holds exactly, that is a
significand below `2^24` times a power of two. -/
def float32Exact (n : Nat) : Prop := n < 2 ^ 32 ∧ ∃ m e, m < 2 ^ 24 ∧ n = m * 2 ^ e

/-! ## Properties -/

theorem floorLog2Aux_eq_log (fuel : Nat) :
    ∀ n, n < 2 ^ (fuel + 1) → floorLog2Aux fuel n = Nat.log 2 n := by
  induction fuel with
  | zero =>
    intro n hn
    rw [floorLog2Aux]
    exact (Nat.log_of_lt (by simpa using hn)).symm
  | succ k ih =>
    intro n hn
    by_cases h2 : 2 ≤ n
    · have hhalf : n / 2 < 2 ^ (k + 1) := by
        rw [Nat.div_lt_iff_lt_mul (by decide)]
        calc n < 2 ^ (k + 1 + 1) := hn
          _ = 2 ^ (k + 1) * 2 := by rw [Nat.pow_succ]
      rw [floorLog2Aux, if_pos h2, ih _ hhalf]
      exact (Nat.log_of_one_lt_of_le (by decide) h2).symm
    · rw [floorLog2Aux, if_neg h2]
      exact (Nat.log_of_lt (by omega)).symm

theorem floorLog2_eq_log (n : Nat) (hn : n < 2 ^ 32) : floorLog2 n = Nat.log 2 n :=
  floorLog2Aux_eq_log 31 n hn

theorem specMipLevels_eq_floorLog2 (w h : Nat) (hlt : max w h < 2 ^ 32) :
    specMipLevels w h = min (floorLog2 (max w h) + 1) 7 := by
  rw [specMipLevels, floorLog2_eq_log _ hlt]

theorem toInt32_of_lt (n : Nat) (h : n < 2 ^ 31) : toInt32 n = (n : Int) := by
  have hmod : n % 2 ^ 32 = n := Nat.mod_eq_of_lt (by omega)
  simp only [toInt32, hmod]
  rw [if_pos h]

theorem MaxMipLevel_of_pos (w h : Nat) (hw : 1 ≤ w) (hw31 : w < 2 ^ 31) (hh31 : h < 2 ^ 31) :
    Image.MaxMipLevel (w : Int) (h : Int) = some (specMipLevels w h) := by
  have hmax : max (w : Int) (h : Int) = ((max w h : Nat) : Int) := by
    rw [Nat.cast_max]
  have hpos : ¬ (((max w h : Nat) : Int) ≤ 0) := by
    have : 1 ≤ max w h := le_trans hw (le_max_left w h)
    omega
  have hlt : max w h < 2 ^ 32 := by
    rcases max_cases w h with ⟨hm, _⟩ | ⟨hm, _⟩ <;> rw [hm] <;> omega
  simp only [Image.MaxMipLevel, hmax, if_neg hpos, Int.toNat_ofNat, floorLog2_eq_log _ hlt,
    specMipLevels]

/-- C1, as stated, fails: width 2^31 reaches the `int` parameter of
`MaxMipLevel` as a negative number, so the larger side is the height 1 and
`setupForTexture` stores 1 mip level, where the stated formula gives 7. -/
theorem C1_counterexample :
    (Image.new.setupForTexture ⟨2147483648, 1⟩).map (fun img => img.m_imageInfo.mipLevels)
        = some 1 ∧
      specMipLevels 2147483648 1 = 7 := by
  refine ⟨by decide, ?_⟩
  rw [specMipLevels_eq_floorLog2 _ _ (by decide)]
  decide

/-- C1 (amended): for every width and height between 1 and 2^31 - 1, the sizes
that pass unchanged into the `int` parameters of `MaxMipLevel`, an image
configured with `setupForTexture` and likewise with `setupForHDRTexture` has
mip level count `min(floor(log2(max(w,h))) + 1, 7)` and a view level count
equal to it; (1,1) gives 1, (512,512) gives 7 and (300,150) gives 7. -/
theorem C1_mipLevels (img : Image) (w h : Nat)
    (hw : 1 ≤ w) (hw31 : w < 2 ^ 31) (_hh : 1 ≤ h) (hh31 : h < 2 ^ 31) :
    (∃ tex, img.setupForTexture ⟨w, h⟩ = some tex ∧
        tex.m_imageInfo.mipLevels = specMipLevels w h ∧
        tex.m_imageViewInfo.subresourceRange.levelCount = specMipLevels w h) ∧
      (∃ hdr, img.setupForHDRTexture ⟨w, h⟩ = some hdr ∧
        hdr.m_imageInfo.mipLevels = specMipLevels w h ∧
        hdr.m_imageViewInfo.subresourceRange.levelCount = specMipLevels w h) ∧
      specMipLevels 1 1 = 1 ∧ specMipLevels 512 512 = 7 ∧ specMipLevels 300 150 = 7 := by
  have hmip : Image.MaxMipLevel (toInt32 w) (toInt32 h) = some (specMipLevels w h) := by
    rw [toInt32_of_lt w hw31, toInt32_of_lt h hh31]
    exact MaxMipLevel_of_pos w h hw hw31 hh31
  refine ⟨?_, ?_, ?_, ?_, ?_⟩
  · simp only [Image.setupForTexture, hmip]
    exact ⟨_, rfl, rfl, rfl⟩
  · simp only [Image.setupForHDRTexture, hmip]
    exact ⟨_, rfl, rfl, rfl⟩
  · rw [specMipLevels_eq_floorLog2 _ _ (by decide)]
    decide
  · rw [specMipLevels_eq_floorLog2 _ _ (by decide)]
    decide
  · rw [specMipLevels_eq_floorLog2 _ _ (by decide)]
    decide

/-- C1 (amended) at the image as constructed and the size (300, 150). -/
theorem C1_mipLevels_witness :
    (∃ tex, Image.new.setupForTexture ⟨300, 150⟩ = some tex ∧
        tex.m_imageInfo.mipLevels = specMipLevels 300 150 ∧
        tex.m_imageViewInfo.subresourceRange.levelCount = specMipLevels 300 150) ∧
      (∃ hdr, Image.new.setupForHDRTexture ⟨300, 150⟩ = some hdr ∧
        hdr.m_imageInfo.mipLevels = specMipLevels 300 150 ∧
        hdr.m_imageViewInfo.subresourceRange.levelCount = specMipLevels 300 150) ∧
      specMipLevels 1 1 = 1 ∧ specMipLevels 512 512 = 7 ∧ specMipLevels 300 150 = 7 :=
  C1_mipLevels Image.new 300 150 (by decide) (by decide) (by decide) (by decide)

/-- C2: for every image state and each of the six transitions, in the
command-buffer form and in the one-shot form, the tracked layout after the
call is the layout associated with the transition, whatever it was before;
the call always returns (nothing is rejected) and changes no other field. -/
theorem C2_transition_sets_layout (x : Transition) (img : Image) (cmdBuffer : CommandBuffer) :
    (x.cmd img cmdBuffer).1.m_imageLayout = x.specLayout ∧
      (x.oneShot img).1.m_imageLayout = x.specLayout ∧
      (x.cmd img cmdBuffer).1 = { img with m_imageLayout := x.specLayout } := by
  cases x <;> exact ⟨rfl, rfl, rfl⟩

/-- C3: each of the six transitions appends exactly one pipeline barrier
command holding exactly one image memory barrier, and its
(newLayout, dstAccessMask, srcStage, dstStage) is the tuple listed for the
transition, for every image state and every command buffer. -/
theorem C3_transition_barrier_tuple (x : Transition) (img : Image) (cmdBuffer : CommandBuffer) :
    ∃ barrier : VkImageMemoryBarrier, ∃ srcStage dstStage : VkPipelineStageFlags,
      (x.cmd img cmdBuffer).2 = cmdBuffer ++ [Cmd.pipelineBarrier srcStage dstStage 0 [barrier]] ∧
      (barrier.newLayout, barrier.dstAccessMask, srcStage, dstStage) = x.specTuple := by
  cases x <;> exact ⟨_, _, _, rfl, rfl⟩

theorem specGroupCountX_eq (n : Nat) :
    specGroupCountX n = n / 128 + (if n % 128 = 0 then 0 else 1) := by
  unfold specGroupCountX
  by_cases hr : n % 128 = 0
  · rw [if_pos hr]
    have hq : (n : ℚ) / 128 = ((n / 128 : ℕ) : ℚ) := by
      rw [div_eq_iff (by norm_num)]
      exact_mod_cast (by omega : n = (n / 128) * 128)
    rw [hq, Nat.ceil_natCast]
    simp
  · rw [if_neg hr]
    rw [Nat.ceil_eq_iff (by omega)]
    constructor
    · rw [lt_div_iff₀ (by norm_num)]
      have : (n / 128 + 1 - 1) * 128 < n := by omega
      exact_mod_cast this
    · rw [div_le_iff₀ (by norm_num)]
      have : n ≤ (n / 128 + 1) * 128 := by omega
      exact_mod_cast this

theorem dispatchesOf_append (a b : CommandBuffer) :
    dispatchesOf (a ++ b) = dispatchesOf a ++ dispatchesOf b := by
  simp [dispatchesOf, List.filterMap_append]

theorem dispatch_commands (ci : ComputeInterference) (cmdBuffer : CommandBuffer) :
    (ci.dispatch cmdBuffer).2 = cmdBuffer ++
      [Cmd.pushConstants ci.m_pipelineLayout VK_SHADER_STAGE_COMPUTE_BIT 0 ci.m_misc,
       Cmd.bindPipeline VK_PIPELINE_BIND_POINT_COMPUTE ci.m_pPipeline.get,
       Cmd.bindDescriptorSets VK_PIPELINE_BIND_POINT_COMPUTE ci.m_pipelineLayout 0
         [ci.m_pDescriptor.getDescriptorSet S0],
       Cmd.dispatch ((ci.m_misc.opdSample / WORKGROUP_SIZE_X + 1) % 2 ^ 32) ci.m_misc.rSample 1,
       Cmd.pipelineBarrier VK_PIPELINE_STAGE_TOP_OF_PIPE_BIT VK_PIPELINE_STAGE_TRANSFER_BIT 0
         [{ Image.GetDefaultImageMemoryBarrier with
            image := ci.m_pOutputImage.m_image,
            oldLayout := ci.m_pOutputImage.m_imageLayout,
            newLayout := VK_IMAGE_LAYOUT_TRANSFER_SRC_OPTIMAL,
            dstAccessMask := VK_ACCESS_TRANSFER_READ_BIT,
            subresourceRange := ci.m_pOutputImage.m_imageViewInfo.subresourceRange }]] := by
  simp [ComputeInterference.dispatch, Image.cmdTransitionToTransferSrc, Image.cmdChangeLayout]

theorem dispatch_groupCounts (ci : ComputeInterference) (cmdBuffer : CommandBuffer) :
    dispatchesOf (ci.dispatch cmdBuffer).2 = dispatchesOf cmdBuffer ++
      [((ci.m_misc.opdSample / WORKGROUP_SIZE_X + 1) % 2 ^ 32, ci.m_misc.rSample, 1)] := by
  rw [dispatch_commands, dispatchesOf_append]
  rfl

/-- C4, as stated, fails: with opdSamples = 256 and rSamples = 64 the one
dispatch recorded has 3 workgroups along the first axis, and
ceil(256 / 128) is 2. -/
theorem C4_counterexample :
    dispatchesOf ((sampleStage 256 64).dispatch []).2 = [(3, 64, 1)] ∧
      specGroupCountX 256 = 2 := by
  refine ⟨by decide, ?_⟩
  rw [specGroupCountX_eq]
  decide

/-- C4 (amended): for every 32-bit opdSamples and every rSamples, dispatch
records one compute dispatch with floor(opdSamples / 128) + 1 workgroups along
the first axis, which is ceil(opdSamples / 128) when opdSamples is not a
multiple of 128 and ceil(opdSamples / 128) + 1 when it is, and rSamples
workgroups along the second axis. -/
theorem C4_dispatch_groups_vs_ceil (ci : ComputeInterference) (cmdBuffer : CommandBuffer)
    (h32 : ci.m_misc.opdSample < 2 ^ 32) :
    dispatchesOf (ci.dispatch cmdBuffer).2 = dispatchesOf cmdBuffer ++
      [(specGroupCountX ci.m_misc.opdSample + (if ci.m_misc.opdSample % 128 = 0 then 1 else 0),
        ci.m_misc.rSample, 1)] := by
  rw [dispatch_groupCounts, specGroupCountX_eq]
  have hx : (ci.m_misc.opdSample / WORKGROUP_SIZE_X + 1) % 2 ^ 32 =
      ci.m_misc.opdSample / 128 + (if ci.m_misc.opdSample % 128 = 0 then 0 else 1) +
        (if ci.m_misc.opdSample % 128 = 0 then 1 else 0) := by
    have hlt : ci.m_misc.opdSample / 128 + 1 < 2 ^ 32 := by omega
    rw [show WORKGROUP_SIZE_X = 128 from rfl, Nat.mod_eq_of_lt hlt]
    split <;> rfl
  rw [hx]

/-- C4 (amended) at opdSamples = 256, rSamples = 64 on an empty command buffer. -/
theorem C4_dispatch_groups_vs_ceil_witness :
    (sampleStage 256 64).m_misc.opdSample < 2 ^ 32 ∧
      dispatchesOf ((sampleStage 256 64).dispatch []).2 = dispatchesOf [] ++
        [(specGroupCountX (sampleStage 256 64).m_misc.opdSample +
            (if (sampleStage 256 64).m_misc.opdSample % 128 = 0 then 1 else 0),
          (sampleStage 256 64).m_misc.rSample, 1)] :=
  ⟨by decide, C4_dispatch_groups_vs_ceil (sampleStage 256 64) [] (by decide)⟩

/-- C5: for every 32-bit unsigned opdSamples and every rSamples, dispatch
records exactly one dispatch command, with the workgroup counts
(opdSamples div 128 + 1, rSamples, 1); the sum does not wrap around in 32
bits; for opdSamples = 256 and rSamples = 64 the counts are (3, 64, 1). -/
theorem C5_dispatch_group_counts (ci : ComputeInterference) (cmdBuffer : CommandBuffer)
    (h32 : ci.m_misc.opdSample < 2 ^ 32) :
    dispatchesOf (ci.dispatch cmdBuffer).2 = dispatchesOf cmdBuffer ++
        [(ci.m_misc.opdSample / 128 + 1, ci.m_misc.rSample, 1)] ∧
      ci.m_misc.opdSample / 128 + 1 < 2 ^ 32 ∧
      dispatchesOf ((sampleStage 256 64).dispatch []).2 = [(3, 64, 1)] := by
  have hlt : ci.m_misc.opdSample / 128 + 1 < 2 ^ 32 := by omega
  refine ⟨?_, hlt, by decide⟩
  rw [dispatch_groupCounts, show WORKGROUP_SIZE_X = 128 from rfl, Nat.mod_eq_of_lt hlt]

/-- C5 at the largest 32-bit opdSamples. -/
theorem C5_dispatch_group_counts_witness :
    (sampleStage 4294967295 64).m_misc.opdSample < 2 ^ 32 ∧
      (dispatchesOf ((sampleStage 4294967295 64).dispatch []).2 = dispatchesOf [] ++
        [((sampleStage 4294967295 64).m_misc.opdSample / 128 + 1,
          (sampleStage 4294967295 64).m_misc.rSample, 1)] ∧
      (sampleStage 4294967295 64).m_misc.opdSample / 128 + 1 < 2 ^ 32 ∧
      dispatchesOf ((sampleStage 256 64).dispatch []).2 = [(3, 64, 1)]) :=
  ⟨by decide, C5_dispatch_group_counts (sampleStage 4294967295 64) [] (by decide)⟩

/-- C6: dispatch appends, in this order, the push constants, the compute
pipeline bind, the descriptor-set bind, the dispatch and one barrier that moves
the output image from its prior layout to transfer-source; afterwards the
tracked layout of the output image is TRANSFER_SRC_OPTIMAL, for every prior
layout. -/
theorem C6_dispatch_order_and_layout (ci : ComputeInterference) (cmdBuffer : CommandBuffer) :
    ∃ barrier : VkImageMemoryBarrier,
      (ci.dispatch cmdBuffer).2 = cmdBuffer ++
        [Cmd.pushConstants ci.m_pipelineLayout VK_SHADER_STAGE_COMPUTE_BIT 0 ci.m_misc,
         Cmd.bindPipeline VK_PIPELINE_BIND_POINT_COMPUTE ci.m_pPipeline.get,
         Cmd.bindDescriptorSets VK_PIPELINE_BIND_POINT_COMPUTE ci.m_pipelineLayout 0
           [ci.m_pDescriptor.getDescriptorSet S0],
         Cmd.dispatch ((ci.m_misc.opdSample / WORKGROUP_SIZE_X + 1) % 2 ^ 32)
           ci.m_misc.rSample 1,
         Cmd.pipelineBarrier VK_PIPELINE_STAGE_TOP_OF_PIPE_BIT VK_PIPELINE_STAGE_TRANSFER_BIT 0
           [barrier]] ∧
      barrier.image = ci.m_pOutputImage.m_image ∧
      barrier.oldLayout = ci.m_pOutputImage.m_imageLayout ∧
      barrier.newLayout = VK_IMAGE_LAYOUT_TRANSFER_SRC_OPTIMAL ∧
      (ci.dispatch cmdBuffer).1.m_pOutputImage.m_imageLayout
        = VK_IMAGE_LAYOUT_TRANSFER_SRC_OPTIMAL := by
  exact ⟨_, dispatch_commands ci cmdBuffer, rfl, rfl, rfl, rfl⟩

theorem fillBuffer_at_zero (b : Buffer) (mem : List Byte) (t : Trace) (src : List Byte)
    (size : Nat) (hsrc : src.length = size) (hsize : size ≤ mem.length) :
    b.fillBuffer mem t src size 0 =
      some (src ++ mem.drop size,
        t ++ [VkCall.mapMemory b.m_bufferMemory 0 size] ++ [VkCall.unmapMemory b.m_bufferMemory],
        0) := by
  have hcond : size ≤ src.length ∧ size ≤ mem.length := ⟨by omega, hsize⟩
  have htake : List.take size src = src := List.take_of_length_le (by omega)
  simp only [Buffer.fillBuffer, Buffer.mapMemory, if_pos hsize, memcpy, Nat.zero_add,
    if_pos hcond, Buffer.unmapMemory, List.take_zero, List.nil_append, htake]

/-- C7: for every content of the buffer memory and every byte sequence src of
length size that fits the allocation, `fillBuffer(src, size, 0)` returns, a
host read of the bytes [0, size) then yields exactly src, the length of the
memory and every byte at an offset >= size are unchanged, the same write
repeated leaves the memory as it is after the first, and `fillBufferFull`
does the same when size is the buffer size. -/
theorem C7_fill_then_read (b : Buffer) (mem : List Byte) (t : Trace) (src : List Byte)
    (size : Nat) (hsrc : src.length = size) (hsize : size ≤ mem.length) :
    ∃ mem1 t1 ptr, b.fillBuffer mem t src size 0 = some (mem1, t1, ptr) ∧
      hostRead mem1 ptr size = src ∧
      mem1.length = mem.length ∧
      (∀ i, size ≤ i → mem1[i]? = mem[i]?) ∧
      (∃ t2, b.fillBuffer mem1 t1 src size 0 = some (mem1, t2, ptr)) ∧
      (size = b.m_bufferInfo.size → b.fillBufferFull mem t src = some (mem1, t1, ptr)) := by
  have hlen : (src ++ mem.drop size).length = mem.length := by
    rw [List.length_append, List.length_drop]
    omega
  have hdrop : (src ++ mem.drop size).drop size = mem.drop size := by
    rw [← hsrc]
    exact List.drop_left src (mem.drop src.length)
  refine ⟨_, _, _, fillBuffer_at_zero b mem t src size hsrc hsize, ?_, hlen, ?_, ?_, ?_⟩
  · rw [hostRead, List.drop_zero, ← hsrc]
    exact List.take_left src (mem.drop src.length)
  · intro i hi
    rw [List.getElem?_append_right (by omega), List.getElem?_drop, hsrc]
    congr 1
    omega
  · have hagain := fillBuffer_at_zero b (src ++ mem.drop size)
      (t ++ [VkCall.mapMemory b.m_bufferMemory 0 size] ++ [VkCall.unmapMemory b.m_bufferMemory])
      src size hsrc (by omega)
    rw [hdrop] at hagain
    exact ⟨_, hagain⟩
  · intro hfull
    rw [Buffer.fillBufferFull, ← hfull]
    exact fillBuffer_at_zero b mem t src size hsrc hsize

/-- C7 on a 4-byte memory and a 2-byte source. -/
theorem C7_fill_then_read_witness :
    ([7, 9] : List Byte).length = 2 ∧ 2 ≤ ([1, 2, 3, 4] : List Byte).length ∧
      ∃ mem1 t1 ptr,
        (Buffer.new.setup 2 0).fillBuffer [1, 2, 3, 4] [] [7, 9] 2 0 = some (mem1, t1, ptr) ∧
        hostRead mem1 ptr 2 = [7, 9] ∧
        mem1.length = ([1, 2, 3, 4] : List Byte).length ∧
        (∀ i, 2 ≤ i → mem1[i]? = ([1, 2, 3, 4] : List Byte)[i]?) ∧
        (∃ t2, (Buffer.new.setup 2 0).fillBuffer mem1 t1 [7, 9] 2 0 = some (mem1, t2, ptr)) ∧
        (2 = (Buffer.new.setup 2 0).m_bufferInfo.size →
          (Buffer.new.setup 2 0).fillBufferFull [1, 2, 3, 4] [] [7, 9] = some (mem1, t1, ptr)) :=
  ⟨by decide, by decide,
    C7_fill_then_read (Buffer.new.setup 2 0) [1, 2, 3, 4] [] [7, 9] 2 (by decide) (by decide)⟩

theorem flushLoop_fst {σ : Type} (stack : List (σ → σ)) :
    ∀ s : σ, (Cleaner.flushLoop stack s).1 = [] := by
  induction stack with
  | nil => intro s; rfl
  | cons f rest ih => intro s; exact ih (f s)

theorem flushLoop_snd {σ : Type} (stack : List (σ → σ)) :
    ∀ s : σ, (Cleaner.flushLoop stack s).2 = stack.foldl (fun acc f => f acc) s := by
  induction stack with
  | nil => intro s; rfl
  | cons f rest ih => intro s; exact ih (f s)

theorem pushAll_stack {σ : Type} (fs : List (σ → σ)) :
    ∀ c : Cleaner σ, (c.pushAll fs).stack = fs.reverse ++ c.stack := by
  induction fs with
  | nil => intro c; rfl
  | cons f rest ih =>
    intro c
    have hstep : Cleaner.pushAll c (f :: rest) = Cleaner.pushAll (c.push f) rest := rfl
    rw [hstep, ih, List.reverse_cons, List.append_assoc]
    rfl

theorem flush_eq {σ : Type} (c : Cleaner σ) (s : σ) :
    c.flush s = (Cleaner.empty, c.stack.foldl (fun acc f => f acc) s) := by
  show ((⟨(Cleaner.flushLoop c.stack s).1⟩ : Cleaner σ), (Cleaner.flushLoop c.stack s).2) = _
  rw [flushLoop_fst, flushLoop_snd]
  rfl

theorem create_ok_inv (drv : Driver) (b b1 : Buffer) (t t1 : Trace)
    (hok : b.create drv t = .ok (b1, t1)) :
    ∃ memoryTypeIndex : Nat,
      b1.toBufferData =
        { m_buffer := (drv.createBuffer t b.m_bufferInfo).2,
          m_bufferMemory := (drv.allocateMemory
            (t ++ [VkCall.createBuffer b.m_bufferInfo,
              VkCall.getBufferMemoryRequirements (drv.createBuffer t b.m_bufferInfo).2])
            (drv.getBufferMemoryRequirements (t ++ [VkCall.createBuffer b.m_bufferInfo])
              (drv.createBuffer t b.m_bufferInfo).2).size memoryTypeIndex).2,
          m_bufferInfo := b.m_bufferInfo,
          m_descriptorInfo := { buffer := (drv.createBuffer t b.m_bufferInfo).2, offset := 0,
                                range := b.m_bufferInfo.size } } ∧
      b1.m_cleaner.stack =
        Buffer.freeMemoryAction :: Buffer.destroyBufferAction :: b.m_cleaner.stack ∧
      t1 = t ++ [VkCall.createBuffer b.m_bufferInfo,
        VkCall.getBufferMemoryRequirements b1.m_buffer,
        VkCall.allocateMemory
          (drv.getBufferMemoryRequirements (t ++ [VkCall.createBuffer b.m_bufferInfo])
            (drv.createBuffer t b.m_bufferInfo).2).size memoryTypeIndex,
        VkCall.bindBufferMemory b1.m_buffer b1.m_bufferMemory 0] := by
  simp only [Buffer.create, Buffer.createBuffer, Buffer.allocateBufferMemory] at hok
  split at hok
  · simp at hok
  · rename_i b2 t2 h1
    split at h1
    · simp at h1
    · simp only [Except.ok.injEq, Prod.mk.injEq] at h1
      obtain ⟨hb2, ht2⟩ := h1
      subst hb2; subst ht2
      split at hok
      · simp at hok
      · rename_i b3 t3 h3
        simp only [Except.ok.injEq, Prod.mk.injEq] at hok
        obtain ⟨hb, ht⟩ := hok
        split at h3
        · simp at h3
        · rename_i idx hidx
          split at h3
          · simp at h3
          · simp only [Except.ok.injEq, Prod.mk.injEq] at h3
            obtain ⟨hb3, ht3⟩ := h3
            subst hb; subst ht; subst hb3; subst ht3
            refine ⟨idx, ?_, ?_, ?_⟩
            · simp [Buffer.createDescriptorInfo]
            · rfl
            · simp [Buffer.createDescriptorInfo]

/-- C8: for a buffer with an empty cleaner on which `create()` succeeded,
creation made the buffer handle first and the memory second, and `cleanup()`
makes exactly two release calls, in the reverse order: `vkFreeMemory` on the
buffer's memory, then `vkDestroyBuffer` on the buffer's handle; it leaves the
cleaner empty and the fields as they were. -/
theorem C8_cleanup_reverse_of_create (drv : Driver) (b b1 : Buffer) (t t1 : Trace)
    (hfresh : b.m_cleaner.stack = []) (hok : b.create drv t = .ok (b1, t1)) :
    (b1.cleanup t1).2 =
        t1 ++ [VkCall.freeMemory b1.m_bufferMemory, VkCall.destroyBuffer b1.m_buffer] ∧
      (b1.cleanup t1).1.m_cleaner.stack = [] ∧
      (b1.cleanup t1).1.toBufferData = b1.toBufferData ∧
      ∃ allocationSize memoryTypeIndex,
        t1 = t ++ [VkCall.createBuffer b.m_bufferInfo,
          VkCall.getBufferMemoryRequirements b1.m_buffer,
          VkCall.allocateMemory allocationSize memoryTypeIndex,
          VkCall.bindBufferMemory b1.m_buffer b1.m_bufferMemory 0] := by
  obtain ⟨idx, _, hstack, ht1⟩ := create_ok_inv drv b b1 t t1 hok
  rw [hfresh] at hstack
  have hflush := flush_eq b1.m_cleaner (b1.toBufferData, t1)
  rw [hstack] at hflush
  refine ⟨?_, ?_, ?_, _, idx, ht1⟩
  · simp only [Buffer.cleanup, hflush]
    simp [Buffer.freeMemoryAction, Buffer.destroyBufferAction]
  · simp only [Buffer.cleanup, hflush]
    rfl
  · simp only [Buffer.cleanup, hflush]
    rfl

/-- C8 on a 16-byte buffer created through a driver on which every call
succeeds. -/
theorem C8_cleanup_reverse_of_create_witness :
    (Buffer.new.setup 16 0).m_cleaner.stack = [] ∧
      ∃ b1 t1, (Buffer.new.setup 16 0).create sampleDriver [] = .ok (b1, t1) ∧
        (b1.cleanup t1).2 =
          t1 ++ [VkCall.freeMemory b1.m_bufferMemory, VkCall.destroyBuffer b1.m_buffer] ∧
        (b1.cleanup t1).1.m_cleaner.stack = [] ∧
        (b1.cleanup t1).1.toBufferData = b1.toBufferData ∧
        ∃ allocationSize memoryTypeIndex,
          t1 = [] ++ [VkCall.createBuffer (Buffer.new.setup 16 0).m_bufferInfo,
            VkCall.getBufferMemoryRequirements b1.m_buffer,
            VkCall.allocateMemory allocationSize memoryTypeIndex,
            VkCall.bindBufferMemory b1.m_buffer b1.m_bufferMemory 0] :=
  ⟨rfl, _, _, rfl,
    C8_cleanup_reverse_of_create sampleDriver (Buffer.new.setup 16 0) _ [] _ rfl rfl⟩

/-- C9: for every list of release actions pushed on an empty cleaner, `flush`
returns, its effect on the state is that of running the actions one after
the other in the reverse order of their push, each once, and it leaves the
stack empty; a second `flush` with no push in between changes nothing. When
each action appends its own label to a log, the log grows by the labels in
reverse push order, each label once. -/
theorem C9_flush_reverse_once {σ α : Type} (fs : List (σ → σ)) (s s2 : σ)
    (labels log : List α) :
    Cleaner.flush (Cleaner.empty.pushAll fs) s =
        (Cleaner.empty, fs.reverse.foldl (fun acc f => f acc) s) ∧
      Cleaner.flush (Cleaner.flush (Cleaner.empty.pushAll fs) s).1 s2 = (Cleaner.empty, s2) ∧
      Cleaner.flush (Cleaner.empty.pushAll (labels.map (fun a l => l ++ [a]))) log =
        (Cleaner.empty, log ++ labels.reverse) := by
  have hgen : ∀ (τ : Type) (gs : List (τ → τ)) (x : τ),
      Cleaner.flush (Cleaner.empty.pushAll gs) x =
        (Cleaner.empty, gs.reverse.foldl (fun acc f => f acc) x) := by
    intro τ gs x
    rw [flush_eq, pushAll_stack]
    simp [Cleaner.empty]
  refine ⟨hgen σ fs s, ?_, ?_⟩
  · rw [hgen σ fs s, flush_eq]
    rfl
  · rw [hgen]
    congr 1
    rw [← List.map_reverse]
    generalize labels.reverse = ls
    induction ls generalizing log with
    | nil => simp
    | cons a rest ih => simp [ih]

theorem viewCalls_succ (info : VkImageViewCreateInfo) (L k n : Nat) :
    viewCalls info L k (n + 1) =
      VkCall.createImageView (Image.viewInfoAt info L k) :: viewCalls info L (k + 1) n := by
  simp [viewCalls, List.range'_succ]

theorem createImageViewsLoop_ok (drv : Driver) (L : Nat)
    (hdrv : ∀ tr info, (drv.createImageView tr info).1 = VK_SUCCESS) (n : Nat) :
    ∀ (k : Nat) (img : Image) (t : Trace),
      ∃ img1 t1, Image.createImageViewsLoop drv L (List.range' k n) (img, t) = .ok (img1, t1) ∧
        t1 = t ++ viewCalls img.m_imageViewInfo L k n ∧
        img1.m_imageViews.length = img.m_imageViews.length ∧
        (∀ j, j < k → img1.m_imageViews[j]? = img.m_imageViews[j]?) ∧
        (∀ i, k ≤ i → i < k + n → i < img.m_imageViews.length →
          img1.m_imageViews[i]? = some (drv.createImageView
            (t ++ viewCalls img.m_imageViewInfo L k (i - k))
            (Image.viewInfoAt img.m_imageViewInfo L i)).2) ∧
        Image.viewInfoAt img1.m_imageViewInfo L 0 = Image.viewInfoAt img.m_imageViewInfo L 0 ∧
        img1.m_imageInfo = img.m_imageInfo ∧
        img1.m_image = img.m_image ∧
        img1.m_imageLayout = img.m_imageLayout ∧
        img1.m_cleaner.stack = List.replicate n Image.destroyBackView ++ img.m_cleaner.stack := by
  induction n with
  | zero =>
    intro k img t
    refine ⟨img, t, rfl, by simp [viewCalls], rfl, fun _ _ => rfl, ?_, rfl, rfl, rfl, rfl, rfl⟩
    intro i h1 h2
    omega
  | succ n ih =>
    intro k img t
    have hsucc := hdrv t (Image.viewInfoAt img.m_imageViewInfo L k)
    obtain ⟨img1, t1, hloop, ht1, hlen, hlow, hhigh, hinfo, himgInfo, himage, hlayout, hstack⟩ :=
      ih (k + 1)
        { img with
          m_imageViewInfo := Image.viewInfoAt img.m_imageViewInfo L k,
          m_imageViews := img.m_imageViews.set k
            (drv.createImageView t (Image.viewInfoAt img.m_imageViewInfo L k)).2,
          m_cleaner := img.m_cleaner.push Image.destroyBackView }
        (t ++ [VkCall.createImageView (Image.viewInfoAt img.m_imageViewInfo L k)])
    simp only [List.length_set] at hlen hhigh
    refine ⟨img1, t1, ?_, ?_, hlen, ?_, ?_, ?_, himgInfo, himage, hlayout, ?_⟩
    · rw [List.range'_succ, Image.createImageViewsLoop]
      simp only [Image.viewInfoAt] at hsucc hloop
      simp only [hsucc, ne_eq, not_true_eq_false, if_false]
      exact hloop
    · rw [ht1, viewCalls_succ]
      simp [viewCalls, Image.viewInfoAt]
    · intro j hj
      rw [hlow j (by omega)]
      exact List.getElem?_set_ne (by omega)
    · intro i hki hin hilen
      by_cases hik : i = k
      · subst hik
        rw [hlow i (by omega)]
        simp [viewCalls, hilen]
      · rw [hhigh i (by omega) (by omega) hilen]
        have hsplit : i - k = (i - (k + 1)) + 1 := by omega
        rw [hsplit, viewCalls_succ]
        simp [viewCalls, Image.viewInfoAt]
    · rw [hinfo]
      rfl
    · rw [hstack]
      simp [Cleaner.push, List.replicate_succ']

theorem resizeHandles_length (v : List Handle) (n : Nat) : (resizeHandles v n).length = n := by
  simp only [resizeHandles, List.length_append, List.length_take, List.length_replicate]
  omega

/-- C10: for an image with L mip levels (L below 2^31, the range in which
the `int` loop counter is exact) and a driver on which view creation
succeeds, `createImageViews` returns, has made exactly L `vkCreateImageView`
calls, in the order of the index, and holds L views; for every i < L the
i-th call has baseMipLevel = i and levelCount = L - i on the image's handle
and view i is the handle that call produced; afterwards the stored view
record has baseMipLevel 0 and levelCount L and is otherwise as before, with
the image's handle filled in. -/
theorem C10_createImageViews (drv : Driver) (img : Image) (t : Trace) (L : Nat)
    (hL : img.m_imageInfo.mipLevels = L) (_hint : L < 2 ^ 31)
    (hdrv : ∀ tr info, (drv.createImageView tr info).1 = VK_SUCCESS) :
    ∃ img1 t1 info0, img.createImageViews drv t = .ok (img1, t1) ∧
      info0 = { img.m_imageViewInfo with image := img.m_image } ∧
      img1.m_imageViews.length = L ∧
      t1 = t ++ (List.range L).map
        (fun i => VkCall.createImageView (Image.viewInfoAt info0 L i)) ∧
      (∀ i, i < L →
        (Image.viewInfoAt info0 L i).image = img.m_image ∧
        (Image.viewInfoAt info0 L i).subresourceRange.baseMipLevel = i ∧
        (Image.viewInfoAt info0 L i).subresourceRange.levelCount = L - i ∧
        img1.m_imageViews[i]? = some (drv.createImageView
          (t ++ (List.range i).map (fun j => VkCall.createImageView (Image.viewInfoAt info0 L j)))
          (Image.viewInfoAt info0 L i)).2) ∧
      img1.m_imageViewInfo = { info0 with subresourceRange :=
        { info0.subresourceRange with baseMipLevel := 0, levelCount := L } } := by
  obtain ⟨img1, t1, hloop, ht1, hlen, _, hhigh, hinfo, _, _, _, _⟩ :=
    createImageViewsLoop_ok drv L hdrv L 0
      { img with
        m_imageViews := resizeHandles img.m_imageViews L,
        m_imageViewInfo := { img.m_imageViewInfo with image := img.m_image } } t
  simp only [resizeHandles_length] at hlen hhigh
  refine ⟨{ img1 with m_imageViewInfo := Image.viewInfoAt img1.m_imageViewInfo L 0 }, t1,
    { img.m_imageViewInfo with image := img.m_image }, ?_, rfl, ?_, ?_, ?_, ?_⟩
  · simp only [Image.createImageViews, hL, List.range_eq_range', hloop]
    rfl
  · exact hlen
  · rw [ht1, List.range_eq_range']
    rfl
  · intro i hi
    refine ⟨rfl, rfl, rfl, ?_⟩
    have := hhigh i (Nat.zero_le i) (by omega) hi
    rw [this, List.range_eq_range']
    rfl
  · exact hinfo

/-- C10 on an image with 3 mip levels and a driver on which every call
succeeds. -/
theorem C10_createImageViews_witness :
    sampleTexture.m_imageInfo.mipLevels = 3 ∧ 3 < 2 ^ 31 ∧
      (∀ tr info, (sampleDriver.createImageView tr info).1 = VK_SUCCESS) ∧
      ∃ img1 t1 info0, sampleTexture.createImageViews sampleDriver [] = .ok (img1, t1) ∧
        info0 = { sampleTexture.m_imageViewInfo with image := sampleTexture.m_image } ∧
        img1.m_imageViews.length = 3 ∧
        t1 = [] ++ (List.range 3).map
          (fun i => VkCall.createImageView (Image.viewInfoAt info0 3 i)) ∧
        (∀ i, i < 3 →
          (Image.viewInfoAt info0 3 i).image = sampleTexture.m_image ∧
          (Image.viewInfoAt info0 3 i).subresourceRange.baseMipLevel = i ∧
          (Image.viewInfoAt info0 3 i).subresourceRange.levelCount = 3 - i ∧
          img1.m_imageViews[i]? = some (sampleDriver.createImageView
            ([] ++ (List.range i).map
              (fun j => VkCall.createImageView (Image.viewInfoAt info0 3 j)))
            (Image.viewInfoAt info0 3 i)).2) ∧
        img1.m_imageViewInfo = { info0 with subresourceRange :=
          { info0.subresourceRange with baseMipLevel := 0, levelCount := 3 } } :=
  ⟨rfl, by decide, fun _ _ => rfl,
    C10_createImageViews sampleDriver sampleTexture [] 3 rfl (by decide) (fun _ _ => rfl)⟩

theorem specMipSize_pred_succ (w k : Nat) (hk : 1 ≤ k) :
    specMipSize w (k + 1 - 1) = specMipSize w (k - 1) / 2 := by
  obtain ⟨j, rfl⟩ : ∃ j, k = j + 1 := ⟨k - 1, by omega⟩
  rfl

theorem tdiv_two_natCast (a : Nat) : Int.tdiv (a : Int) 2 = ((a / 2 : Nat) : Int) :=
  (Int.ofNat_tdiv a 2).symm

theorem cmdGenerateMipmapsLoop_cons (image : Handle) (layerCount i : Nat) (rest : List Nat)
    (barrier : VkImageMemoryBarrier) (mipWidth mipHeight : Int) (cb : CommandBuffer) :
    Image.cmdGenerateMipmapsLoop image layerCount (i :: rest) (barrier, mipWidth, mipHeight, cb) =
      Image.cmdGenerateMipmapsLoop image layerCount rest
        (mipStepBarrier barrier i, Int.tdiv mipWidth 2, Int.tdiv mipHeight 2,
          cb ++ mipStepCmds image layerCount barrier mipWidth mipHeight i) := by
  simp [Image.cmdGenerateMipmapsLoop, mipStepCmds, mipStepBarrier]

theorem mipStepCmds_eq_spec (img : Image) (w h k : Nat) (barrier : VkImageMemoryBarrier)
    (h1 : barrier.image = img.m_image)
    (h2 : barrier.srcQueueFamilyIndex = VK_QUEUE_FAMILY_IGNORED)
    (h3 : barrier.dstQueueFamilyIndex = VK_QUEUE_FAMILY_IGNORED)
    (h4 : barrier.subresourceRange.aspectMask = VK_IMAGE_ASPECT_COLOR_BIT)
    (h5 : barrier.subresourceRange.levelCount = 1)
    (h6 : barrier.subresourceRange.baseArrayLayer = 0)
    (h7 : barrier.subresourceRange.layerCount = img.m_imageViewInfo.subresourceRange.layerCount) :
    mipStepCmds img.m_image img.m_imageViewInfo.subresourceRange.layerCount barrier
        ((specMipSize w (k - 1) : Nat) : Int) ((specMipSize h (k - 1) : Nat) : Int) k =
      specMipmapStep img w h k := by
  simp only [mipStepCmds, mipStepBarrier, specMipmapStep, specMipBarrier, h1, h2, h3, h4, h5, h6,
    h7, ← Int.ofNat_tdiv]
  rfl

theorem cmdGenerateMipmapsLoop_spec (img : Image) (w h n : Nat) :
    ∀ (k : Nat) (barrier : VkImageMemoryBarrier) (cb : CommandBuffer), 1 ≤ k →
      barrier.image = img.m_image →
      barrier.srcQueueFamilyIndex = VK_QUEUE_FAMILY_IGNORED →
      barrier.dstQueueFamilyIndex = VK_QUEUE_FAMILY_IGNORED →
      barrier.subresourceRange.aspectMask = VK_IMAGE_ASPECT_COLOR_BIT →
      barrier.subresourceRange.levelCount = 1 →
      barrier.subresourceRange.baseArrayLayer = 0 →
      barrier.subresourceRange.layerCount = img.m_imageViewInfo.subresourceRange.layerCount →
      (Image.cmdGenerateMipmapsLoop img.m_image img.m_imageViewInfo.subresourceRange.layerCount
        (List.range' k n)
        (barrier, ((specMipSize w (k - 1) : Nat) : Int), ((specMipSize h (k - 1) : Nat) : Int),
          cb)).2.2.2 =
        cb ++ (List.range' k n).flatMap (specMipmapStep img w h) := by
  induction n with
  | zero =>
    intro k barrier cb _ _ _ _ _ _ _ _
    simp [Image.cmdGenerateMipmapsLoop]
  | succ n ih =>
    intro k barrier cb hk h1 h2 h3 h4 h5 h6 h7
    rw [List.range'_succ, cmdGenerateMipmapsLoop_cons,
      mipStepCmds_eq_spec img w h k barrier h1 h2 h3 h4 h5 h6 h7,
      tdiv_two_natCast, tdiv_two_natCast,
      ← specMipSize_pred_succ w k hk, ← specMipSize_pred_succ h k hk,
      ih (k + 1) (mipStepBarrier barrier k) _ (by omega) h1 h2 h3 h4 h5 h6 h7,
      List.flatMap_cons, List.append_assoc]

theorem countP_isBlit_steps (img : Image) (w h : Nat) (l : List Nat) :
    (l.flatMap (specMipmapStep img w h)).countP Cmd.isBlit = l.length := by
  induction l with
  | nil => rfl
  | cons i rest ih =>
    rw [List.flatMap_cons, List.countP_append, ih]
    simp [specMipmapStep, specMipBarrier, Cmd.isBlit, List.countP_cons]
    omega

theorem countP_isBarrier_steps (img : Image) (w h : Nat) (l : List Nat) :
    (l.flatMap (specMipmapStep img w h)).countP Cmd.isBarrier = 2 * l.length := by
  induction l with
  | nil => rfl
  | cons i rest ih =>
    rw [List.flatMap_cons, List.countP_append, ih]
    simp [specMipmapStep, specMipBarrier, Cmd.isBarrier, List.countP_cons]
    omega

theorem cmdGenerateMipmaps_ok (pd : PhysicalDevice) (img : Image) (cmdBuffer : CommandBuffer)
    (hw31 : img.m_imageInfo.extent.width < 2 ^ 31)
    (hh31 : img.m_imageInfo.extent.height < 2 ^ 31)
    (hfmt : (pd.formatProperties img.m_imageInfo.format).optimalTilingFeatures &&&
      VK_FORMAT_FEATURE_SAMPLED_IMAGE_FILTER_LINEAR_BIT ≠ 0) :
    img.cmdGenerateMipmaps pd cmdBuffer =
      .ok (img, cmdBuffer ++ (List.range' 1 (img.m_imageInfo.mipLevels - 1)).flatMap
        (specMipmapStep img img.m_imageInfo.extent.width img.m_imageInfo.extent.height)) := by
  simp only [Image.cmdGenerateMipmaps, if_neg hfmt, toInt32_of_lt _ hw31, toInt32_of_lt _ hh31]
  have hloop := cmdGenerateMipmapsLoop_spec img img.m_imageInfo.extent.width
    img.m_imageInfo.extent.height (img.m_imageInfo.mipLevels - 1) 1
    { Image.GetDefaultImageMemoryBarrier with
      image := img.m_image,
      subresourceRange := { Image.GetDefaultImageMemoryBarrier.subresourceRange with
        layerCount := img.m_imageViewInfo.subresourceRange.layerCount } }
    cmdBuffer (Nat.le_refl 1) rfl rfl rfl rfl rfl rfl rfl
  simp only [Nat.sub_self, specMipSize] at hloop
  rw [hloop]

/-- C11, as stated, fails: for an image of extent (2^31, 1) with 2 mip levels
the width reaches the `int32_t` of the blit corners as a negative number; the
one blit recorded goes from the corner (-2147483648, 1) to the corner
(-1073741824, 0), where the stated triple has (2147483648, 1) and
(1073741824, 0). -/
theorem C11_counterexample :
    blitCornersOf (recordedOf
        ((sampleImage 2147483648 1 2).cmdGenerateMipmaps samplePhysicalDevice [])) =
        [((-2147483648, 1), (-1073741824, 0))] ∧
      blitCornersOf (specMipmapStep (sampleImage 2147483648 1 2) 2147483648 1 1) =
        [((2147483648, 1), (1073741824, 0))] := by
  constructor <;> decide

/-- C11 (amended): for an image with L mip levels and extent (w, h), both at
most 2^31 - 1 (the sizes that pass unchanged into the `int32_t` blit corners),
whose format passes the linear-filter check, `cmdGenerateMipmaps` returns and
appends, for each level i = 1 .. L-1 in increasing order, the barrier on level
i-1 from TRANSFER_DST to TRANSFER_SRC, the blit from level i-1 of extent
(w_(i-1), h_(i-1)) to level i of extent (floor(w_(i-1)/2), floor(h_(i-1)/2)),
and the barrier on level i-1 back to TRANSFER_DST, with (w_0, h_0) = (w, h);
that is L-1 blits and 2(L-1) barriers, and the image is left as it was. -/
theorem C11_generateMipmaps (pd : PhysicalDevice) (img : Image) (cmdBuffer : CommandBuffer)
    (w h L : Nat)
    (hw : img.m_imageInfo.extent.width = w) (hh : img.m_imageInfo.extent.height = h)
    (hL : img.m_imageInfo.mipLevels = L) (hw31 : w < 2 ^ 31) (hh31 : h < 2 ^ 31)
    (hfmt : (pd.formatProperties img.m_imageInfo.format).optimalTilingFeatures &&&
      VK_FORMAT_FEATURE_SAMPLED_IMAGE_FILTER_LINEAR_BIT ≠ 0) :
    img.cmdGenerateMipmaps pd cmdBuffer =
        .ok (img, cmdBuffer ++ (List.range' 1 (L - 1)).flatMap (specMipmapStep img w h)) ∧
      ((List.range' 1 (L - 1)).flatMap (specMipmapStep img w h)).countP Cmd.isBlit = L - 1 ∧
      ((List.range' 1 (L - 1)).flatMap (specMipmapStep img w h)).countP Cmd.isBarrier
        = 2 * (L - 1) := by
  subst hw; subst hh; subst hL
  refine ⟨cmdGenerateMipmaps_ok pd img cmdBuffer hw31 hh31 hfmt, ?_, ?_⟩
  · rw [countP_isBlit_steps, List.length_range']
  · rw [countP_isBarrier_steps, List.length_range']

/-- C11 (amended) on an image of extent (300, 150) with 7 mip levels. -/
theorem C11_generateMipmaps_witness :
    (sampleImage 300 150 7).m_imageInfo.extent.width = 300 ∧
      (sampleImage 300 150 7).m_imageInfo.extent.height = 150 ∧
      (sampleImage 300 150 7).m_imageInfo.mipLevels = 7 ∧ 300 < 2 ^ 31 ∧ 150 < 2 ^ 31 ∧
      (samplePhysicalDevice.formatProperties
          (sampleImage 300 150 7).m_imageInfo.format).optimalTilingFeatures &&&
        VK_FORMAT_FEATURE_SAMPLED_IMAGE_FILTER_LINEAR_BIT ≠ 0 ∧
      ((sampleImage 300 150 7).cmdGenerateMipmaps samplePhysicalDevice [] =
          .ok (sampleImage 300 150 7,
            [] ++ (List.range' 1 (7 - 1)).flatMap (specMipmapStep (sampleImage 300 150 7) 300 150)) ∧
        ((List.range' 1 (7 - 1)).flatMap
          (specMipmapStep (sampleImage 300 150 7) 300 150)).countP Cmd.isBlit = 7 - 1 ∧
        ((List.range' 1 (7 - 1)).flatMap
          (specMipmapStep (sampleImage 300 150 7) 300 150)).countP Cmd.isBarrier = 2 * (7 - 1)) :=
  ⟨rfl, rfl, rfl, by decide, by decide, by decide,
    C11_generateMipmaps samplePhysicalDevice (sampleImage 300 150 7) [] 300 150 7 rfl rfl rfl
      (by decide) (by decide) (by decide)⟩

/-- C12: `cmdGenerateMipmaps` raises an error exactly when the optimal-tiling
features of the image's format lack SAMPLED_IMAGE_FILTER_LINEAR; when it
raises, the exception carries the image and the command buffer as they were
before the call: no barrier and no blit has been recorded and no field of the
image has changed. -/
theorem C12_generateMipmaps_error (pd : PhysicalDevice) (img : Image)
    (cmdBuffer : CommandBuffer) :
    ((∃ e, img.cmdGenerateMipmaps pd cmdBuffer = .error e) ↔
        (pd.formatProperties img.m_imageInfo.format).optimalTilingFeatures &&&
          VK_FORMAT_FEATURE_SAMPLED_IMAGE_FILTER_LINEAR_BIT = 0) ∧
      (∀ e, img.cmdGenerateMipmaps pd cmdBuffer = .error e →
        e = ("texture image format does not support linear blitting!", img, cmdBuffer)) := by
  by_cases h0 : (pd.formatProperties img.m_imageInfo.format).optimalTilingFeatures &&&
      VK_FORMAT_FEATURE_SAMPLED_IMAGE_FILTER_LINEAR_BIT = 0
  · have herr : img.cmdGenerateMipmaps pd cmdBuffer =
        .error ("texture image format does not support linear blitting!", img, cmdBuffer) := by
      simp only [Image.cmdGenerateMipmaps, if_pos h0]
    refine ⟨⟨fun _ => h0, fun _ => ⟨_, herr⟩⟩, ?_⟩
    intro e he
    rw [herr] at he
    exact (Except.error.inj he).symm
  · have hok : ∃ r, img.cmdGenerateMipmaps pd cmdBuffer = .ok r := by
      simp only [Image.cmdGenerateMipmaps, if_neg h0]
      exact ⟨_, rfl⟩
    obtain ⟨r, hr⟩ := hok
    refine ⟨⟨?_, fun h => absurd h h0⟩, ?_⟩
    · rintro ⟨e, he⟩
      rw [hr] at he
      cases he
    · intro e he
      rw [hr] at he
      cases he


theorem create_cases (drv : Driver) (b : Buffer) (t : Trace) :
    ((drv.createBuffer t b.m_bufferInfo).1 ≠ VK_SUCCESS →
      b.create drv t = .error ("failed to buffer!",
        { b with m_buffer := (drv.createBuffer t b.m_bufferInfo).2 },
        t ++ [VkCall.createBuffer b.m_bufferInfo])) ∧
    ((drv.createBuffer t b.m_bufferInfo).1 = VK_SUCCESS →
      ∀ msg, drv.findMemoryTypeIndex
          (drv.getBufferMemoryRequirements (t ++ [VkCall.createBuffer b.m_bufferInfo])
            (drv.createBuffer t b.m_bufferInfo).2).memoryTypeBits
          (VK_MEMORY_PROPERTY_HOST_VISIBLE_BIT ||| VK_MEMORY_PROPERTY_HOST_COHERENT_BIT)
          = .error msg →
      b.create drv t = .error (msg,
        { b with m_buffer := (drv.createBuffer t b.m_bufferInfo).2,
                 m_cleaner := b.m_cleaner.push Buffer.destroyBufferAction },
        t ++ [VkCall.createBuffer b.m_bufferInfo] ++
          [VkCall.getBufferMemoryRequirements (drv.createBuffer t b.m_bufferInfo).2])) ∧
    ((drv.createBuffer t b.m_bufferInfo).1 = VK_SUCCESS →
      ∀ idx, drv.findMemoryTypeIndex
          (drv.getBufferMemoryRequirements (t ++ [VkCall.createBuffer b.m_bufferInfo])
            (drv.createBuffer t b.m_bufferInfo).2).memoryTypeBits
          (VK_MEMORY_PROPERTY_HOST_VISIBLE_BIT ||| VK_MEMORY_PROPERTY_HOST_COHERENT_BIT)
          = .ok idx →
      (drv.allocateMemory
          (t ++ [VkCall.createBuffer b.m_bufferInfo] ++
            [VkCall.getBufferMemoryRequirements (drv.createBuffer t b.m_bufferInfo).2])
          (drv.getBufferMemoryRequirements (t ++ [VkCall.createBuffer b.m_bufferInfo])
            (drv.createBuffer t b.m_bufferInfo).2).size idx).1 ≠ VK_SUCCESS →
      b.create drv t = .error ("failed to allocate buffer memory!",
        { b with m_buffer := (drv.createBuffer t b.m_bufferInfo).2,
                 m_cleaner := b.m_cleaner.push Buffer.destroyBufferAction },
        t ++ [VkCall.createBuffer b.m_bufferInfo] ++
          [VkCall.getBufferMemoryRequirements (drv.createBuffer t b.m_bufferInfo).2] ++
          [VkCall.allocateMemory
            (drv.getBufferMemoryRequirements (t ++ [VkCall.createBuffer b.m_bufferInfo])
              (drv.createBuffer t b.m_bufferInfo).2).size idx])) ∧
    ((drv.createBuffer t b.m_bufferInfo).1 = VK_SUCCESS →
      ∀ idx, drv.findMemoryTypeIndex
          (drv.getBufferMemoryRequirements (t ++ [VkCall.createBuffer b.m_bufferInfo])
            (drv.createBuffer t b.m_bufferInfo).2).memoryTypeBits
          (VK_MEMORY_PROPERTY_HOST_VISIBLE_BIT ||| VK_MEMORY_PROPERTY_HOST_COHERENT_BIT)
          = .ok idx →
      (drv.allocateMemory
          (t ++ [VkCall.createBuffer b.m_bufferInfo] ++
            [VkCall.getBufferMemoryRequirements (drv.createBuffer t b.m_bufferInfo).2])
          (drv.getBufferMemoryRequirements (t ++ [VkCall.createBuffer b.m_bufferInfo])
            (drv.createBuffer t b.m_bufferInfo).2).size idx).1 = VK_SUCCESS →
      ∃ r, b.create drv t = .ok r) := by
  refine ⟨?_, ?_, ?_, ?_⟩
  · intro h1
    simp only [Buffer.create, Buffer.createBuffer, if_pos h1]
  · intro h1 msg hmsg
    have h1' : ¬ (drv.createBuffer t b.m_bufferInfo).1 ≠ VK_SUCCESS := not_not.mpr h1
    simp only [Buffer.create, Buffer.createBuffer, if_neg h1', Buffer.allocateBufferMemory, hmsg]
  · intro h1 idx hidx h2
    have h1' : ¬ (drv.createBuffer t b.m_bufferInfo).1 ≠ VK_SUCCESS := not_not.mpr h1
    simp only [Buffer.create, Buffer.createBuffer, if_neg h1', Buffer.allocateBufferMemory, hidx,
      if_pos h2]
  · intro h1 idx hidx h2
    have h1' : ¬ (drv.createBuffer t b.m_bufferInfo).1 ≠ VK_SUCCESS := not_not.mpr h1
    have h2' : ¬ (drv.allocateMemory
          (t ++ [VkCall.createBuffer b.m_bufferInfo] ++
            [VkCall.getBufferMemoryRequirements (drv.createBuffer t b.m_bufferInfo).2])
          (drv.getBufferMemoryRequirements (t ++ [VkCall.createBuffer b.m_bufferInfo])
            (drv.createBuffer t b.m_bufferInfo).2).size idx).1 ≠ VK_SUCCESS := not_not.mpr h2
    simp only [Buffer.create, Buffer.createBuffer, if_neg h1', Buffer.allocateBufferMemory, hidx,
      if_neg h2']
    exact ⟨_, rfl⟩

/-- C13, as stated, fails on the side "only if": with a driver on which the
buffer-creation call and every memory-allocation call report success but no
memory type is compatible, `create` raises an error. -/
theorem C13_counterexample :
    (∃ e, (Buffer.new.setup 16 0).create noMemoryTypeDriver [] = .error e) ∧
      ((Buffer.new.setup 16 0).creationAnswer noMemoryTypeDriver []).1 = VK_SUCCESS ∧
      ∀ t size idx, (noMemoryTypeDriver.allocateMemory t size idx).1 = VK_SUCCESS :=
  ⟨⟨_, rfl⟩, rfl, fun _ _ _ => rfl⟩

/-- C13 (amended): `Buffer::create` raises an error if and only if the
buffer-creation call reports non-success, or the memory-type lookup fails, or
the memory-allocation call reports non-success. When buffer creation fails the
message is 'failed to buffer!', only `vkCreateBuffer` has been called and no
release action has been registered. When the lookup or the allocation fails
(message of the lookup, resp. 'failed to allocate buffer memory!') the memory
is not bound, `m_bufferMemory` and the descriptor record are as before, and
the one release action registered is the buffer destroy. When the lookup
succeeds, an error is raised exactly when one of the two calls reports
non-success. -/
theorem C13_create_raises (drv : Driver) (b : Buffer) (t : Trace) :
    ((∃ e, b.create drv t = .error e) ↔
        ((b.creationAnswer drv t).1 ≠ VK_SUCCESS ∨
          (∃ msg, b.lookupAnswer drv t = .error msg) ∨
          (∃ idx, b.lookupAnswer drv t = .ok idx ∧
            (b.allocationAnswer drv t idx).1 ≠ VK_SUCCESS))) ∧
      ((b.creationAnswer drv t).1 ≠ VK_SUCCESS →
        b.create drv t = .error ("failed to buffer!",
          { b with m_buffer := (b.creationAnswer drv t).2 },
          t ++ [VkCall.createBuffer b.m_bufferInfo])) ∧
      ((b.creationAnswer drv t).1 = VK_SUCCESS → ∀ msg, b.lookupAnswer drv t = .error msg →
        b.create drv t = .error (msg,
          { b with m_buffer := (b.creationAnswer drv t).2,
                   m_cleaner := b.m_cleaner.push Buffer.destroyBufferAction },
          b.traceToRequirements drv t)) ∧
      ((b.creationAnswer drv t).1 = VK_SUCCESS → ∀ idx, b.lookupAnswer drv t = .ok idx →
        (b.allocationAnswer drv t idx).1 ≠ VK_SUCCESS →
        b.create drv t = .error ("failed to allocate buffer memory!",
          { b with m_buffer := (b.creationAnswer drv t).2,
                   m_cleaner := b.m_cleaner.push Buffer.destroyBufferAction },
          b.traceToRequirements drv t ++
            [VkCall.allocateMemory (b.requirementsAnswer drv t).size idx])) ∧
      (∀ idx, b.lookupAnswer drv t = .ok idx →
        ((∃ e, b.create drv t = .error e) ↔
          ((b.creationAnswer drv t).1 ≠ VK_SUCCESS ∨
            (b.allocationAnswer drv t idx).1 ≠ VK_SUCCESS))) := by
  obtain ⟨hc1, hc2, hc3, hc4⟩ := create_cases drv b t
  have hiff : (∃ e, b.create drv t = .error e) ↔
      ((b.creationAnswer drv t).1 ≠ VK_SUCCESS ∨
        (∃ msg, b.lookupAnswer drv t = .error msg) ∨
        (∃ idx, b.lookupAnswer drv t = .ok idx ∧
          (b.allocationAnswer drv t idx).1 ≠ VK_SUCCESS)) := by
    constructor
    · rintro ⟨e, he⟩
      by_cases h1 : (b.creationAnswer drv t).1 = VK_SUCCESS
      · cases hl : b.lookupAnswer drv t with
        | error msg => exact Or.inr (Or.inl ⟨msg, rfl⟩)
        | ok idx =>
          by_cases h2 : (b.allocationAnswer drv t idx).1 = VK_SUCCESS
          · obtain ⟨r, hr⟩ := hc4 h1 idx hl h2
            rw [hr] at he
            cases he
          · exact Or.inr (Or.inr ⟨idx, rfl, h2⟩)
      · exact Or.inl h1
    · rintro (h1 | ⟨msg, hmsg⟩ | ⟨idx, hidx, h2⟩)
      · exact ⟨_, hc1 h1⟩
      · by_cases h1 : (b.creationAnswer drv t).1 = VK_SUCCESS
        · exact ⟨_, hc2 h1 msg hmsg⟩
        · exact ⟨_, hc1 h1⟩
      · by_cases h1 : (b.creationAnswer drv t).1 = VK_SUCCESS
        · exact ⟨_, hc3 h1 idx hidx h2⟩
        · exact ⟨_, hc1 h1⟩
  refine ⟨hiff, hc1, hc2, hc3, ?_⟩
  intro idx hidx
  rw [hiff]
  constructor
  · rintro (h1 | ⟨msg, hmsg⟩ | ⟨idx2, hidx2, h2⟩)
    · exact Or.inl h1
    · rw [hidx] at hmsg
      cases hmsg
    · rw [hidx] at hidx2
      cases hidx2
      exact Or.inr h2
  · rintro (h1 | h2)
    · exact Or.inl h1
    · exact Or.inr (Or.inr ⟨idx, hidx, h2⟩)


theorem updateLightInputLoop_spec {F : Type} [Field F] (trig : Trig F) (distance : Vec2 F)
    (iteration : Int) (interval : F) (n : Nat) :
    ∀ (k : Nat) (ps : List (Vec4 F)), k + n ≤ ps.length →
      ∃ ps1, GraphicsScene.updateLightInputLoop trig distance iteration interval
          (List.range' k n) ps = some ps1 ∧
        ps1.length = ps.length ∧
        (∀ j, j < k ∨ k + n ≤ j → ps1[j]? = ps[j]?) ∧
        (∀ i, k ≤ i → i < k + n → ∃ p, ps[i]? = some p ∧
          ps1[i]? = some (lightPosition trig distance iteration interval p i)) := by
  induction n with
  | zero =>
    intro k ps _
    refine ⟨ps, rfl, rfl, fun _ _ => rfl, ?_⟩
    intro i h1 h2
    omega
  | succ n ih =>
    intro k ps hlen
    have hk : k < ps.length := by omega
    obtain ⟨ps1, hloop, hlen1, hout, hin⟩ := ih (k + 1)
      (ps.set k (lightPosition trig distance iteration interval (ps[k]) k))
      (by rw [List.length_set]; omega)
    refine ⟨ps1, ?_, ?_, ?_, ?_⟩
    · rw [List.range'_succ, GraphicsScene.updateLightInputLoop]
      rw [List.getElem?_eq_getElem hk]
      exact hloop
    · rw [hlen1, List.length_set]
    · intro j hj
      rw [hout j (by omega)]
      exact List.getElem?_set_ne (by omega)
    · intro i h1 h2
      by_cases hik : i = k
      · subst hik
        refine ⟨ps[i], List.getElem?_eq_getElem hk, ?_⟩
        rw [hout i (by omega)]
        simp [hk]
      · obtain ⟨p, hp, hp1⟩ := hin i (by omega) (by omega)
        refine ⟨p, ?_, hp1⟩
        rw [← hp]
        exact (List.getElem?_set_ne (by omega)).symm


/-- C14: for every light count total >= 1 within the capacity of the position
array, every iteration counter and every Distance, `updateLightInput` returns
(the light block fitting the buffer memory), and afterwards each light
i < total has x = sin(a_i) * r, y = cos(a_i) * r, z = height with
a_i = iteration / 100 + i * (2 pi / total), r = Distance.y and
height = Distance.x, so that x^2 + y^2 = r^2 (w is kept); the positions of
index >= total are unchanged. The float arithmetic is read as exact real
arithmetic. -/
theorem C14_updateLightInput (settings : Settings ℝ) (encode : UBLights ℝ → List Byte)
    (scene : GraphicsScene ℝ) (mem : List Byte) (t : Trace)
    (_htotal : 1 ≤ settings.TotalLight)
    (hcap : settings.TotalLight ≤ scene.m_lights.position.length)
    (hfit : ∀ l, (encode l).length ≤ mem.length) :
    ∃ scene1 mem1 t1,
      GraphicsScene.updateLightInput ⟨Real.sin, Real.cos, Real.pi⟩ settings encode scene mem t
        = some (scene1, mem1, t1) ∧
      scene1.m_lights.total = settings.TotalLight ∧
      scene1.m_lights.position.length = scene.m_lights.position.length ∧
      (∀ i, i < settings.TotalLight → ∃ p q, scene.m_lights.position[i]? = some q ∧
        scene1.m_lights.position[i]? = some p ∧
        p.x = Real.sin ((settings.Iteration : ℝ) / 100 +
                (i : ℝ) * (2 * Real.pi / (settings.TotalLight : ℝ))) * settings.Distance.y ∧
        p.y = Real.cos ((settings.Iteration : ℝ) / 100 +
                (i : ℝ) * (2 * Real.pi / (settings.TotalLight : ℝ))) * settings.Distance.y ∧
        p.z = settings.Distance.x ∧
        p.w = q.w ∧
        p.x ^ 2 + p.y ^ 2 = settings.Distance.y ^ 2) ∧
      (∀ i, settings.TotalLight ≤ i →
        scene1.m_lights.position[i]? = scene.m_lights.position[i]?) := by
  have hinterval : glmRadians ⟨Real.sin, Real.cos, Real.pi⟩ (360 / (settings.TotalLight : ℝ))
      = 2 * Real.pi / (settings.TotalLight : ℝ) := by
    simp only [glmRadians]
    ring
  obtain ⟨ps1, hloop, hlen1, hout, hin⟩ :=
    updateLightInputLoop_spec ⟨Real.sin, Real.cos, Real.pi⟩ settings.Distance settings.Iteration
      (2 * Real.pi / (settings.TotalLight : ℝ)) settings.TotalLight 0 scene.m_lights.position
      (by omega)
  rw [← List.range_eq_range'] at hloop
  have hfill := fillBuffer_at_zero scene.m_pLightBuffer mem t
    (encode (UBLights.mk settings.LightColor settings.Radiance settings.TotalLight ps1))
    _ rfl (hfit _)
  have hrun : GraphicsScene.updateLightInput ⟨Real.sin, Real.cos, Real.pi⟩ settings encode scene
      mem t = some
        ({ scene with m_lights :=
             UBLights.mk settings.LightColor settings.Radiance settings.TotalLight ps1 },
         encode (UBLights.mk settings.LightColor settings.Radiance settings.TotalLight ps1) ++
           mem.drop (encode
             (UBLights.mk settings.LightColor settings.Radiance settings.TotalLight ps1)).length,
         t ++ [VkCall.mapMemory scene.m_pLightBuffer.m_bufferMemory 0 (encode
             (UBLights.mk settings.LightColor settings.Radiance settings.TotalLight ps1)).length] ++
           [VkCall.unmapMemory scene.m_pLightBuffer.m_bufferMemory]) := by
    simp only [GraphicsScene.updateLightInput, hinterval, hloop]
    rw [hfill]
  refine ⟨_, _, _, hrun, ?_, ?_, ?_, ?_⟩
  · rfl
  · exact hlen1
  · intro i hi
    obtain ⟨q, hq, hp⟩ := hin i (by omega) (by omega)
    refine ⟨_, q, hq, hp, rfl, rfl, rfl, rfl, ?_⟩
    simp only [lightPosition, mul_pow]
    rw [← add_mul, Real.sin_sq_add_cos_sq, one_mul]
  · intro i hi
    exact hout i (Or.inr (by omega))

theorem C14_updateLightInput_witness :
    ∃ scene1 mem1 t1,
      GraphicsScene.updateLightInput ⟨Real.sin, Real.cos, Real.pi⟩ (lightSettings ℝ 4 5 2 0)
        (fun _ => []) (sampleScene ℝ 4) [] [] = some (scene1, mem1, t1) ∧
      scene1.m_lights.total = 4 := by
  obtain ⟨scene1, mem1, t1, h, htot, _⟩ :=
    C14_updateLightInput (lightSettings ℝ 4 5 2 0) (fun _ => []) (sampleScene ℝ 4) [] []
      (by decide) (by decide) (fun _ => Nat.le_refl 0)
  exact ⟨scene1, mem1, t1, h, htot⟩

theorem sin_three_halves_pi : Real.sin (Real.pi + Real.pi / 2) = -1 := by
  rw [Real.sin_add, Real.sin_pi, Real.cos_pi, Real.sin_pi_div_two, Real.cos_pi_div_two]
  norm_num

theorem cos_three_halves_pi : Real.cos (Real.pi + Real.pi / 2) = 0 := by
  rw [Real.cos_add, Real.sin_pi, Real.cos_pi, Real.sin_pi_div_two, Real.cos_pi_div_two]
  norm_num

theorem updateLightInput_four {F : Type} [Field F] (trig : Trig F) (height radius : F)
    (iteration : Int) :
    (GraphicsScene.updateLightInput trig (lightSettings F 4 height radius iteration)
        (fun _ => []) (sampleScene F 4) [] []).map (fun r => r.1.m_lights.position)
      = some
        [ lightPosition trig ⟨height, radius⟩ iteration
            (glmRadians trig (360 / ((4 : Nat) : F))) ⟨0, 0, 0, 1⟩ 0,
          lightPosition trig ⟨height, radius⟩ iteration
            (glmRadians trig (360 / ((4 : Nat) : F))) ⟨0, 0, 0, 1⟩ 1,
          lightPosition trig ⟨height, radius⟩ iteration
            (glmRadians trig (360 / ((4 : Nat) : F))) ⟨0, 0, 0, 1⟩ 2,
          lightPosition trig ⟨height, radius⟩ iteration
            (glmRadians trig (360 / ((4 : Nat) : F))) ⟨0, 0, 0, 1⟩ 3 ] :=
  rfl

/-- C15: with 4 lights, Distance of height 5 and radius 2 and iteration 0,
`updateLightInput` returns and leaves the four positions (x, y, z) at
(0, 2, 5), (2, 0, 5), (0, -2, 5), (-2, 0, 5): the points of the circle of
radius 2 at height 5 at the angles 0, 90, 180 and 270 degrees (the angle
counted from the y axis, as x = sin and y = cos), in exact real arithmetic. -/
theorem C15_four_lights :
    (GraphicsScene.updateLightInput ⟨Real.sin, Real.cos, Real.pi⟩ (lightSettings ℝ 4 5 2 0)
        (fun _ => []) (sampleScene ℝ 4) [] []).map
      (fun r => r.1.m_lights.position.map (fun p => (p.x, p.y, p.z)))
      = some [(0, 2, 5), (2, 0, 5), (0, -2, 5), (-2, 0, 5)] ∧
    (2 : ℝ) * Real.sin 0 = 0 ∧ (2 : ℝ) * Real.cos 0 = 2 ∧
    (2 : ℝ) * Real.sin (Real.pi / 2) = 2 ∧ (2 : ℝ) * Real.cos (Real.pi / 2) = 0 ∧
    (2 : ℝ) * Real.sin Real.pi = 0 ∧ (2 : ℝ) * Real.cos Real.pi = -2 ∧
    (2 : ℝ) * Real.sin (3 * Real.pi / 2) = -2 ∧ (2 : ℝ) * Real.cos (3 * Real.pi / 2) = 0 := by
  have h0 : ((0 : Int) : ℝ) / 100 + ((0 : Nat) : ℝ) *
      glmRadians ⟨Real.sin, Real.cos, Real.pi⟩ (360 / ((4 : Nat) : ℝ)) = 0 := by
    simp [glmRadians]
  have h1 : ((0 : Int) : ℝ) / 100 + ((1 : Nat) : ℝ) *
      glmRadians ⟨Real.sin, Real.cos, Real.pi⟩ (360 / ((4 : Nat) : ℝ)) = Real.pi / 2 := by
    simp only [glmRadians]; push_cast; ring
  have h2 : ((0 : Int) : ℝ) / 100 + ((2 : Nat) : ℝ) *
      glmRadians ⟨Real.sin, Real.cos, Real.pi⟩ (360 / ((4 : Nat) : ℝ)) = Real.pi := by
    simp only [glmRadians]; push_cast; ring
  have h3 : ((0 : Int) : ℝ) / 100 + ((3 : Nat) : ℝ) *
      glmRadians ⟨Real.sin, Real.cos, Real.pi⟩ (360 / ((4 : Nat) : ℝ))
        = Real.pi + Real.pi / 2 := by
    simp only [glmRadians]; push_cast; ring
  have h4 : 3 * Real.pi / 2 = Real.pi + Real.pi / 2 := by ring
  have hmap := congrArg (Option.map (List.map (fun p : Vec4 ℝ => (p.x, p.y, p.z))))
    (updateLightInput_four ⟨Real.sin, Real.cos, Real.pi⟩ (5 : ℝ) 2 0)
  rw [Option.map_map] at hmap
  refine ⟨?_, by simp, by simp, by simp, by simp, by simp, by simp, ?_, ?_⟩
  · refine hmap.trans ?_
    simp only [Option.map_some', List.map_cons, List.map_nil, lightPosition, h0, h1, h2, h3,
      sin_three_halves_pi, cos_three_halves_pi, Real.sin_zero, Real.cos_zero,
      Real.sin_pi_div_two, Real.cos_pi_div_two, Real.sin_pi, Real.cos_pi]
    norm_num
  · rw [h4, sin_three_halves_pi]; norm_num
  · rw [h4, cos_three_halves_pi]; norm_num


theorem renderLightsLoop_spec (pipelineLayout : Handle) (indexSize : Nat)
    (position : List (Vec4 ℚ)) (len : Nat) :
    ∀ (k : Nat) (misc : ScenePCMisc ℚ) (cb : CommandBuffer), k + len ≤ position.length →
      ∃ model, GraphicsScene.renderLightsLoop pipelineLayout indexSize position
          (List.range' k len) (misc, cb) =
        some ({ misc with model := model },
          cb ++ ((position.drop k).take len).flatMap (fun p =>
            GraphicsScene.drawWith pipelineLayout indexSize
              { misc with model := GraphicsScene.lightModel p })) := by
  induction len with
  | zero =>
    intro k misc cb _
    exact ⟨misc.model, by simp [GraphicsScene.renderLightsLoop]⟩
  | succ len ih =>
    intro k misc cb hlen
    have hk : k < position.length := by omega
    obtain ⟨model, hrec⟩ := ih (k + 1) { misc with model := GraphicsScene.lightModel position[k] }
      (cb ++ GraphicsScene.drawWith pipelineLayout indexSize
        { misc with model := GraphicsScene.lightModel position[k] }) (by omega)
    refine ⟨model, ?_⟩
    rw [List.range'_succ, GraphicsScene.renderLightsLoop, List.getElem?_eq_getElem hk]
    simp only [List.append_assoc, List.singleton_append]
    simp only [GraphicsScene.drawWith, List.append_assoc, List.singleton_append,
      List.cons_append, List.nil_append] at hrec
    rw [hrec, List.drop_eq_getElem_cons hk]
    simp only [List.take_succ_cons, List.flatMap_cons, GraphicsScene.drawWith, List.cons_append,
      List.nil_append]

theorem render_spec (settings : Settings ℚ) (scene : GraphicsScene ℚ) (cmdBuffer : CommandBuffer)
    (hcap : scene.m_lights.total ≤ scene.m_lights.position.length) :
    ∃ model, GraphicsScene.render settings scene cmdBuffer =
      some ({ scene with m_misc :=
                { scene.m_misc with model := model, isLight := 1 } },
        cmdBuffer ++ (GraphicsScene.renderHead settings scene ++
          GraphicsScene.drawWith scene.m_pipelineLayout scene.m_pSphere.indexSize
            { scene.m_misc with model := scene.m_pSphere.matrix, isLight := 0 } ++
          (scene.m_lights.position.take scene.m_lights.total).flatMap (fun p =>
            GraphicsScene.drawWith scene.m_pipelineLayout scene.m_pSphere.indexSize
              { scene.m_misc with model := GraphicsScene.lightModel p, isLight := 1 }) ++
          [Cmd.endRenderPass])) := by
  obtain ⟨model, hloop⟩ := renderLightsLoop_spec scene.m_pipelineLayout scene.m_pSphere.indexSize
    scene.m_lights.position scene.m_lights.total 0
    { scene.m_misc with model := scene.m_pSphere.matrix, isLight := 1 }
    (cmdBuffer ++ (GraphicsScene.renderHead settings scene ++
      GraphicsScene.drawWith scene.m_pipelineLayout scene.m_pSphere.indexSize
        { scene.m_misc with model := scene.m_pSphere.matrix, isLight := 0 }))
    (by omega)
  rw [← List.range_eq_range'] at hloop
  refine ⟨model, ?_⟩
  simp only [GraphicsScene.renderHead, GraphicsScene.drawWith, List.append_assoc,
    List.cons_append, List.nil_append, List.drop_zero] at hloop
  simp only [GraphicsScene.render, GraphicsScene.renderHead, GraphicsScene.drawWith,
    List.append_assoc, List.cons_append, List.nil_append, hloop]

theorem countP_drawIndexed_flatMap (pipelineLayout : Handle) (indexSize : Nat)
    (f : Vec4 ℚ → ScenePCMisc ℚ) (ps : List (Vec4 ℚ)) :
    (ps.flatMap (fun p => GraphicsScene.drawWith pipelineLayout indexSize (f p))).countP
        Cmd.isDrawIndexed = ps.length ∧
    (ps.flatMap (fun p => GraphicsScene.drawWith pipelineLayout indexSize (f p))).countP
        Cmd.isBeginRenderPass = 0 ∧
    (ps.flatMap (fun p => GraphicsScene.drawWith pipelineLayout indexSize (f p))).countP
        Cmd.isEndRenderPass = 0 ∧
    (ps.flatMap (fun p => GraphicsScene.drawWith pipelineLayout indexSize (f p))).countP
        Cmd.isBarrier = 0 := by
  induction ps with
  | nil => simp
  | cons p ps ih =>
    obtain ⟨h1, h2, h3, h4⟩ := ih
    simp only [List.flatMap_cons, List.countP_append, h1, h2, h3, h4]
    simp [GraphicsScene.drawWith, List.countP_cons, Cmd.isDrawIndexed, Cmd.isBeginRenderPass,
      Cmd.isEndRenderPass, Cmd.isBarrier]
    omega

theorem screen_render_cmds (screen : GraphicsScreen) (cmdBuffer : CommandBuffer) (pGUI : GUI) :
    (GraphicsScreen.render screen cmdBuffer pGUI).2 = cmdBuffer ++
      ([ Cmd.pipelineBarrier VK_PIPELINE_STAGE_COLOR_ATTACHMENT_OUTPUT_BIT
           VK_PIPELINE_STAGE_FRAGMENT_SHADER_BIT 0
           [screen.m_pInputFrame.getColorImage.barrierTo VK_IMAGE_LAYOUT_SHADER_READ_ONLY_OPTIMAL
              VK_ACCESS_SHADER_READ_BIT],
         Cmd.setViewport 0 [screen.m_viewport],
         Cmd.setScissor 0 [screen.m_scissor],
         Cmd.beginRenderPass
           { renderPass := screen.m_pRenderpass.get,
             framebuffer := screen.m_pFrame.getFramebuffer,
             renderArea := screen.m_scissor,
             clearValues := [VkClearValue.color float_0_1 float_0_1 float_0_1 1.0,
               VkClearValue.depthStencil 1.0 0] }
           VK_SUBPASS_CONTENTS_INLINE,
         Cmd.bindDescriptorSets VK_PIPELINE_BIND_POINT_GRAPHICS screen.m_pipelineLayout S0
           [screen.m_pDescriptor.getDescriptorSet S0],
         Cmd.bindPipeline VK_PIPELINE_BIND_POINT_GRAPHICS screen.m_pPipeline.get,
         Cmd.draw 3 1 0 0 ] ++
       pGUI.drawCommands ++
       [ Cmd.endRenderPass,
         Cmd.pipelineBarrier VK_PIPELINE_STAGE_FRAGMENT_SHADER_BIT
           VK_PIPELINE_STAGE_COLOR_ATTACHMENT_OUTPUT_BIT 0
           [(screen.m_pInputFrame.getColorImage.cmdTransitionToShaderR cmdBuffer).1.barrierTo
              VK_IMAGE_LAYOUT_PRESENT_SRC_KHR VK_ACCESS_COLOR_ATTACHMENT_WRITE_BIT] ]) := by
  simp [GraphicsScreen.render, GUI.renderGUI, Image.cmdTransitionToPresent,
    Image.cmdTransitionToShaderR, Image.cmdChangeLayout, Image.barrierTo]

theorem float_0_2_near : float_0_2 - 1 / 5 = 1 / 335544320 := by
  norm_num [float_0_2]

theorem lightModel_eq (p : Vec4 ℚ) :
    GraphicsScene.lightModel p =
      ⟨⟨float_0_2, 0, 0, 0⟩, ⟨0, float_0_2, 0, 0⟩, ⟨0, 0, float_0_2, 0⟩, ⟨p.x, p.y, p.z, 1⟩⟩ := by
  simp [GraphicsScene.lightModel, glmScale, glmTranslate, Mat4.identity, Vec4.scale, Vec4.add]

theorem lightModel_mulVec (p : Vec4 ℚ) (v : Vec3 ℚ) :
    (GraphicsScene.lightModel p).mulVec ⟨v.x, v.y, v.z, 1⟩ =
      ⟨p.x + float_0_2 * v.x, p.y + float_0_2 * v.y, p.z + float_0_2 * v.z, 1⟩ := by
  simp only [GraphicsScene.lightModel, glmScale, glmTranslate, Mat4.identity, Mat4.mulVec,
    Vec4.scale, Vec4.add, Vec4.mk.injEq]
  refine ⟨?_, ?_, ?_, ?_⟩ <;> ring

/-- C16, refuted as written: with one light at (0, 2, 5), the commands `render`
records hold, at index 13, the push-constant update of the light with
isLight = 1 and a model matrix whose scale entries are the `float` the
literal 0.2 is stored as, 13421773/67108864, not 0.2. That matrix sends the
mesh point v = (1, 0, 0) to (13421773/67108864, 2, 5), which is not
position + 0.2 v = (0.2, 2, 5). -/
theorem C16_counterexample :
    ∃ scene1 cb,
      GraphicsScene.render (lightSettings ℚ 1 5 2 0) (litScene 1) [] = some (scene1, cb) ∧
      cb[13]? = some (Cmd.pushConstantsScene 21
        (VK_SHADER_STAGE_VERTEX_BIT ||| VK_SHADER_STAGE_FRAGMENT_BIT) 0
        { model := ⟨⟨13421773 / 67108864, 0, 0, 0⟩, ⟨0, 13421773 / 67108864, 0, 0⟩,
                    ⟨0, 0, 13421773 / 67108864, 0⟩, ⟨0, 2, 5, 1⟩⟩,
          viewPosition := ⟨0, 0, 0⟩, reflectance := 0, isLight := 1 }) ∧
      (GraphicsScene.lightModel ⟨0, 2, 5, 1⟩).mulVec ⟨1, 0, 0, 1⟩ =
        ⟨13421773 / 67108864, 2, 5, 1⟩ ∧
      (⟨13421773 / 67108864, 2, 5, 1⟩ : Vec4 ℚ) ≠
        ⟨0 + 0.2 * 1, 2 + 0.2 * 0, 5 + 0.2 * 0, 1⟩ := by
  obtain ⟨model, hrun⟩ := render_spec (lightSettings ℚ 1 5 2 0) (litScene 1) [] (by decide)
  refine ⟨_, _, hrun, ?_, ?_, ?_⟩
  · simp [GraphicsScene.renderHead, GraphicsScene.drawWith, litScene, sampleScene, lightModel_eq,
      float_0_2]
  · have h := lightModel_mulVec ⟨0, 2, 5, 1⟩ ⟨1, 0, 0⟩
    simp only [h, float_0_2, Vec4.mk.injEq]
    norm_num
  · intro h
    rw [Vec4.mk.injEq] at h
    norm_num at h

/-- C16, amended: for every light count total >= 0 within the capacity of the
position array, `GraphicsScene::render` returns and appends, in this order:
the viewport and scissor, the one begin of the renderpass, the pipeline bind,
the five descriptor-set binds and the binds of the sphere's vertex and index
buffers; then the push-constant update with isLight = 0 and the sphere's own
model matrix followed by its indexed draw; then for each light i < total in
order the push-constant update with isLight = 1 and the light's model matrix
followed by its indexed draw; then the end of the renderpass. That is
total + 1 indexed draws of the sphere mesh between one begin and one end. The
light's model matrix is translate(position_i) followed by scale(s), with s the
`float` nearest to 0.2, s = 13421773/67108864 = 0.2 + 1/335544320: its
columns are (s,0,0,0), (0,s,0,0), (0,0,s,0), (position_i.xyz, 1), and it maps
a mesh point v to position_i + s v. -/
theorem C16_render_draws (settings : Settings ℚ) (scene : GraphicsScene ℚ)
    (cmdBuffer : CommandBuffer)
    (hcap : scene.m_lights.total ≤ scene.m_lights.position.length) :
    ∃ scene1 appended,
      GraphicsScene.render settings scene cmdBuffer = some (scene1, cmdBuffer ++ appended) ∧
      appended =
        [ Cmd.setViewport 0 [scene.m_viewport],
          Cmd.setScissor 0 [scene.m_scissor],
          Cmd.beginRenderPass
            { renderPass := scene.m_pRenderpass.get,
              framebuffer := scene.m_pFrame.getFramebuffer,
              renderArea := scene.m_scissor,
              clearValues :=
                [ VkClearValue.color settings.ClearColor.1 settings.ClearColor.2.1
                    settings.ClearColor.2.2.1 settings.ClearColor.2.2.2,
                  VkClearValue.depthStencil settings.ClearDepth.1 settings.ClearDepth.2 ] }
            VK_SUBPASS_CONTENTS_INLINE,
          Cmd.bindPipeline VK_PIPELINE_BIND_POINT_GRAPHICS scene.m_pPipeline.get,
          Cmd.bindDescriptorSets VK_PIPELINE_BIND_POINT_GRAPHICS scene.m_pipelineLayout S0
            [scene.m_pDescriptor.getDescriptorSet S0],
          Cmd.bindDescriptorSets VK_PIPELINE_BIND_POINT_GRAPHICS scene.m_pipelineLayout S1
            [scene.m_pDescriptor.getDescriptorSet S1],
          Cmd.bindDescriptorSets VK_PIPELINE_BIND_POINT_GRAPHICS scene.m_pipelineLayout S2
            [scene.m_pDescriptor.getDescriptorSet S2],
          Cmd.bindDescriptorSets VK_PIPELINE_BIND_POINT_GRAPHICS scene.m_pipelineLayout S3
            [scene.m_pDescriptor.getDescriptorSet S3],
          Cmd.bindDescriptorSets VK_PIPELINE_BIND_POINT_GRAPHICS scene.m_pipelineLayout S4
            [scene.m_pDescriptor.getDescriptorSet S4],
          Cmd.bindVertexBuffers 0 [scene.m_pSphere.vertexBuffer] [0],
          Cmd.bindIndexBuffer scene.m_pSphere.indexBuffer 0 VK_INDEX_TYPE_UINT32 ] ++
        GraphicsScene.drawWith scene.m_pipelineLayout scene.m_pSphere.indexSize
          { scene.m_misc with model := scene.m_pSphere.matrix, isLight := 0 } ++
        (scene.m_lights.position.take scene.m_lights.total).flatMap (fun p =>
          GraphicsScene.drawWith scene.m_pipelineLayout scene.m_pSphere.indexSize
            { scene.m_misc with model := GraphicsScene.lightModel p, isLight := 1 }) ++
        [Cmd.endRenderPass] ∧
      (scene.m_lights.position.take scene.m_lights.total).length = scene.m_lights.total ∧
      (∀ i, i < scene.m_lights.total →
        (scene.m_lights.position.take scene.m_lights.total)[i]? = scene.m_lights.position[i]?) ∧
      appended.countP Cmd.isDrawIndexed = scene.m_lights.total + 1 ∧
      appended.countP Cmd.isBeginRenderPass = 1 ∧
      appended.countP Cmd.isEndRenderPass = 1 ∧
      (∀ (p : Vec4 ℚ),
        GraphicsScene.lightModel p =
          ⟨⟨float_0_2, 0, 0, 0⟩, ⟨0, float_0_2, 0, 0⟩, ⟨0, 0, float_0_2, 0⟩,
            ⟨p.x, p.y, p.z, 1⟩⟩) ∧
      (∀ (p : Vec4 ℚ) (v : Vec3 ℚ),
        (GraphicsScene.lightModel p).mulVec ⟨v.x, v.y, v.z, 1⟩ =
          ⟨p.x + float_0_2 * v.x, p.y + float_0_2 * v.y, p.z + float_0_2 * v.z, 1⟩) ∧
      float_0_2 = 13421773 / 67108864 ∧
      float_0_2 - 1 / 5 = 1 / 335544320 := by
  obtain ⟨model, hrun⟩ := render_spec settings scene cmdBuffer hcap
  obtain ⟨hd, hb, he, _⟩ := countP_drawIndexed_flatMap scene.m_pipelineLayout
    scene.m_pSphere.indexSize
    (fun p => { scene.m_misc with model := GraphicsScene.lightModel p, isLight := 1 })
    (scene.m_lights.position.take scene.m_lights.total)
  have hlen : (scene.m_lights.position.take scene.m_lights.total).length =
      scene.m_lights.total := by
    rw [List.length_take]
    omega
  have hhead : (GraphicsScene.renderHead settings scene).countP Cmd.isBeginRenderPass = 1 ∧
      (GraphicsScene.renderHead settings scene).countP Cmd.isDrawIndexed = 0 ∧
      (GraphicsScene.renderHead settings scene).countP Cmd.isEndRenderPass = 0 := by
    simp [GraphicsScene.renderHead, List.countP_cons, Cmd.isBeginRenderPass, Cmd.isDrawIndexed,
      Cmd.isEndRenderPass]
  have hsphere : ∀ m : ScenePCMisc ℚ,
      (GraphicsScene.drawWith scene.m_pipelineLayout scene.m_pSphere.indexSize m).countP
        Cmd.isBeginRenderPass = 0 ∧
      (GraphicsScene.drawWith scene.m_pipelineLayout scene.m_pSphere.indexSize m).countP
        Cmd.isDrawIndexed = 1 ∧
      (GraphicsScene.drawWith scene.m_pipelineLayout scene.m_pSphere.indexSize m).countP
        Cmd.isEndRenderPass = 0 := by
    intro m
    simp [GraphicsScene.drawWith, List.countP_cons, Cmd.isBeginRenderPass, Cmd.isDrawIndexed,
      Cmd.isEndRenderPass]
  obtain ⟨hh1, hh2, hh3⟩ := hhead
  obtain ⟨hs1, hs2, hs3⟩ := hsphere
    { scene.m_misc with model := scene.m_pSphere.matrix, isLight := 0 }
  refine ⟨_, _, hrun, rfl, hlen, ?_, ?_, ?_, ?_, lightModel_eq, lightModel_mulVec, rfl,
    float_0_2_near⟩
  · intro i hi
    rw [List.getElem?_take, if_pos hi]
  · simp only [List.countP_append, hh2, hs2, hd, hlen]
    simp [List.countP_cons, Cmd.isDrawIndexed]
    omega
  · simp only [List.countP_append, hh1, hs1, hb]
    simp [List.countP_cons, Cmd.isBeginRenderPass]
  · simp only [List.countP_append, hh3, hs3, he]
    simp [List.countP_cons, Cmd.isEndRenderPass]

theorem C16_render_draws_witness :
    ∃ scene1 appended,
      GraphicsScene.render (lightSettings ℚ 3 5 2 0) (litScene 3) [] = some (scene1, appended) ∧
      appended.countP Cmd.isDrawIndexed = 4 := by
  obtain ⟨scene1, appended, hrun, _, _, _, hdraws, _⟩ :=
    C16_render_draws (lightSettings ℚ 3 5 2 0) (litScene 3) [] (by decide)
  exact ⟨scene1, appended, by simpa using hrun, hdraws⟩

/-- C17: `GraphicsScene::render` (light count within the capacity of the
position array) appends no pipeline barrier and returns the stage with its
frame, hence the frame's color image and its tracked layout, its textures,
its heightmap image and its interference image exactly as they were; the
barrier taking the frame's color image from that layout to
SHADER_READ_ONLY_OPTIMAL is the first command `GraphicsScreen::render`
records when it is given that frame as input. -/
theorem C17_render_keeps_layouts (settings : Settings ℚ) (scene : GraphicsScene ℚ)
    (cmdBuffer : CommandBuffer)
    (hcap : scene.m_lights.total ≤ scene.m_lights.position.length) :
    ∃ scene1 appended,
      GraphicsScene.render settings scene cmdBuffer = some (scene1, cmdBuffer ++ appended) ∧
      appended.countP Cmd.isBarrier = 0 ∧
      scene1.m_pFrame = scene.m_pFrame ∧
      scene1.m_pFrame.getColorImage.m_imageLayout = scene.m_pFrame.getColorImage.m_imageLayout ∧
      scene1.m_pTextures = scene.m_pTextures ∧
      scene1.m_pHeightmapImage = scene.m_pHeightmapImage ∧
      scene1.m_pInterferenceImage = scene.m_pInterferenceImage ∧
      (∀ (screen : GraphicsScreen) (pGUI : GUI) (cb : CommandBuffer),
        screen.m_pInputFrame = scene1.m_pFrame →
        ∃ b, (GraphicsScreen.render screen cb pGUI).2[cb.length]? =
            some (Cmd.pipelineBarrier VK_PIPELINE_STAGE_COLOR_ATTACHMENT_OUTPUT_BIT
              VK_PIPELINE_STAGE_FRAGMENT_SHADER_BIT 0 [b]) ∧
          b.image = scene.m_pFrame.getColorImage.m_image ∧
          b.oldLayout = scene.m_pFrame.getColorImage.m_imageLayout ∧
          b.newLayout = VK_IMAGE_LAYOUT_SHADER_READ_ONLY_OPTIMAL) := by
  obtain ⟨model, hrun⟩ := render_spec settings scene cmdBuffer hcap
  obtain ⟨_, _, _, hbar⟩ := countP_drawIndexed_flatMap scene.m_pipelineLayout
    scene.m_pSphere.indexSize
    (fun p => { scene.m_misc with model := GraphicsScene.lightModel p, isLight := 1 })
    (scene.m_lights.position.take scene.m_lights.total)
  refine ⟨_, _, hrun, ?_, rfl, rfl, rfl, rfl, rfl, ?_⟩
  · simp only [List.countP_append, hbar]
    simp [GraphicsScene.renderHead, GraphicsScene.drawWith, List.countP_cons, Cmd.isBarrier]
  · intro screen pGUI cb hin
    refine ⟨screen.m_pInputFrame.getColorImage.barrierTo VK_IMAGE_LAYOUT_SHADER_READ_ONLY_OPTIMAL
      VK_ACCESS_SHADER_READ_BIT, ?_, ?_, ?_, rfl⟩
    · rw [screen_render_cmds, List.getElem?_append_right (Nat.le_refl _), Nat.sub_self]
      rfl
    · rw [hin]
      rfl
    · rw [hin]
      rfl

theorem C17_render_keeps_layouts_witness :
    ∃ scene1 appended,
      GraphicsScene.render (lightSettings ℚ 3 5 2 0) (litScene 3) [] = some (scene1, appended) ∧
      appended.countP Cmd.isBarrier = 0 ∧
      scene1.m_pFrame.getColorImage.m_imageLayout = VK_IMAGE_LAYOUT_UNDEFINED := by
  obtain ⟨scene1, appended, hrun, hbar, _, hlayout, _⟩ :=
    C17_render_keeps_layouts (lightSettings ℚ 3 5 2 0) (litScene 3) [] (by decide)
  exact ⟨scene1, appended, by simpa using hrun, hbar, hlayout⟩


/-- C18: for every composite stage, command buffer and overlay,
`GraphicsScreen::render` appends, in this order: the barrier taking the input
color image from its tracked layout to SHADER_READ_ONLY_OPTIMAL, the viewport
and scissor, the begin of the renderpass on the stage's framebuffer, the bind
of the one descriptor set (slot S0), the bind of the pipeline, the draw of 3
vertices and 1 instance, the overlay's commands, the end of the renderpass,
and the barrier taking the same image from SHADER_READ_ONLY_OPTIMAL to
PRESENT_SRC_KHR. The stage binds no vertex buffer, and whatever the prior
layout the input image's tracked layout is PRESENT_SRC_KHR afterwards. -/
theorem C18_screen_render_order (screen : GraphicsScreen) (cmdBuffer : CommandBuffer)
    (pGUI : GUI) :
    ∃ b1 b2 info,
      (GraphicsScreen.render screen cmdBuffer pGUI).2 = cmdBuffer ++
        ([ Cmd.pipelineBarrier VK_PIPELINE_STAGE_COLOR_ATTACHMENT_OUTPUT_BIT
             VK_PIPELINE_STAGE_FRAGMENT_SHADER_BIT 0 [b1],
           Cmd.setViewport 0 [screen.m_viewport],
           Cmd.setScissor 0 [screen.m_scissor],
           Cmd.beginRenderPass info VK_SUBPASS_CONTENTS_INLINE,
           Cmd.bindDescriptorSets VK_PIPELINE_BIND_POINT_GRAPHICS screen.m_pipelineLayout S0
             [screen.m_pDescriptor.getDescriptorSet S0],
           Cmd.bindPipeline VK_PIPELINE_BIND_POINT_GRAPHICS screen.m_pPipeline.get,
           Cmd.draw 3 1 0 0 ] ++
         pGUI.drawCommands ++
         [ Cmd.endRenderPass,
           Cmd.pipelineBarrier VK_PIPELINE_STAGE_FRAGMENT_SHADER_BIT
             VK_PIPELINE_STAGE_COLOR_ATTACHMENT_OUTPUT_BIT 0 [b2] ]) ∧
      b1.image = screen.m_pInputFrame.getColorImage.m_image ∧
      b1.oldLayout = screen.m_pInputFrame.getColorImage.m_imageLayout ∧
      b1.newLayout = VK_IMAGE_LAYOUT_SHADER_READ_ONLY_OPTIMAL ∧
      b2.image = screen.m_pInputFrame.getColorImage.m_image ∧
      b2.oldLayout = VK_IMAGE_LAYOUT_SHADER_READ_ONLY_OPTIMAL ∧
      b2.newLayout = VK_IMAGE_LAYOUT_PRESENT_SRC_KHR ∧
      info.renderPass = screen.m_pRenderpass.get ∧
      info.framebuffer = screen.m_pFrame.getFramebuffer ∧
      info.renderArea = screen.m_scissor ∧
      [ Cmd.pipelineBarrier VK_PIPELINE_STAGE_COLOR_ATTACHMENT_OUTPUT_BIT
          VK_PIPELINE_STAGE_FRAGMENT_SHADER_BIT 0 [b1],
        Cmd.setViewport 0 [screen.m_viewport],
        Cmd.setScissor 0 [screen.m_scissor],
        Cmd.beginRenderPass info VK_SUBPASS_CONTENTS_INLINE,
        Cmd.bindDescriptorSets VK_PIPELINE_BIND_POINT_GRAPHICS screen.m_pipelineLayout S0
          [screen.m_pDescriptor.getDescriptorSet S0],
        Cmd.bindPipeline VK_PIPELINE_BIND_POINT_GRAPHICS screen.m_pPipeline.get,
        Cmd.draw 3 1 0 0 ].countP Cmd.isBindVertexBuffers = 0 ∧
      (GraphicsScreen.render screen cmdBuffer pGUI).1.m_pInputFrame.getColorImage.m_imageLayout
        = VK_IMAGE_LAYOUT_PRESENT_SRC_KHR ∧
      (GraphicsScreen.render screen cmdBuffer pGUI).1.m_pInputFrame.getColorImage.m_image
        = screen.m_pInputFrame.getColorImage.m_image ∧
      (GraphicsScreen.render screen cmdBuffer pGUI).1.m_pFrame = screen.m_pFrame := by
  refine ⟨_, _, _, screen_render_cmds screen cmdBuffer pGUI, rfl, rfl, rfl, rfl, rfl, rfl, rfl,
    rfl, rfl, ?_, rfl, rfl, rfl⟩
  simp [List.countP_cons, Cmd.isBindVertexBuffers]

theorem roundToFloat32_of_exact (n : Nat) (h : float32Exact n) : roundToFloat32 n = n := by
  obtain ⟨h32, m, e, hm, hn⟩ := h
  have hmod : n % 2 ^ 32 = n := Nat.mod_eq_of_lt h32
  by_cases h24 : n < 2 ^ 24
  · simp only [roundToFloat32, hmod, if_pos h24]
  · have hpos : n ≠ 0 := by
      intro h0
      rw [h0] at h24
      exact h24 (by decide)
    have hlog : floorLog2Aux 31 n = Nat.log 2 n := floorLog2Aux_eq_log 31 n h32
    have hle : 2 ^ Nat.log 2 n ≤ n := Nat.pow_log_le_self 2 hpos
    have hlt : n < 2 ^ (24 + e) := by
      rw [hn, Nat.pow_add]
      exact Nat.mul_lt_mul_of_pos_right hm (Nat.two_pow_pos e)
    have hk : Nat.log 2 n < 24 + e :=
      (Nat.pow_lt_pow_iff_right (by decide : 1 < 2)).mp (lt_of_le_of_lt hle hlt)
    have hexp : Nat.log 2 n - 23 ≤ e := by omega
    have hdvd : 2 ^ (Nat.log 2 n - 23) ∣ n := by
      have h1 : 2 ^ (Nat.log 2 n - 23) ∣ m * 2 ^ e := Dvd.dvd.mul_left (pow_dvd_pow 2 hexp) m
      rwa [← hn] at h1
    have hr : n % 2 ^ (Nat.log 2 n - 23) = 0 := Nat.mod_eq_zero_of_dvd hdvd
    have hulp : 0 < 2 ^ (Nat.log 2 n - 23) := Nat.two_pow_pos _
    simp only [roundToFloat32, hmod, if_neg h24, hlog, hr, Nat.mul_zero, if_pos hulp]
    exact Nat.div_mul_cancel hdvd

theorem float32Exact_of_le (n : Nat) (h : n ≤ 2 ^ 24) : float32Exact n := by
  refine ⟨lt_of_le_of_lt h (by decide), ?_⟩
  by_cases h24 : n < 2 ^ 24
  · exact ⟨n, 0, h24, by simp⟩
  · exact ⟨1, 24, by decide, by omega⟩

/-- C19, refuted as written: on a 640x480 frame, `recreateFrame({16777217, 600})`
leaves the scissor extent (16777217, 600) but the viewport
(0, 0, 16777216, 600, 0, 1): the `float` width cannot hold 16777217 and is
rounded to 16777216, so the viewport width is not w. -/
theorem C19_counterexample :
    (GraphicsScene.recreateFrame sampleDriver (sampleScene ℚ 4) ⟨16777217, 600⟩ []).1.m_viewport
      = ⟨0, 0, 16777216, 600, 0, 1⟩ ∧
    (GraphicsScene.recreateFrame sampleDriver (sampleScene ℚ 4) ⟨16777217, 600⟩ []).1.m_scissor
      = ⟨⟨0, 0⟩, ⟨16777217, 600⟩⟩ ∧
    (GraphicsScene.recreateFrame sampleDriver (sampleScene ℚ 4) ⟨16777217, 600⟩
      []).1.m_viewport.width ≠ 16777217 := by
  have hw : roundToFloat32 16777217 = 16777216 := by decide
  have hh : roundToFloat32 600 = 600 := by decide
  have hv : (GraphicsScene.recreateFrame sampleDriver (sampleScene ℚ 4) ⟨16777217, 600⟩
      []).1.m_viewport = ⟨0, 0, ((roundToFloat32 16777217 : Nat) : ℚ),
        ((roundToFloat32 600 : Nat) : ℚ), 0, 1⟩ := rfl
  rw [hw, hh] at hv
  refine ⟨?_, rfl, ?_⟩
  · rw [hv]
    norm_num
  · rw [hv]
    norm_num

/-- C19, amended: for every old size and new size (w, h), `recreateFrame({w, h})`
calls, in this order, the frame's cleanup (at the old size), then the creation
of the color image, of the depth image and of the framebuffer, all at (w, h);
the new attachments have extent (w, h, 1); afterwards the stage's scissor is
offset (0, 0) with extent (w, h) and its viewport is
(0, 0, float(w), float(h), 0, 1), where float is the conversion of the 32-bit
size to `float`. Whenever w and h are values a `float` holds exactly (a
significand below 2^24 times a power of two, which covers every size up to
2^24), the viewport is (0, 0, w, h, 0, 1). On a 640x480 frame,
`recreateFrame({800, 600})` gives viewport width 800, height 600 and scissor
extent (800, 600). `GraphicsScreen::setFrame` computes the viewport and
scissor the same way from the size of the frame it is given. -/
theorem C19_recreateFrame (drv : Driver) (scene : GraphicsScene ℚ) (size : UInt2D) (t : Trace) :
    (GraphicsScene.recreateFrame drv scene size t).2 = t ++
      [ VkCall.frameCleanup scene.m_pFrame.getSize,
        VkCall.frameCreateImageResource size,
        VkCall.frameCreateDepthResource size,
        VkCall.frameCreateFramebuffer size scene.m_pRenderpass.get ] ∧
    (GraphicsScene.recreateFrame drv scene size t).1.m_pFrame.getSize = size ∧
    (GraphicsScene.recreateFrame drv scene size t).1.m_pFrame.m_pColorImage.m_imageInfo.extent
      = ⟨size.width, size.height, 1⟩ ∧
    (GraphicsScene.recreateFrame drv scene size t).1.m_pFrame.m_pDepthImage.m_imageInfo.extent
      = ⟨size.width, size.height, 1⟩ ∧
    (GraphicsScene.recreateFrame drv scene size t).1.m_viewport
      = ⟨0, 0, ((roundToFloat32 size.width : Nat) : ℚ), ((roundToFloat32 size.height : Nat) : ℚ),
          0, 1⟩ ∧
    (float32Exact size.width → float32Exact size.height →
      (GraphicsScene.recreateFrame drv scene size t).1.m_viewport
        = ⟨0, 0, (size.width : ℚ), (size.height : ℚ), 0, 1⟩) ∧
    (∀ n : Nat, n ≤ 2 ^ 24 → float32Exact n) ∧
    (GraphicsScene.recreateFrame drv scene size t).1.m_scissor = ⟨⟨0, 0⟩, size⟩ ∧
    (GraphicsScene.recreateFrame sampleDriver (sampleScene ℚ 4) ⟨800, 600⟩ []).1.m_viewport.width
      = 800 ∧
    (GraphicsScene.recreateFrame sampleDriver (sampleScene ℚ 4) ⟨800, 600⟩ []).1.m_viewport.height
      = 600 ∧
    (GraphicsScene.recreateFrame sampleDriver (sampleScene ℚ 4) ⟨800, 600⟩ []).1.m_scissor.extent
      = ⟨800, 600⟩ ∧
    (GraphicsScene.recreateFrame sampleDriver (sampleScene ℚ 4) ⟨800, 600⟩ []).2
      = [ VkCall.frameCleanup ⟨640, 480⟩,
          VkCall.frameCreateImageResource ⟨800, 600⟩,
          VkCall.frameCreateDepthResource ⟨800, 600⟩,
          VkCall.frameCreateFramebuffer ⟨800, 600⟩ 23 ] ∧
    (∀ (screen : GraphicsScreen) (pFrame : Frame),
      (screen.setFrame pFrame).m_viewport
        = ⟨0, 0, ((roundToFloat32 pFrame.getSize.width : Nat) : ℚ),
            ((roundToFloat32 pFrame.getSize.height : Nat) : ℚ), 0, 1⟩ ∧
      (float32Exact pFrame.getSize.width → float32Exact pFrame.getSize.height →
        (screen.setFrame pFrame).m_viewport
          = ⟨0, 0, (pFrame.getSize.width : ℚ), (pFrame.getSize.height : ℚ), 0, 1⟩) ∧
      (screen.setFrame pFrame).m_scissor = ⟨⟨0, 0⟩, pFrame.getSize⟩ ∧
      (screen.setFrame pFrame).m_pFrame = pFrame) := by
  have h800 : roundToFloat32 800 = 800 := by decide
  have h600 : roundToFloat32 600 = 600 := by decide
  refine ⟨?_, rfl, rfl, rfl, rfl, ?_, float32Exact_of_le, rfl, ?_, ?_, rfl, rfl,
    fun screen pFrame => ⟨rfl, ?_, rfl, rfl⟩⟩
  · simp [GraphicsScene.recreateFrame, Frame.cleanup, Frame.setSize, Frame.createImageResource,
      Frame.createDepthResource, Frame.createFramebuffer, Frame.getSize]
  · intro hw hh
    have hv : (GraphicsScene.recreateFrame drv scene size t).1.m_viewport
        = ⟨0, 0, ((roundToFloat32 size.width : Nat) : ℚ),
            ((roundToFloat32 size.height : Nat) : ℚ), 0, 1⟩ := rfl
    rw [hv, roundToFloat32_of_exact _ hw, roundToFloat32_of_exact _ hh]
  · show ((roundToFloat32 800 : Nat) : ℚ) = 800
    rw [h800]
    norm_num
  · show ((roundToFloat32 600 : Nat) : ℚ) = 600
    rw [h600]
    norm_num
  · intro hw hh
    have hv : (screen.setFrame pFrame).m_viewport
        = ⟨0, 0, ((roundToFloat32 pFrame.getSize.width : Nat) : ℚ),
            ((roundToFloat32 pFrame.getSize.height : Nat) : ℚ), 0, 1⟩ := rfl
    rw [hv, roundToFloat32_of_exact _ hw, roundToFloat32_of_exact _ hh]

theorem C19_recreateFrame_witness :
    float32Exact 1920 ∧ float32Exact 1080 ∧
    (GraphicsScene.recreateFrame sampleDriver (sampleScene ℚ 4) ⟨1920, 1080⟩ []).1.m_viewport
      = ⟨0, 0, ((1920 : Nat) : ℚ), ((1080 : Nat) : ℚ), 0, 1⟩ :=
  ⟨⟨by decide, 1920, 0, by decide, by decide⟩, ⟨by decide, 1080, 0, by decide, by decide⟩,
    (C19_recreateFrame sampleDriver (sampleScene ℚ 4) ⟨1920, 1080⟩ []).2.2.2.2.2.1
      ⟨by decide, 1920, 0, by decide, by decide⟩ ⟨by decide, 1080, 0, by decide, by decide⟩⟩


/-- C20, evaluated where it fails: on a driver where every call succeeds, with
OPDSample = 256 and RSample = 64, `setupOutput` returns with the output
image tracked in GENERAL after its one-shot barrier, and two calls of
`dispatch` then find the tracked layout GENERAL at the first call and
TRANSFER_SRC_OPTIMAL at the second: replaying the submitted commands, the
barriers before the second compute dispatch command have left the image in
TRANSFER_SRC_OPTIMAL, not in GENERAL. Whatever the stage, every call of
`dispatch` after the first finds the layout the previous call left,
TRANSFER_SRC_OPTIMAL. -/
theorem C20_second_dispatch_layout :
    (∃ ci1 t1 cbSetup,
      ComputeInterference.setupOutput sampleDriver
        ((sampleStage 0 0).setupInput (lightSettings ℚ 4 5 2 0)) [] = some (.ok (ci1, t1, cbSetup)) ∧
      ci1.m_misc = ⟨256, 64⟩ ∧
      ci1.m_pOutputImage.m_imageLayout = VK_IMAGE_LAYOUT_GENERAL ∧
      (ci1.dispatchTimes 2 []).2.2 =
        [VK_IMAGE_LAYOUT_GENERAL, VK_IMAGE_LAYOUT_TRANSFER_SRC_OPTIMAL] ∧
      dispatchesOf (ci1.dispatchTimes 2 []).2.1 = [(3, 64, 1), (3, 64, 1)] ∧
      layoutsAtDispatch ci1.m_pOutputImage.m_image VK_IMAGE_LAYOUT_UNDEFINED
          (cbSetup ++ (ci1.dispatchTimes 2 []).2.1) =
        [VK_IMAGE_LAYOUT_GENERAL, VK_IMAGE_LAYOUT_TRANSFER_SRC_OPTIMAL]) ∧
    VK_IMAGE_LAYOUT_TRANSFER_SRC_OPTIMAL ≠ VK_IMAGE_LAYOUT_GENERAL ∧
    (∀ (ci : ComputeInterference) (cmdBuffer : CommandBuffer) (n : Nat),
      (ci.dispatchTimes (n + 2) cmdBuffer).2.2[1]? =
        some VK_IMAGE_LAYOUT_TRANSFER_SRC_OPTIMAL) := by
  refine ⟨⟨_, _, _, rfl, rfl, rfl, rfl, ?_, ?_⟩, by decide, ?_⟩
  · decide
  · decide
  · intro ci cmdBuffer n
    simp [ComputeInterference.dispatchTimes, ComputeInterference.dispatch,
      Image.cmdTransitionToTransferSrc, Image.cmdChangeLayout]


theorem createImageViewsLoop_inv (drv : Driver) (L : Nat) :
    ∀ (l : List Nat) (img : Image) (t : Trace) (img1 : Image) (t1 : Trace),
      Image.createImageViewsLoop drv L l (img, t) = .ok (img1, t1) →
        img1.m_cleaner.stack =
          List.replicate l.length Image.destroyBackView ++ img.m_cleaner.stack ∧
        img1.m_imageViews.length = img.m_imageViews.length ∧
        img1.m_imageInfo = img.m_imageInfo ∧
        img1.m_image = img.m_image ∧
        img1.m_imageMemory = img.m_imageMemory ∧
        img1.m_sampler = img.m_sampler ∧
        img1.m_imageLayout = img.m_imageLayout ∧
        Image.viewInfoAt img1.m_imageViewInfo L 0 = Image.viewInfoAt img.m_imageViewInfo L 0 ∧
        t1 = t ++ l.map (fun i =>
          VkCall.createImageView (Image.viewInfoAt img.m_imageViewInfo L i)) := by
  intro l
  induction l with
  | nil =>
    intro img t img1 t1 h
    simp only [Image.createImageViewsLoop, Except.ok.injEq, Prod.mk.injEq] at h
    obtain ⟨h1, h2⟩ := h
    subst h1; subst h2
    simp
  | cons i rest ih =>
    intro img t img1 t1 h
    rw [Image.createImageViewsLoop] at h
    split at h
    · simp at h
    · obtain ⟨hs, hlen, hinfo, himg, hmem, hsam, hlay, hview, ht⟩ := ih _ _ _ _ h
      refine ⟨?_, ?_, hinfo, himg, hmem, hsam, hlay, ?_, ?_⟩
      · rw [hs]
        simp [Cleaner.push, List.replicate_succ']
      · rw [hlen]
        simp
      · rw [hview]
        rfl
      · rw [ht]
        simp [Image.viewInfoAt]

theorem createWithSampler_inv (drv : Driver) (img img1 : Image) (t t1 : Trace)
    (hok : img.createWithSampler drv t = .ok (img1, t1)) :
    img1.m_cleaner.stack =
      Image.destroySamplerAction ::
        (List.replicate img.m_imageInfo.mipLevels Image.destroyBackView ++
          (Image.freeMemoryAction :: Image.destroyImageAction :: img.m_cleaner.stack)) ∧
    img1.m_imageViews.length = img.m_imageInfo.mipLevels ∧
    img1.m_imageInfo = img.m_imageInfo ∧
    img1.m_imageLayout = img.m_imageLayout ∧
    img1.m_image = (drv.createImage t img.m_imageInfo).2 ∧
    img1.m_imageViewInfo = Image.viewInfoAt { img.m_imageViewInfo with image := img1.m_image }
      img.m_imageInfo.mipLevels 0 ∧
    ∃ allocationSize memoryTypeIndex samplerInfo,
      t1 = t ++ [VkCall.createImage img.m_imageInfo,
          VkCall.getImageMemoryRequirements img1.m_image,
          VkCall.allocateMemory allocationSize memoryTypeIndex,
          VkCall.bindImageMemory img1.m_image img1.m_imageMemory 0] ++
        (List.range img.m_imageInfo.mipLevels).map (fun i => VkCall.createImageView
          (Image.viewInfoAt { img.m_imageViewInfo with image := img1.m_image }
            img.m_imageInfo.mipLevels i)) ++
        [VkCall.createSampler samplerInfo] := by
  simp only [Image.createWithSampler] at hok
  split at hok
  · simp at hok
  · rename_i a ta ha
    split at hok
    · simp at hok
    · rename_i b tb hb
      split at hok
      · simp at hok
      · rename_i c tc hc
        -- createImage
        simp only [Image.createImage] at ha
        split at ha
        · simp at ha
        · simp only [Except.ok.injEq, Prod.mk.injEq] at ha
          obtain ⟨ha1, ha2⟩ := ha
          subst ha1; subst ha2
          -- allocateImageMemory
          simp only [Image.allocateImageMemory] at hb
          split at hb
          · simp at hb
          · rename_i idx hidx
            split at hb
            · simp at hb
            · simp only [Except.ok.injEq, Prod.mk.injEq] at hb
              obtain ⟨hb1, hb2⟩ := hb
              subst hb1; subst hb2
              -- createImageViews
              simp only [Image.createImageViews] at hc
              split at hc
              · simp at hc
              · rename_i d td hd
                simp only [Except.ok.injEq, Prod.mk.injEq] at hc
                obtain ⟨hc1, hc2⟩ := hc
                subst hc1; subst hc2
                obtain ⟨hs, hlen, hinfo, himg, hmem, hsam, hlay, hview, ht⟩ :=
                  createImageViewsLoop_inv drv _ _ _ _ _ _ hd
                -- createSampler
                simp only [Image.createSampler] at hok
                split at hok
                · simp at hok
                · simp only [Except.ok.injEq, Prod.mk.injEq] at hok
                  obtain ⟨hk1, hk2⟩ := hok
                  subst hk1; subst hk2
                  simp only [resizeHandles_length] at hlen
                  refine ⟨?_, hlen, hinfo, hlay, himg, ?_, ?_⟩
                  · simp [Cleaner.push, hs]
                  · simp only [himg]
                    exact hview
                  · exact ⟨_, idx, _, by
                      simp only [ht, himg, hmem, List.append_assoc, List.cons_append,
                        List.nil_append, List.range_eq_range']
                      rfl⟩


/-- C21: when the creation of the copy succeeds, `copyOutputImage` returns an
image built from a freshly constructed `Image` (its handle is the one the
driver returned to the `vkCreateImage` call made for it), configured by
`setupForStorage` with the width and height of the output image; the command
buffer it submits holds exactly a barrier taking the copy from UNDEFINED to
TRANSFER_DST_OPTIMAL followed by one image copy with one region of the full
extent (w, h, 1) at offset 0 and mip level 0 on both sides, whose source is
the output image in its tracked layout and whose destination is the copy in
TRANSFER_DST_OPTIMAL. The stage and its output image are only read. After a
`dispatch` the tracked layout of the output image, hence the source layout of
the copy, is TRANSFER_SRC_OPTIMAL and its size is as before. -/
theorem C21_copyOutputImage (drv : Driver) (ci : ComputeInterference) (t : Trace)
    (imageCopy1 : Image) (t1 : Trace)
    (hok : (Image.new.setupForStorage ci.m_pOutputImage.getImageSize).createWithSampler drv t
      = .ok (imageCopy1, t1)) :
    ∃ copy b region,
      ci.copyOutputImage drv t = .ok (copy, t1,
        [ Cmd.pipelineBarrier VK_PIPELINE_STAGE_TOP_OF_PIPE_BIT VK_PIPELINE_STAGE_TRANSFER_BIT 0 [b],
          Cmd.copyImage ci.m_pOutputImage.m_image ci.m_pOutputImage.m_imageLayout
            copy.m_image VK_IMAGE_LAYOUT_TRANSFER_DST_OPTIMAL [region] ]) ∧
      copy.m_image = (drv.createImage t copy.m_imageInfo).2 ∧
      (∃ rest, t1 = t ++ VkCall.createImage copy.m_imageInfo :: rest) ∧
      copy.m_imageInfo =
        (Image.new.setupForStorage ci.m_pOutputImage.getImageSize).m_imageInfo ∧
      copy.getImageSize = ci.m_pOutputImage.getImageSize ∧
      copy.m_imageInfo.usage = (VK_IMAGE_USAGE_TRANSFER_SRC_BIT ||| VK_IMAGE_USAGE_TRANSFER_DST_BIT |||
        VK_IMAGE_USAGE_STORAGE_BIT ||| VK_IMAGE_USAGE_SAMPLED_BIT) ∧
      copy.m_imageLayout = VK_IMAGE_LAYOUT_TRANSFER_DST_OPTIMAL ∧
      b.image = copy.m_image ∧
      b.oldLayout = VK_IMAGE_LAYOUT_UNDEFINED ∧
      b.newLayout = VK_IMAGE_LAYOUT_TRANSFER_DST_OPTIMAL ∧
      region.extent = ⟨ci.m_pOutputImage.m_imageInfo.extent.width,
        ci.m_pOutputImage.m_imageInfo.extent.height, 1⟩ ∧
      region.srcOffset = ⟨0, 0, 0⟩ ∧ region.dstOffset = ⟨0, 0, 0⟩ ∧
      region.srcSubresource.mipLevel = 0 ∧ region.dstSubresource.mipLevel = 0 ∧
      [ Cmd.pipelineBarrier VK_PIPELINE_STAGE_TOP_OF_PIPE_BIT VK_PIPELINE_STAGE_TRANSFER_BIT 0 [b],
        Cmd.copyImage ci.m_pOutputImage.m_image ci.m_pOutputImage.m_imageLayout
          copy.m_image VK_IMAGE_LAYOUT_TRANSFER_DST_OPTIMAL [region] ].countP Cmd.isCopyImage = 1 ∧
      (∀ cmdBuffer : CommandBuffer,
        (ci.dispatch cmdBuffer).1.m_pOutputImage.m_imageLayout =
          VK_IMAGE_LAYOUT_TRANSFER_SRC_OPTIMAL ∧
        (ci.dispatch cmdBuffer).1.m_pOutputImage.m_image = ci.m_pOutputImage.m_image ∧
        (ci.dispatch cmdBuffer).1.m_pOutputImage.getImageSize =
          ci.m_pOutputImage.getImageSize) := by
  obtain ⟨_, _, hinfo, hlayout, himage, _, _, _, _, ht1⟩ := createWithSampler_inv drv _ _ _ _ hok
  have hrun : ci.copyOutputImage drv t = .ok
      ((imageCopy1.cmdTransitionToTransferDst []).1, t1,
        [ Cmd.pipelineBarrier VK_PIPELINE_STAGE_TOP_OF_PIPE_BIT VK_PIPELINE_STAGE_TRANSFER_BIT 0
            [imageCopy1.barrierTo VK_IMAGE_LAYOUT_TRANSFER_DST_OPTIMAL
              VK_ACCESS_TRANSFER_WRITE_BIT],
          Cmd.copyImage ci.m_pOutputImage.m_image ci.m_pOutputImage.m_imageLayout
            (imageCopy1.cmdTransitionToTransferDst []).1.m_image
            VK_IMAGE_LAYOUT_TRANSFER_DST_OPTIMAL
            [{ srcOffset := ⟨0, 0, 0⟩,
               srcSubresource :=
                 { aspectMask := ci.m_pOutputImage.m_imageViewInfo.subresourceRange.aspectMask,
                   baseArrayLayer :=
                     ci.m_pOutputImage.m_imageViewInfo.subresourceRange.baseArrayLayer,
                   layerCount := ci.m_pOutputImage.m_imageViewInfo.subresourceRange.layerCount,
                   mipLevel := 0 },
               dstOffset := ⟨0, 0, 0⟩,
               dstSubresource :=
                 { aspectMask := imageCopy1.m_imageViewInfo.subresourceRange.aspectMask,
                   baseArrayLayer := imageCopy1.m_imageViewInfo.subresourceRange.baseArrayLayer,
                   layerCount := imageCopy1.m_imageViewInfo.subresourceRange.layerCount,
                   mipLevel := 0 },
               extent := imageCopy1.m_imageInfo.extent }] ]) := by
    simp only [ComputeInterference.copyOutputImage, hok]
    rfl
  refine ⟨_, _, _, hrun, ?_, ?_, ?_, ?_, ?_, rfl, rfl, ?_, rfl, ?_, rfl, rfl, rfl, rfl, ?_, ?_⟩
  · show imageCopy1.m_image = (drv.createImage t imageCopy1.m_imageInfo).2
    rw [himage, hinfo]
  · exact ⟨_, by
      rw [ht1, ← hinfo]
      simp only [List.append_assoc, List.cons_append, List.nil_append]
      rfl⟩
  · exact hinfo
  · show imageCopy1.getImageSize = _
    simp only [Image.getImageSize, hinfo]
    rfl
  · show imageCopy1.m_imageInfo.usage = _
    rw [hinfo]
    rfl
  · show imageCopy1.m_imageLayout = _
    rw [hlayout]
    rfl
  · show imageCopy1.m_imageInfo.extent = _
    rw [hinfo]
    rfl
  · simp [List.countP_cons, Cmd.isCopyImage]
  · intro cmdBuffer
    exact ⟨rfl, rfl, rfl⟩

theorem C21_copyOutputImage_witness :
    ∃ copy t1 cmds,
      (dispatchedStage 256 64).copyOutputImage sampleDriver [] = .ok (copy, t1, cmds) ∧
      copy.m_image = 100 ∧
      (dispatchedStage 256 64).m_pOutputImage.m_image = 7 ∧
      copy.getImageSize = ⟨256, 64⟩ ∧
      cmds.countP Cmd.isCopyImage = 1 := by
  obtain ⟨copy, b, region, hrun, himage, _, _, hsize, _, _, _, _, _, _, _, _, _, _, hcount, _⟩ :=
    C21_copyOutputImage sampleDriver (dispatchedStage 256 64) [] _ _ rfl
  exact ⟨copy, _, _, hrun, himage, rfl, hsize, hcount⟩


theorem resizeInfos_length (v : List VkDescriptorImageInfo) (n : Nat) :
    (resizeInfos v n).length = n := by
  simp only [resizeInfos, List.length_append, List.length_take, List.length_replicate]
  omega

theorem getDescriptorInfoLoop_spec (img : Image) (n : Nat) :
    ∀ (k : Nat) (infos : List VkDescriptorImageInfo),
      k + n ≤ infos.length → k + n ≤ img.m_imageViews.length →
      ∃ infos1, Image.getDescriptorInfoLoop img (List.range' k n) infos = some infos1 ∧
        infos1.length = infos.length ∧
        (∀ j, j < k ∨ k + n ≤ j → infos1[j]? = infos[j]?) ∧
        (∀ i, k ≤ i → i < k + n → ∃ v, img.m_imageViews[i]? = some v ∧
          infos1[i]? = some ⟨img.m_sampler, v, img.m_imageLayout⟩) := by
  induction n with
  | zero =>
    intro k infos _ _
    refine ⟨infos, rfl, rfl, fun _ _ => rfl, ?_⟩
    intro i h1 h2
    omega
  | succ n ih =>
    intro k infos hlen hviews
    have hk : k < infos.length := by omega
    have hv : k < img.m_imageViews.length := by omega
    obtain ⟨infos1, hloop, hlen1, hout, hin⟩ := ih (k + 1)
      (infos.set k ⟨img.m_sampler, img.m_imageViews[k], img.m_imageLayout⟩)
      (by rw [List.length_set]; omega) (by omega)
    refine ⟨infos1, ?_, ?_, ?_, ?_⟩
    · rw [List.range'_succ, Image.getDescriptorInfoLoop]
      rw [List.getElem?_eq_getElem hk, List.getElem?_eq_getElem hv]
      exact hloop
    · rw [hlen1, List.length_set]
    · intro j hj
      rw [hout j (by omega)]
      exact List.getElem?_set_ne (by omega)
    · intro i h1 h2
      by_cases hik : i = k
      · subst hik
        refine ⟨img.m_imageViews[i], List.getElem?_eq_getElem hv, ?_⟩
        rw [hout i (by omega)]
        simp [hk]
      · exact hin i (by omega) (by omega)

theorem getDescriptorInfo_spec (img : Image)
    (hviews : img.m_imageInfo.mipLevels ≤ img.m_imageViews.length) :
    ∃ infos, img.getDescriptorInfo = some ({ img with m_descriptorInfos := infos }, infos) ∧
      infos.length = img.m_imageInfo.mipLevels ∧
      (∀ i, i < img.m_imageInfo.mipLevels → ∃ v, img.m_imageViews[i]? = some v ∧
        infos[i]? = some ⟨img.m_sampler, v, img.m_imageLayout⟩) := by
  obtain ⟨infos, hloop, hlen, _, hin⟩ := getDescriptorInfoLoop_spec img img.m_imageInfo.mipLevels 0
    (resizeInfos img.m_descriptorInfos img.m_imageInfo.mipLevels)
    (by rw [resizeInfos_length]; omega) (by omega)
  rw [← List.range_eq_range'] at hloop
  rw [resizeInfos_length] at hlen
  refine ⟨infos, ?_, hlen, ?_⟩
  · simp only [Image.getDescriptorInfo, hloop]
  · intro i hi
    exact hin i (by omega) (by omega)


theorem stage_then_update (d : Descriptor) (set binding : Nat)
    (infos : List VkDescriptorImageInfo) (t : Trace) :
    (set, binding, infos) ∈ (d.setupPointerImage set binding infos).m_imageWrites ∧
    ((d.setupPointerImage set binding infos).update set t).1.m_imageWrites =
      (d.setupPointerImage set binding infos).m_imageWrites ∧
    ∃ writes, ((d.setupPointerImage set binding infos).update set t).2 =
        t ++ [VkCall.updateDescriptorSets (d.getDescriptorSet set) writes] ∧
      (binding, infos) ∈ writes := by
  refine ⟨by simp [Descriptor.setupPointerImage], rfl, _, rfl, ?_⟩
  simp only [Descriptor.setupPointerImage, List.mem_map, List.mem_filter, List.mem_append,
    List.mem_singleton]
  exact ⟨(set, binding, infos), ⟨Or.inr rfl, by simp⟩, rfl⟩

/-- C22: for every image whose view vector holds its mip levels, whatever its
tracked layout, `updateHeightmapInput` (set slot S3) and
`updateInterferenceInput` (set slot S4) return; the one-shot command buffer
holds the barrier from the prior layout to SHADER_READ_ONLY_OPTIMAL; the
descriptor records staged at (slot, B0) are one per mip level, record i
holding the image's sampler, its view i and imageLayout
SHADER_READ_ONLY_OPTIMAL; the one driver call made is the update of that
set, and it carries the staged records; the image kept by the stage is
tracked in SHADER_READ_ONLY_OPTIMAL. -/
theorem C22_update_image_inputs {F : Type} (scene : GraphicsScene F) (img : Image) (t : Trace)
    (hviews : img.m_imageInfo.mipLevels ≤ img.m_imageViews.length) :
    (∃ scene1 t1 b infos writes img1,
      scene.updateHeightmapInput img t =
        some (scene1, t1, [Cmd.pipelineBarrier VK_PIPELINE_STAGE_COLOR_ATTACHMENT_OUTPUT_BIT
          VK_PIPELINE_STAGE_FRAGMENT_SHADER_BIT 0 [b]]) ∧
      b.image = img.m_image ∧ b.oldLayout = img.m_imageLayout ∧
      b.newLayout = VK_IMAGE_LAYOUT_SHADER_READ_ONLY_OPTIMAL ∧
      (S3, B0, infos) ∈ scene1.m_pDescriptor.m_imageWrites ∧
      infos.length = img.m_imageInfo.mipLevels ∧
      (∀ i, i < img.m_imageInfo.mipLevels → ∃ v, img.m_imageViews[i]? = some v ∧
        infos[i]? = some ⟨img.m_sampler, v, VK_IMAGE_LAYOUT_SHADER_READ_ONLY_OPTIMAL⟩) ∧
      (∀ info, info ∈ infos → info.imageLayout = VK_IMAGE_LAYOUT_SHADER_READ_ONLY_OPTIMAL) ∧
      t1 = t ++ [VkCall.updateDescriptorSets (scene.m_pDescriptor.getDescriptorSet S3) writes] ∧
      (B0, infos) ∈ writes ∧
      scene1.m_pHeightmapImage = some img1 ∧
      img1.m_imageLayout = VK_IMAGE_LAYOUT_SHADER_READ_ONLY_OPTIMAL ∧
      img1.m_image = img.m_image) ∧
    (∃ scene1 t1 b infos writes img1,
      scene.updateInterferenceInput img t =
        some (scene1, t1, [Cmd.pipelineBarrier VK_PIPELINE_STAGE_COLOR_ATTACHMENT_OUTPUT_BIT
          VK_PIPELINE_STAGE_FRAGMENT_SHADER_BIT 0 [b]]) ∧
      b.image = img.m_image ∧ b.oldLayout = img.m_imageLayout ∧
      b.newLayout = VK_IMAGE_LAYOUT_SHADER_READ_ONLY_OPTIMAL ∧
      (S4, B0, infos) ∈ scene1.m_pDescriptor.m_imageWrites ∧
      infos.length = img.m_imageInfo.mipLevels ∧
      (∀ i, i < img.m_imageInfo.mipLevels → ∃ v, img.m_imageViews[i]? = some v ∧
        infos[i]? = some ⟨img.m_sampler, v, VK_IMAGE_LAYOUT_SHADER_READ_ONLY_OPTIMAL⟩) ∧
      (∀ info, info ∈ infos → info.imageLayout = VK_IMAGE_LAYOUT_SHADER_READ_ONLY_OPTIMAL) ∧
      t1 = t ++ [VkCall.updateDescriptorSets (scene.m_pDescriptor.getDescriptorSet S4) writes] ∧
      (B0, infos) ∈ writes ∧
      scene1.m_pInterferenceImage = some img1 ∧
      img1.m_imageLayout = VK_IMAGE_LAYOUT_SHADER_READ_ONLY_OPTIMAL ∧
      img1.m_image = img.m_image) := by
  obtain ⟨infos, hget, hlen, hin⟩ := getDescriptorInfo_spec
    (img.cmdCall Image.cmdTransitionToShaderR).1 hviews
  have hall : ∀ info, info ∈ infos →
      info.imageLayout = VK_IMAGE_LAYOUT_SHADER_READ_ONLY_OPTIMAL := by
    intro info hmem
    obtain ⟨i, hi, hget⟩ := List.getElem_of_mem hmem
    have hi2 : i < img.m_imageInfo.mipLevels := by
      have : infos.length = img.m_imageInfo.mipLevels := hlen
      omega
    obtain ⟨v, _, hv⟩ := hin i hi2
    rw [List.getElem?_eq_getElem hi, hget] at hv
    injection hv with hv
    rw [hv]
    rfl
  obtain ⟨hmem3, hkeep3, writes3, htrace3, hw3⟩ :=
    stage_then_update scene.m_pDescriptor S3 B0 infos t
  obtain ⟨hmem4, hkeep4, writes4, htrace4, hw4⟩ :=
    stage_then_update scene.m_pDescriptor S4 B0 infos t
  have hrun3 : scene.updateHeightmapInput img t = some
      ({ scene with
          m_pHeightmapImage := some
            { (img.cmdCall Image.cmdTransitionToShaderR).1 with m_descriptorInfos := infos },
          m_pDescriptor :=
            ((scene.m_pDescriptor.setupPointerImage S3 B0 infos).update S3 t).1 },
        ((scene.m_pDescriptor.setupPointerImage S3 B0 infos).update S3 t).2,
        [Cmd.pipelineBarrier VK_PIPELINE_STAGE_COLOR_ATTACHMENT_OUTPUT_BIT
          VK_PIPELINE_STAGE_FRAGMENT_SHADER_BIT 0
          [img.barrierTo VK_IMAGE_LAYOUT_SHADER_READ_ONLY_OPTIMAL VK_ACCESS_SHADER_READ_BIT]]) := by
    simp only [GraphicsScene.updateHeightmapInput, hget]
    rfl
  have hrun4 : scene.updateInterferenceInput img t = some
      ({ scene with
          m_pInterferenceImage := some
            { (img.cmdCall Image.cmdTransitionToShaderR).1 with m_descriptorInfos := infos },
          m_pDescriptor :=
            ((scene.m_pDescriptor.setupPointerImage S4 B0 infos).update S4 t).1 },
        ((scene.m_pDescriptor.setupPointerImage S4 B0 infos).update S4 t).2,
        [Cmd.pipelineBarrier VK_PIPELINE_STAGE_COLOR_ATTACHMENT_OUTPUT_BIT
          VK_PIPELINE_STAGE_FRAGMENT_SHADER_BIT 0
          [img.barrierTo VK_IMAGE_LAYOUT_SHADER_READ_ONLY_OPTIMAL VK_ACCESS_SHADER_READ_BIT]]) := by
    simp only [GraphicsScene.updateInterferenceInput, hget]
    rfl
  refine ⟨⟨_, _, _, infos, writes3, _, hrun3, rfl, rfl, rfl, ?_, hlen, hin, hall, htrace3, hw3,
      rfl, rfl, rfl⟩,
    ⟨_, _, _, infos, writes4, _, hrun4, rfl, rfl, rfl, ?_, hlen, hin, hall, htrace4, hw4,
      rfl, rfl, rfl⟩⟩
  · rw [hkeep3]
    exact hmem3
  · rw [hkeep4]
    exact hmem4

theorem C22_update_image_inputs_witness :
    ∃ scene1 t1 cb img1,
      (sampleScene ℚ 4).updateHeightmapInput (layoutImage VK_IMAGE_LAYOUT_GENERAL) [] =
        some (scene1, t1, cb) ∧
      scene1.m_pHeightmapImage = some img1 ∧
      img1.m_imageLayout = VK_IMAGE_LAYOUT_SHADER_READ_ONLY_OPTIMAL := by
  obtain ⟨⟨scene1, t1, _, _, _, img1, hrun, _, _, _, _, _, _, _, _, _, himg, hlayout, _⟩, _⟩ :=
    C22_update_image_inputs (sampleScene ℚ 4) (layoutImage VK_IMAGE_LAYOUT_GENERAL) []
      (by decide)
  exact ⟨scene1, t1, _, img1, hrun, himg, hlayout⟩


theorem flushLoop_destroyBackViews (rest : List (ImageData × Trace → ImageData × Trace))
    (n : Nat) :
    ∀ (d : ImageData) (tr : Trace), n ≤ d.m_imageViews.length →
      Cleaner.flushLoop (List.replicate n Image.destroyBackView ++ rest) (d, tr) =
        Cleaner.flushLoop rest
          ({ d with m_imageViews := d.m_imageViews.take (d.m_imageViews.length - n) },
           tr ++ (d.m_imageViews.reverse.take n).map (fun v => VkCall.destroyImageView (some v))) := by
  induction n with
  | zero =>
    intro d tr _
    simp
  | succ n ih =>
    intro d tr hn
    have hne : d.m_imageViews ≠ [] := by
      intro h
      rw [h] at hn
      simp at hn
    obtain ⟨init, last, hv⟩ : ∃ init last, d.m_imageViews = init ++ [last] :=
      ⟨d.m_imageViews.dropLast, d.m_imageViews.getLast hne,
        (List.dropLast_append_getLast hne).symm⟩
    have hlen : n ≤ init.length := by
      rw [hv] at hn
      simp at hn
      omega
    rw [List.replicate_succ, List.cons_append, Cleaner.flushLoop]
    have hstep : Image.destroyBackView (d, tr) =
        ({ d with m_imageViews := init }, tr ++ [VkCall.destroyImageView (some last)]) := by
      simp [Image.destroyBackView, hv]
    rw [hstep, ih { d with m_imageViews := init } _ hlen]
    congr 2
    · simp only [hv, List.length_append, List.length_singleton]
      congr 1
      rw [show init.length + 1 - (n + 1) = init.length - n by omega]
      rw [List.take_append_of_le_length (by omega)]
    · simp [hv]

/-- C23: for an image with a fresh cleaner and L mip levels on which
`createWithSampler` succeeded, creation called the driver for the image,
then the memory, then the L views in index order, then the sampler, and
`cleanup()` makes the release calls in the reverse order: `vkDestroySampler`,
then `vkDestroyImageView` on the views from index L-1 down to index 0 (the
view vector reversed, each entry once), then `vkFreeMemory`, then
`vkDestroyImage`; afterwards the view vector and the cleaner are empty. -/
theorem C23_image_cleanup_reverse (drv : Driver) (img img1 : Image) (t t1 : Trace)
    (hfresh : img.m_cleaner.stack = [])
    (hok : img.createWithSampler drv t = .ok (img1, t1)) :
    img1.m_imageViews.length = img.m_imageInfo.mipLevels ∧
    (img1.cleanup t1).2 = t1 ++
      ([VkCall.destroySampler img1.m_sampler] ++
        img1.m_imageViews.reverse.map (fun v => VkCall.destroyImageView (some v)) ++
        [VkCall.freeMemory img1.m_imageMemory, VkCall.destroyImage img1.m_image]) ∧
    (∀ k, k < img.m_imageInfo.mipLevels →
      (img1.m_imageViews.reverse.map (fun v => VkCall.destroyImageView (some v)))[k]? =
        (img1.m_imageViews[img.m_imageInfo.mipLevels - 1 - k]?).map
          (fun v => VkCall.destroyImageView (some v))) ∧
    (img1.cleanup t1).1.m_imageViews = [] ∧
    (img1.cleanup t1).1.m_cleaner.stack = [] ∧
    ∃ (allocationSize memoryTypeIndex : Nat) (samplerInfo : VkSamplerCreateInfo)
        (viewInfos : List VkImageViewCreateInfo),
      viewInfos.length = img.m_imageInfo.mipLevels ∧
      t1 = t ++ [VkCall.createImage img.m_imageInfo,
          VkCall.getImageMemoryRequirements img1.m_image,
          VkCall.allocateMemory allocationSize memoryTypeIndex,
          VkCall.bindImageMemory img1.m_image img1.m_imageMemory 0] ++
        viewInfos.map VkCall.createImageView ++
        [VkCall.createSampler samplerInfo] := by
  obtain ⟨hstack, hlen, _, _, _, _, size, idx, sinfo, ht1⟩ :=
    createWithSampler_inv drv img img1 t t1 hok
  rw [hfresh] at hstack
  have hviews := flushLoop_destroyBackViews [Image.freeMemoryAction, Image.destroyImageAction]
    img.m_imageInfo.mipLevels img1.toImageData
    (t1 ++ [VkCall.destroySampler img1.m_sampler]) (by rw [hlen])
  have hloop : Cleaner.flushLoop img1.m_cleaner.stack (img1.toImageData, t1) =
      ([], ({ img1.toImageData with m_imageViews := [] },
        t1 ++ ([VkCall.destroySampler img1.m_sampler] ++
          img1.m_imageViews.reverse.map (fun v => VkCall.destroyImageView (some v)) ++
          [VkCall.freeMemory img1.m_imageMemory, VkCall.destroyImage img1.m_image]))) := by
    rw [hstack, Cleaner.flushLoop]
    have hs : Image.destroySamplerAction (img1.toImageData, t1) =
        (img1.toImageData, t1 ++ [VkCall.destroySampler img1.m_sampler]) := rfl
    rw [hs, hviews]
    have htake : List.take img.m_imageInfo.mipLevels img1.m_imageViews.reverse =
        img1.m_imageViews.reverse := by
      apply List.take_of_length_le
      rw [List.length_reverse, hlen]
    simp [Cleaner.flushLoop, Image.freeMemoryAction, Image.destroyImageAction, hlen, htake]
  refine ⟨hlen, ?_, ?_, ?_, ?_, size, idx, sinfo,
    (List.range img.m_imageInfo.mipLevels).map (fun i =>
      Image.viewInfoAt { img.m_imageViewInfo with image := img1.m_image }
        img.m_imageInfo.mipLevels i), ?_, ?_⟩
  · simp only [Image.cleanup, Cleaner.flush, hloop]
  · intro k hk
    rw [List.getElem?_map, List.getElem?_reverse (by rw [hlen]; exact hk), hlen]
  · simp only [Image.cleanup, Cleaner.flush, hloop]
  · simp only [Image.cleanup, Cleaner.flush, hloop]
  · simp
  · rw [ht1, List.map_map]
    rfl

theorem C23_image_cleanup_reverse_witness :
    ∃ img1 t1, sampleTexture.createWithSampler sampleDriver [] = .ok (img1, t1) ∧
      img1.m_imageViews.length = 3 ∧
      (img1.cleanup t1).1.m_imageViews = [] := by
  obtain ⟨hlen, _, _, hempty, _⟩ :=
    C23_image_cleanup_reverse sampleDriver sampleTexture _ [] _ rfl rfl
  exact ⟨_, _, rfl, hlen, hempty⟩


/-- C24: for every 32-bit unsigned opdSamples, the first-axis workgroup count
g that `dispatch` records is opdSamples div 128 + 1; it satisfies
g * 128 > opdSamples, so the workgroup index / 128 of every sample index is
below g; g equals ceil(opdSamples / 128) exactly when opdSamples is not a
multiple of 128, and equals ceil(opdSamples / 128) + 1 when it is a multiple
of 128; for opdSamples = 0 it is 1. -/
theorem C24_workgroups_cover (ci : ComputeInterference) (cmdBuffer : CommandBuffer)
    (h32 : ci.m_misc.opdSample < 2 ^ 32) :
    ∃ g, dispatchesOf (ci.dispatch cmdBuffer).2 =
        dispatchesOf cmdBuffer ++ [(g, ci.m_misc.rSample, 1)] ∧
      g = ci.m_misc.opdSample / 128 + 1 ∧
      ci.m_misc.opdSample < g * 128 ∧
      (∀ index, index < ci.m_misc.opdSample → index / 128 < g) ∧
      (g = specGroupCountX ci.m_misc.opdSample ↔ ci.m_misc.opdSample % 128 ≠ 0) ∧
      (ci.m_misc.opdSample % 128 = 0 → g = specGroupCountX ci.m_misc.opdSample + 1) ∧
      (ci.m_misc.opdSample = 0 → g = 1) := by
  have hlt : ci.m_misc.opdSample / 128 + 1 < 2 ^ 32 := by omega
  refine ⟨ci.m_misc.opdSample / 128 + 1, ?_, rfl, by omega, ?_, ?_, ?_, ?_⟩
  · rw [dispatch_groupCounts, show WORKGROUP_SIZE_X = 128 from rfl, Nat.mod_eq_of_lt hlt]
  · intro index hindex
    omega
  · rw [specGroupCountX_eq]
    by_cases hr : ci.m_misc.opdSample % 128 = 0
    · simp [hr]
    · simp [hr]
  · intro hr
    rw [specGroupCountX_eq, if_pos hr]
  · intro h0
    rw [h0]

theorem C24_workgroups_cover_witness :
    ∃ g, dispatchesOf ((sampleStage 256 64).dispatch []).2 = [(g, 64, 1)] ∧
      g = 3 ∧ 256 < g * 128 ∧ g = specGroupCountX 256 + 1 := by
  obtain ⟨g, hrun, hg, hcover, _, _, hmult, _⟩ :=
    C24_workgroups_cover (sampleStage 256 64) [] (by decide)
  exact ⟨g, hrun, hg, hcover, hmult (by decide)⟩


theorem layoutChangesOf_cmdChangeLayouts
    (reqs : List (VkImageLayout × VkAccessFlags × VkPipelineStageFlags × VkPipelineStageFlags)) :
    ∀ (img : Image) (cmdBuffer : CommandBuffer),
      layoutChangesOf (img.cmdChangeLayouts cmdBuffer reqs).2 =
        layoutChangesOf cmdBuffer ++
          List.zip (img.m_imageLayout :: reqs.map (fun r => r.1)) (reqs.map (fun r => r.1)) ∧
      (img.cmdChangeLayouts cmdBuffer reqs).1.m_imageLayout =
        ((reqs.map (fun r => r.1)).getLast?).getD img.m_imageLayout ∧
      (img.cmdChangeLayouts cmdBuffer reqs).1 =
        { img with m_imageLayout := (img.cmdChangeLayouts cmdBuffer reqs).1.m_imageLayout } := by
  induction reqs with
  | nil =>
    intro img cmdBuffer
    simp [Image.cmdChangeLayouts]
  | cons r rest ih =>
    intro img cmdBuffer
    obtain ⟨h1, h2, h3⟩ := ih (img.cmdChangeLayout cmdBuffer r.1 r.2.1 r.2.2.1 r.2.2.2).1
      (img.cmdChangeLayout cmdBuffer r.1 r.2.1 r.2.2.1 r.2.2.2).2
    refine ⟨?_, ?_, ?_⟩
    · rw [Image.cmdChangeLayouts, h1]
      simp [Image.cmdChangeLayout, layoutChangesOf, Cmd.layoutChanges]
    · rw [Image.cmdChangeLayouts, h2]
      cases rest with
      | nil => simp [Image.cmdChangeLayout]
      | cons r2 rest2 =>
        simp only [List.map_cons, List.getLast?_cons_cons]
        cases h : (r2.1 :: List.map (fun r => r.1) rest2).getLast? with
        | none => simp at h
        | some v => rfl
    · rw [Image.cmdChangeLayouts, h3]
      rfl

/-- C25: `cmdChangeLayout` appends one barrier on the image whose oldLayout is
the layout tracked before the call and whose newLayout is the requested one,
and returns the image with the tracked layout replaced and every other field
as it was. Hence, for every sequence of transitions on one image, the
(oldLayout, newLayout) pairs of the barriers recorded are the requested
layouts paired with their predecessor (the layout tracked at the start for
the first, which is UNDEFINED on a freshly constructed image), and the same
transition applied twice leaves the image as applying it once does. -/
theorem C25_layout_chain (img : Image) (cmdBuffer : CommandBuffer)
    (newLayout : VkImageLayout) (dstAccess : VkAccessFlags)
    (srcStage dstStage : VkPipelineStageFlags)
    (reqs : List (VkImageLayout × VkAccessFlags × VkPipelineStageFlags × VkPipelineStageFlags)) :
    (∃ b, (img.cmdChangeLayout cmdBuffer newLayout dstAccess srcStage dstStage).2 =
        cmdBuffer ++ [Cmd.pipelineBarrier srcStage dstStage 0 [b]] ∧
      b.image = img.m_image ∧ b.oldLayout = img.m_imageLayout ∧ b.newLayout = newLayout) ∧
    (img.cmdChangeLayout cmdBuffer newLayout dstAccess srcStage dstStage).1 =
      { img with m_imageLayout := newLayout } ∧
    layoutChangesOf (img.cmdChangeLayouts [] reqs).2 =
      List.zip (img.m_imageLayout :: reqs.map (fun r => r.1)) (reqs.map (fun r => r.1)) ∧
    layoutChangesOf (Image.new.cmdChangeLayouts [] reqs).2 =
      List.zip (VK_IMAGE_LAYOUT_UNDEFINED :: reqs.map (fun r => r.1)) (reqs.map (fun r => r.1)) ∧
    (img.cmdChangeLayouts cmdBuffer reqs).1.m_imageLayout =
      ((reqs.map (fun r => r.1)).getLast?).getD img.m_imageLayout ∧
    (img.cmdChangeLayouts cmdBuffer reqs).1 =
      { img with m_imageLayout := (img.cmdChangeLayouts cmdBuffer reqs).1.m_imageLayout } ∧
    (∀ cmdBuffer2 : CommandBuffer,
      ((img.cmdChangeLayout cmdBuffer newLayout dstAccess srcStage dstStage).1.cmdChangeLayout
          cmdBuffer2 newLayout dstAccess srcStage dstStage).1 =
        (img.cmdChangeLayout cmdBuffer newLayout dstAccess srcStage dstStage).1) ∧
    (∀ (x : Transition) (cmdBuffer2 : CommandBuffer),
      (x.cmd (x.cmd img cmdBuffer).1 cmdBuffer2).1 = (x.cmd img cmdBuffer).1) := by
  obtain ⟨h1, h2, h3⟩ := layoutChangesOf_cmdChangeLayouts reqs img cmdBuffer
  obtain ⟨h4, _, _⟩ := layoutChangesOf_cmdChangeLayouts reqs img []
  obtain ⟨h5, _, _⟩ := layoutChangesOf_cmdChangeLayouts reqs Image.new []
  refine ⟨⟨_, rfl, rfl, rfl, rfl⟩, rfl, ?_, ?_, h2, h3, fun _ => rfl, ?_⟩
  · rw [h4]
    simp [layoutChangesOf]
  · rw [h5]
    simp [layoutChangesOf]
    rfl
  · intro x cmdBuffer2
    cases x <;> rfl


theorem specMipSize_eq_div (w i : Nat) : specMipSize w i = w / 2 ^ i := by
  induction i with
  | zero => simp [specMipSize]
  | succ i ih => rw [specMipSize, ih, Nat.div_div_eq_div_mul, Nat.pow_succ]

theorem blitDstExtentsOf_steps (img : Image) (w h : Nat) (l : List Nat) :
    blitDstExtentsOf (l.flatMap (specMipmapStep img w h)) =
      l.map (fun i => (((specMipSize w (i - 1) / 2 : Nat) : Int),
        ((specMipSize h (i - 1) / 2 : Nat) : Int))) := by
  induction l with
  | nil => rfl
  | cons i rest ih =>
    simp only [blitDstExtentsOf, blitCornersOf, List.flatMap_cons, List.flatMap_append,
      List.map_append, List.map_cons] at ih ⊢
    rw [ih]
    simp [specMipmapStep, specMipBarrier, Cmd.blitCorners]

theorem blit_extent_halvings (w h : Nat) (l : List Nat) (hl : ∀ i ∈ l, 1 ≤ i) :
    l.map (fun i => (((specMipSize w (i - 1) / 2 : Nat) : Int),
        ((specMipSize h (i - 1) / 2 : Nat) : Int))) =
      l.map (fun i => (((w / 2 ^ i : Nat) : Int), ((h / 2 ^ i : Nat) : Int))) := by
  apply List.map_congr_left
  intro i hi
  have h1 := hl i hi
  obtain ⟨j, rfl⟩ : ∃ j, i = j + 1 := ⟨i - 1, by omega⟩
  simp only [Nat.add_sub_cancel, specMipSize_eq_div, Nat.div_div_eq_div_mul, Nat.pow_succ]

theorem texture_blit_extents (pd : PhysicalDevice) (img : Image) (cmdBuffer : CommandBuffer)
    (w h : Nat) (hw : 1 ≤ w) (hw31 : w < 2 ^ 31) (hh31 : h < 2 ^ 31)
    (hfmt : (pd.formatProperties VK_FORMAT_R8G8B8A8_SRGB).optimalTilingFeatures &&&
      VK_FORMAT_FEATURE_SAMPLED_IMAGE_FILTER_LINEAR_BIT ≠ 0) :
    ∃ tex appended, img.setupForTexture ⟨w, h⟩ = some tex ∧
      tex.m_imageInfo.mipLevels = specMipLevels w h ∧
      tex.cmdGenerateMipmaps pd cmdBuffer = .ok (tex, cmdBuffer ++ appended) ∧
      blitDstExtentsOf appended = (List.range' 1 (specMipLevels w h - 1)).map
        (fun i => (((w / 2 ^ i : Nat) : Int), ((h / 2 ^ i : Nat) : Int))) := by
  have hmip : Image.MaxMipLevel (toInt32 w) (toInt32 h) = some (specMipLevels w h) := by
    rw [toInt32_of_lt w hw31, toInt32_of_lt h hh31]
    exact MaxMipLevel_of_pos w h hw hw31 hh31
  obtain ⟨tex, htex⟩ : ∃ tex, img.setupForTexture ⟨w, h⟩ = some tex := by
    simp only [Image.setupForTexture, hmip]
    exact ⟨_, rfl⟩
  have hfields : tex.m_imageInfo.mipLevels = specMipLevels w h ∧
      tex.m_imageInfo.extent.width = w ∧ tex.m_imageInfo.extent.height = h ∧
      tex.m_imageInfo.format = VK_FORMAT_R8G8B8A8_SRGB := by
    simp only [Image.setupForTexture, hmip, Option.some.injEq] at htex
    subst htex
    exact ⟨rfl, rfl, rfl, rfl⟩
  obtain ⟨hL, hwidth, hheight, hformat⟩ := hfields
  have hok := cmdGenerateMipmaps_ok pd tex cmdBuffer (by rw [hwidth]; exact hw31)
    (by rw [hheight]; exact hh31) (by rw [hformat]; exact hfmt)
  rw [hwidth, hheight, hL] at hok
  refine ⟨tex, _, htex, hL, hok, ?_⟩
  rw [blitDstExtentsOf_steps, blit_extent_halvings]
  intro i hi
  rw [List.mem_range'_1] at hi
  exact hi.1


theorem one_le_max_div (w h i : Nat) (hi : i < specMipLevels w h) (hpos : 1 ≤ max w h) :
    1 ≤ max w h / 2 ^ i := by
  have hlog : i ≤ Nat.log 2 (max w h) := by
    have : specMipLevels w h ≤ Nat.log 2 (max w h) + 1 := by
      rw [specMipLevels]
      exact min_le_left _ _
    omega
  have hpow : 2 ^ i ≤ max w h :=
    le_trans (Nat.pow_le_pow_right (by decide) hlog) (Nat.pow_log_le_self 2 (by omega))
  rw [Nat.le_div_iff_mul_le (Nat.two_pow_pos _)]
  omega

theorem max_div_pow (w h i : Nat) : max (w / 2 ^ i) (h / 2 ^ i) = max w h / 2 ^ i := by
  rcases le_total w h with hle | hle
  · rw [max_eq_right hle, max_eq_right (Nat.div_le_div_right hle)]
  · rw [max_eq_left hle, max_eq_left (Nat.div_le_div_right hle)]

/-- C26, as stated, fails: for the size (2^31, 3) the width reaches the `int`
parameters as a negative number, `setupForTexture` stores 2 mip levels (the
stated formula gives 7) and the one blit `cmdGenerateMipmaps` records has the
destination extent (-1073741824, 1): along the width, the larger of the two
dimensions, it is below 1, where floor(2^31 / 2) is 1073741824. -/
theorem C26_counterexample :
    (Image.new.setupForTexture ⟨2147483648, 3⟩).map (fun tex =>
        (tex.m_imageInfo.mipLevels,
          blitDstExtentsOf (recordedOf (tex.cmdGenerateMipmaps samplePhysicalDevice [])))) =
      some (2, [(-1073741824, 1)]) ∧
    specMipLevels 2147483648 3 = 7 ∧
    max 2147483648 3 / 2 ^ 1 = 1073741824 := by
  refine ⟨by decide, ?_, by decide⟩
  rw [specMipLevels_eq_floorLog2 _ _ (by decide)]
  decide

/-- C26 (amended): for every w and h between 1 and 2^31 - 1 (the sizes that
pass unchanged into the `int` width and height) and a format check that
passes, an image configured by `setupForTexture({w, h})` has
L = min(floor(log2(max(w,h))) + 1, 7) mip levels and `cmdGenerateMipmaps`
returns and records, for the levels i = 1 .. L-1 in order, blits of
destination extent (floor(w / 2^i), floor(h / 2^i)); each is at least 1 along
the larger of the two dimensions: floor(max(w,h) / 2^i) >= 1 for all
1 <= i < L. Repeated floor-halving equals floor(x / 2^i). -/
theorem C26_blit_extent_larger (pd : PhysicalDevice) (img : Image) (cmdBuffer : CommandBuffer)
    (w h : Nat) (hw : 1 ≤ w) (_hh : 1 ≤ h) (hw31 : w < 2 ^ 31) (hh31 : h < 2 ^ 31)
    (hfmt : (pd.formatProperties VK_FORMAT_R8G8B8A8_SRGB).optimalTilingFeatures &&&
      VK_FORMAT_FEATURE_SAMPLED_IMAGE_FILTER_LINEAR_BIT ≠ 0) :
    ∃ tex appended, img.setupForTexture ⟨w, h⟩ = some tex ∧
      tex.m_imageInfo.mipLevels = specMipLevels w h ∧
      tex.cmdGenerateMipmaps pd cmdBuffer = .ok (tex, cmdBuffer ++ appended) ∧
      blitDstExtentsOf appended = (List.range' 1 (specMipLevels w h - 1)).map
        (fun i => (((w / 2 ^ i : Nat) : Int), ((h / 2 ^ i : Nat) : Int))) ∧
      (∀ d, d ∈ blitDstExtentsOf appended → 1 ≤ max d.1 d.2) ∧
      (∀ i, 1 ≤ i → i < specMipLevels w h →
        1 ≤ max w h / 2 ^ i ∧
        max (w / 2 ^ i) (h / 2 ^ i) = max w h / 2 ^ i ∧
        (h ≤ w → 1 ≤ w / 2 ^ i) ∧ (w ≤ h → 1 ≤ h / 2 ^ i)) ∧
      (∀ x i, specMipSize x i = x / 2 ^ i) := by
  obtain ⟨tex, appended, htex, hL, hrun, hext⟩ :=
    texture_blit_extents pd img cmdBuffer w h hw hw31 hh31 hfmt
  have hpos : 1 ≤ max w h := le_trans hw (le_max_left w h)
  refine ⟨tex, appended, htex, hL, hrun, hext, ?_, ?_, specMipSize_eq_div⟩
  · intro d hd
    rw [hext, List.mem_map] at hd
    obtain ⟨i, hi, rfl⟩ := hd
    rw [List.mem_range'_1] at hi
    have h1 := one_le_max_div w h i (by omega) hpos
    rw [← max_div_pow] at h1
    show (1 : Int) ≤ max ((w / 2 ^ i : Nat) : Int) ((h / 2 ^ i : Nat) : Int)
    rw [← Nat.cast_max]
    exact_mod_cast h1
  · intro i _ hi
    have h1 := one_le_max_div w h i hi hpos
    refine ⟨h1, max_div_pow w h i, ?_, ?_⟩
    · intro hle
      rw [max_eq_left hle] at h1
      exact h1
    · intro hle
      rw [max_eq_right hle] at h1
      exact h1

theorem C26_blit_extent_larger_witness :
    ∃ tex appended, Image.new.setupForTexture ⟨300, 150⟩ = some tex ∧
      tex.cmdGenerateMipmaps samplePhysicalDevice [] = .ok (tex, [] ++ appended) ∧
      (∀ d, d ∈ blitDstExtentsOf appended → 1 ≤ max d.1 d.2) := by
  obtain ⟨tex, appended, htex, _, hrun, _, hall, _⟩ :=
    C26_blit_extent_larger samplePhysicalDevice Image.new [] 300 150 (by decide) (by decide)
      (by decide) (by decide) (by decide)
  exact ⟨tex, appended, htex, hrun, hall⟩

/-- C27, as stated, fails: for the size (2^31, 64) `setupForTexture` stores
L = 7 mip levels and min(w, h) = 64 >= 2^(L-1), yet every blit
`cmdGenerateMipmaps` records has a negative destination width, the width
having reached the `int32_t` of the loop as a negative number. -/
theorem C27_counterexample :
    (Image.new.setupForTexture ⟨2147483648, 64⟩).map (fun tex =>
        (tex.m_imageInfo.mipLevels,
          blitDstExtentsOf (recordedOf (tex.cmdGenerateMipmaps samplePhysicalDevice [])))) =
      some (7, [(-1073741824, 32), (-536870912, 16), (-268435456, 8), (-134217728, 4),
        (-67108864, 2), (-33554432, 1)]) ∧
    2 ^ (7 - 1) ≤ min 2147483648 64 := by
  constructor <;> decide

/-- C27 (amended): for every w and h between 1 and 2^31 - 1 (the sizes that
pass unchanged into the `int` width and height) and a format check that
passes, on the image configured by `setupForTexture({w, h})`, with mip count
L, every blit recorded by `cmdGenerateMipmaps` has a destination extent of at
least 1 in both dimensions if and only if min(w, h) >= 2^(L-1); for width 64
and height 1 the mip count is 7 and every recorded blit has destination
height 0. -/
theorem C27_blit_extent_both (pd : PhysicalDevice) (img : Image) (cmdBuffer : CommandBuffer)
    (w h : Nat) (hw : 1 ≤ w) (hh : 1 ≤ h) (hw31 : w < 2 ^ 31) (hh31 : h < 2 ^ 31)
    (hfmt : (pd.formatProperties VK_FORMAT_R8G8B8A8_SRGB).optimalTilingFeatures &&&
      VK_FORMAT_FEATURE_SAMPLED_IMAGE_FILTER_LINEAR_BIT ≠ 0) :
    (∃ tex appended L, img.setupForTexture ⟨w, h⟩ = some tex ∧
      tex.m_imageInfo.mipLevels = L ∧
      tex.cmdGenerateMipmaps pd cmdBuffer = .ok (tex, cmdBuffer ++ appended) ∧
      ((∀ d, d ∈ blitDstExtentsOf appended → 1 ≤ d.1 ∧ 1 ≤ d.2) ↔ 2 ^ (L - 1) ≤ min w h)) ∧
    (Image.new.setupForTexture ⟨64, 1⟩).map (fun tex =>
        (tex.m_imageInfo.mipLevels,
          blitDstExtentsOf (recordedOf (tex.cmdGenerateMipmaps samplePhysicalDevice [])))) =
      some (7, [(32, 0), (16, 0), (8, 0), (4, 0), (2, 0), (1, 0)]) := by
  obtain ⟨tex, appended, htex, hL, hrun, hext⟩ :=
    texture_blit_extents pd img cmdBuffer w h hw hw31 hh31 hfmt
  refine ⟨⟨tex, appended, specMipLevels w h, htex, hL, hrun, ?_⟩, by decide⟩
  have hLpos : 1 ≤ specMipLevels w h := by
    rw [specMipLevels]
    exact le_min (by omega) (by decide)
  constructor
  · intro hall
    by_cases hL1 : specMipLevels w h = 1
    · rw [hL1]
      exact le_min hw hh
    · have hmem : ((((w / 2 ^ (specMipLevels w h - 1) : Nat) : Int),
          ((h / 2 ^ (specMipLevels w h - 1) : Nat) : Int))) ∈ blitDstExtentsOf appended := by
        rw [hext, List.mem_map]
        exact ⟨specMipLevels w h - 1, by rw [List.mem_range'_1]; omega, rfl⟩
      obtain ⟨h1, h2⟩ := hall _ hmem
      have h1i : (1 : Int) ≤ ((w / 2 ^ (specMipLevels w h - 1) : Nat) : Int) := h1
      have h2i : (1 : Int) ≤ ((h / 2 ^ (specMipLevels w h - 1) : Nat) : Int) := h2
      have h1n : 1 ≤ w / 2 ^ (specMipLevels w h - 1) := by exact_mod_cast h1i
      have h2n : 1 ≤ h / 2 ^ (specMipLevels w h - 1) := by exact_mod_cast h2i
      rw [Nat.le_div_iff_mul_le (Nat.two_pow_pos _)] at h1n h2n
      exact le_min (by omega) (by omega)
  · intro hmin d hd
    rw [hext, List.mem_map] at hd
    obtain ⟨i, hi, rfl⟩ := hd
    rw [List.mem_range'_1] at hi
    have hpow : 2 ^ i ≤ 2 ^ (specMipLevels w h - 1) :=
      Nat.pow_le_pow_right (by decide) (by omega)
    have hwle : 2 ^ i ≤ w := le_trans hpow (le_trans hmin (min_le_left w h))
    have hhle : 2 ^ i ≤ h := le_trans hpow (le_trans hmin (min_le_right w h))
    have h1n : 1 ≤ w / 2 ^ i := by
      rw [Nat.le_div_iff_mul_le (Nat.two_pow_pos _)]
      omega
    have h2n : 1 ≤ h / 2 ^ i := by
      rw [Nat.le_div_iff_mul_le (Nat.two_pow_pos _)]
      omega
    have h1i : (1 : Int) ≤ ((w / 2 ^ i : Nat) : Int) := by exact_mod_cast h1n
    have h2i : (1 : Int) ≤ ((h / 2 ^ i : Nat) : Int) := by exact_mod_cast h2n
    exact ⟨h1i, h2i⟩

theorem C27_blit_extent_both_witness :
    ∃ tex appended, Image.new.setupForTexture ⟨300, 150⟩ = some tex ∧
      tex.m_imageInfo.mipLevels = 7 ∧
      tex.cmdGenerateMipmaps samplePhysicalDevice [] = .ok (tex, [] ++ appended) ∧
      (∀ d, d ∈ blitDstExtentsOf appended → 1 ≤ d.1 ∧ 1 ≤ d.2) := by
  obtain ⟨⟨tex, appended, L, htex, hL, hrun, hiff⟩, _⟩ :=
    C27_blit_extent_both samplePhysicalDevice Image.new [] 300 150 (by decide) (by decide)
      (by decide) (by decide) (by decide)
  have h7 : L = 7 := by
    have hmip : (Image.new.setupForTexture ⟨300, 150⟩).map
        (fun t => t.m_imageInfo.mipLevels) = some 7 := by decide
    rw [htex] at hmip
    simp only [Option.map_some', Option.some.injEq] at hmip
    omega
  subst h7
  exact ⟨tex, appended, htex, hL, hrun, hiff.mpr (by decide)⟩


theorem getDeviceSize_eq (img : Image) :
    img.getDeviceSize =
      (img.m_imageInfo.extent.width * img.m_imageInfo.extent.height *
        Image.GetChannelSize img.m_imageInfo.format * img.m_imageInfo.arrayLayers) % 2 ^ 32 := by
  simp only [Image.getDeviceSize, Image.getChannelSize]
  rw [Nat.mod_mul_mod, Nat.mul_assoc, Nat.mod_mul_mod, ← Nat.mul_assoc]

/-- C28: `getDeviceSize` returns
(width * height * channelSize(format) * arrayLayers) mod 2^32, where
channelSize is 3, 4, 12, 16 for R8G8B8_SRGB, R8G8B8A8_SRGB, R32G32B32_SFLOAT,
R32G32B32A32_SFLOAT and 0 for every other format. On a freshly constructed
image it is therefore (4 w h) mod 2^32 after `setupForTexture`,
(16 w h) mod 2^32 after `setupForHDRTexture` (both setups return for sizes
between 1 and 2^31 - 1), (96 w h) mod 2^32 after `setupForCubemap`, which is
the product itself when that is below 2^32, and 0 after `setupForColor`,
`setupForStorage` or `setupForDepth` for every size and every image. -/
theorem C28_getDeviceSize (img : Image) (w h : Nat) :
    img.getDeviceSize =
      (img.m_imageInfo.extent.width * img.m_imageInfo.extent.height *
        Image.GetChannelSize img.m_imageInfo.format * img.m_imageInfo.arrayLayers) % 2 ^ 32 ∧
    Image.GetChannelSize VK_FORMAT_R8G8B8_SRGB = 3 ∧
    Image.GetChannelSize VK_FORMAT_R8G8B8A8_SRGB = 4 ∧
    Image.GetChannelSize VK_FORMAT_R32G32B32_SFLOAT = 12 ∧
    Image.GetChannelSize VK_FORMAT_R32G32B32A32_SFLOAT = 16 ∧
    (∀ format, format ≠ VK_FORMAT_R8G8B8_SRGB → format ≠ VK_FORMAT_R8G8B8A8_SRGB →
      format ≠ VK_FORMAT_R32G32B32_SFLOAT → format ≠ VK_FORMAT_R32G32B32A32_SFLOAT →
      Image.GetChannelSize format = 0) ∧
    (∀ tex, Image.new.setupForTexture ⟨w, h⟩ = some tex →
      tex.getDeviceSize = (4 * w * h) % 2 ^ 32 ∧
      (4 * w * h < 2 ^ 32 → tex.getDeviceSize = 4 * w * h)) ∧
    (∀ hdr, Image.new.setupForHDRTexture ⟨w, h⟩ = some hdr →
      hdr.getDeviceSize = (16 * w * h) % 2 ^ 32 ∧
      (16 * w * h < 2 ^ 32 → hdr.getDeviceSize = 16 * w * h)) ∧
    (1 ≤ w → w < 2 ^ 31 → h < 2 ^ 31 →
      (∃ tex, Image.new.setupForTexture ⟨w, h⟩ = some tex) ∧
      (∃ hdr, Image.new.setupForHDRTexture ⟨w, h⟩ = some hdr)) ∧
    (Image.new.setupForCubemap ⟨w, h⟩).getDeviceSize = (96 * w * h) % 2 ^ 32 ∧
    (96 * w * h < 2 ^ 32 → (Image.new.setupForCubemap ⟨w, h⟩).getDeviceSize = 96 * w * h) ∧
    (img.setupForColor ⟨w, h⟩).getDeviceSize = 0 ∧
    (img.setupForStorage ⟨w, h⟩).getDeviceSize = 0 ∧
    (img.setupForDepth ⟨w, h⟩).getDeviceSize = 0 := by
  have hcube : (Image.new.setupForCubemap ⟨w, h⟩).getDeviceSize = (96 * w * h) % 2 ^ 32 := by
    rw [getDeviceSize_eq]
    show (w * h * 16 * 6) % 2 ^ 32 = _
    congr 1
    ring
  refine ⟨getDeviceSize_eq img, rfl, rfl, rfl, rfl, ?_, ?_, ?_, ?_, hcube, ?_, ?_, ?_, ?_⟩
  · intro format h1 h2 h3 h4
    simp [Image.GetChannelSize, h1, h2, h3, h4]
  · intro tex htex
    have hsize : tex.getDeviceSize = (4 * w * h) % 2 ^ 32 := by
      simp only [Image.setupForTexture] at htex
      split at htex
      · simp at htex
      · simp only [Option.some.injEq] at htex
        subst htex
        rw [getDeviceSize_eq]
        show (w * h * 4 * 1) % 2 ^ 32 = _
        congr 1
        ring
    exact ⟨hsize, fun hlt => by rw [hsize, Nat.mod_eq_of_lt hlt]⟩
  · intro hdr hhdr
    have hsize : hdr.getDeviceSize = (16 * w * h) % 2 ^ 32 := by
      simp only [Image.setupForHDRTexture] at hhdr
      split at hhdr
      · simp at hhdr
      · simp only [Option.some.injEq] at hhdr
        subst hhdr
        rw [getDeviceSize_eq]
        show (w * h * 16 * 1) % 2 ^ 32 = _
        congr 1
        ring
    exact ⟨hsize, fun hlt => by rw [hsize, Nat.mod_eq_of_lt hlt]⟩
  · intro hw hw31 hh31
    have hmip : Image.MaxMipLevel (toInt32 w) (toInt32 h) = some (specMipLevels w h) := by
      rw [toInt32_of_lt w hw31, toInt32_of_lt h hh31]
      exact MaxMipLevel_of_pos w h hw hw31 hh31
    constructor
    · simp only [Image.setupForTexture, hmip]
      exact ⟨_, rfl⟩
    · simp only [Image.setupForHDRTexture, hmip]
      exact ⟨_, rfl⟩
  · intro hlt
    rw [hcube, Nat.mod_eq_of_lt hlt]
  · rw [getDeviceSize_eq]
    show (w * h * 0 * _) % 2 ^ 32 = 0
    simp
  · rw [getDeviceSize_eq]
    show (w * h * 0 * _) % 2 ^ 32 = 0
    simp
  · rw [getDeviceSize_eq]
    show (w * h * 0 * _) % 2 ^ 32 = 0
    simp


/-- C29: `fillBuffer(address, size, shift)`, when the source holds size bytes
and the range [shift, shift + size) lies inside the allocation, maps the
range [0, size) of the buffer memory (one `vkMapMemory` with offset 0 and
that size, then one `vkUnmapMemory`), replaces the bytes
[shift, shift + size) by the first size bytes of the source, leaves every
other byte as it was, and returns the mapped base address plus shift. The
written range [shift, shift + size) is contained in the mapped range
[0, size) if and only if shift = 0 or size = 0. -/
theorem C29_fillBuffer_shift (b : Buffer) (mem : List Byte) (t : Trace) (address : List Byte)
    (size shift : Nat) (hsrc : size ≤ address.length) (hfit : shift + size ≤ mem.length) :
    ∃ mem1 t1 base,
      b.mapMemory mem t size = some (t1, base) ∧
      t1 = t ++ [VkCall.mapMemory b.m_bufferMemory 0 size] ∧
      b.fillBuffer mem t address size shift =
        some (mem1, t1 ++ [VkCall.unmapMemory b.m_bufferMemory], base + shift) ∧
      mem1.length = mem.length ∧
      hostRead mem1 (base + shift) size = address.take size ∧
      (∀ i, i < shift ∨ shift + size ≤ i → mem1[i]? = mem[i]?) ∧
      ((∀ x, shift ≤ x → x < shift + size → x < size) ↔ shift = 0 ∨ size = 0) := by
  have hsize : size ≤ mem.length := by omega
  have hcond : size ≤ address.length ∧ shift + size ≤ mem.length := ⟨hsrc, hfit⟩
  have htake : (mem.take shift).length = shift := by
    rw [List.length_take]
    omega
  have hsrcLen : (address.take size).length = size := by
    rw [List.length_take]
    omega
  refine ⟨mem.take shift ++ address.take size ++ mem.drop (shift + size), _, 0, ?_, rfl, ?_, ?_,
    ?_, ?_, ?_⟩
  · simp only [Buffer.mapMemory, if_pos hsize]
  · simp only [Buffer.fillBuffer, Buffer.mapMemory, if_pos hsize, memcpy, Nat.zero_add,
      if_pos hcond, Buffer.unmapMemory]
  · simp only [List.length_append, htake, hsrcLen, List.length_drop]
    omega
  · rw [hostRead, Nat.zero_add, List.append_assoc, List.drop_left' htake,
      List.take_left' hsrcLen]
  · intro i hi
    rcases hi with hi | hi
    · rw [List.append_assoc, List.getElem?_append_left (by omega), List.getElem?_take,
        if_pos hi]
    · rw [List.getElem?_append_right (by simp only [List.length_append, htake, hsrcLen]; omega),
        List.getElem?_drop]
      simp only [List.length_append, htake, hsrcLen]
      congr 1
      omega
  · constructor
    · intro hall
      by_cases hs : size = 0
      · exact Or.inr hs
      · left
        have := hall (shift + size - 1) (by omega) (by omega)
        omega
    · intro h x h1 h2
      omega

theorem C29_fillBuffer_shift_witness :
    ∃ mem1 t1 ptr,
      (Buffer.new.setup 4 0).fillBuffer [1, 2, 3, 4] [] [7, 9] 2 1 = some (mem1, t1, ptr) ∧
      ptr = 0 + 1 ∧ hostRead mem1 ptr 2 = [7, 9] := by
  obtain ⟨mem1, t1, base, hmap, _, hrun, _, hread, _⟩ :=
    C29_fillBuffer_shift (Buffer.new.setup 4 0) [1, 2, 3, 4] [] [7, 9] 2 1 (by decide)
      (by decide)
  have hbase : base = 0 := by
    have h0 : (Buffer.new.setup 4 0).mapMemory [1, 2, 3, 4] [] 2 =
        some ([] ++ [VkCall.mapMemory (Buffer.new.setup 4 0).m_bufferMemory 0 2], 0) := rfl
    rw [hmap] at h0
    simp only [Option.some.injEq, Prod.mk.injEq] at h0
    exact h0.2
  subst hbase
  exact ⟨mem1, _, _, hrun, rfl, hread⟩


theorem setMouseButton_other (l r : Nat) (win : Window) (button action : Int)
    (hb : button ≠ GLFW_MOUSE_BUTTON_LEFT) :
    win.setMouseButton l r button action = win := by
  simp only [Window.setMouseButton, if_neg hb, Function.update_eq_self]

/-- C30: for every button, action and pair of indices of the state array,
`setMouseButton` changes the stored button states only when button is
GLFW_MOUSE_BUTTON_LEFT, and then it sets both the left and the right stored
state to (action == GLFW_PRESS) and no other entry; for any other button,
the right button included, the window is left exactly as it was, so
`getMouseBtnState(right)` after a right-button event, through
`setMouseButton` or through `MouseButtonCallback`, is what it was before. -/
theorem C30_setMouseButton (mouse_btn_left mouse_btn_right : Nat) (win : Window)
    (button action mods : Int) :
    (button = GLFW_MOUSE_BUTTON_LEFT →
      (win.setMouseButton mouse_btn_left mouse_btn_right button action).getMouseBtnState
          mouse_btn_left = decide (action = GLFW_PRESS) ∧
      (win.setMouseButton mouse_btn_left mouse_btn_right button action).getMouseBtnState
          mouse_btn_right = decide (action = GLFW_PRESS)) ∧
    (∀ idx, idx ≠ mouse_btn_left → idx ≠ mouse_btn_right →
      (win.setMouseButton mouse_btn_left mouse_btn_right button action).getMouseBtnState idx =
        win.getMouseBtnState idx) ∧
    (button ≠ GLFW_MOUSE_BUTTON_LEFT →
      win.setMouseButton mouse_btn_left mouse_btn_right button action = win) ∧
    win.setMouseButton mouse_btn_left mouse_btn_right GLFW_MOUSE_BUTTON_RIGHT action = win ∧
    (win.setMouseButton mouse_btn_left mouse_btn_right GLFW_MOUSE_BUTTON_RIGHT
        action).getMouseBtnState mouse_btn_right = win.getMouseBtnState mouse_btn_right ∧
    (Window.MouseButtonCallback mouse_btn_left mouse_btn_right win GLFW_MOUSE_BUTTON_RIGHT
        action mods).getMouseBtnState mouse_btn_right = win.getMouseBtnState mouse_btn_right ∧
    Window.MouseButtonCallback mouse_btn_left mouse_btn_right win button action mods =
      win.setMouseButton mouse_btn_left mouse_btn_right button action := by
  have hright : win.setMouseButton mouse_btn_left mouse_btn_right GLFW_MOUSE_BUTTON_RIGHT
      action = win :=
    setMouseButton_other _ _ win _ action (by decide)
  refine ⟨?_, ?_, setMouseButton_other _ _ win button action, hright, ?_, ?_, rfl⟩
  · intro hb
    by_cases hlr : mouse_btn_left = mouse_btn_right
    · subst hlr
      simp [Window.setMouseButton, Window.getMouseBtnState, hb]
    · simp [Window.setMouseButton, Window.getMouseBtnState, hb, Function.update, hlr]
  · intro idx h1 h2
    simp [Window.setMouseButton, Window.getMouseBtnState, Function.update, h1, h2]
  · rw [hright]
  · show (win.setMouseButton mouse_btn_left mouse_btn_right GLFW_MOUSE_BUTTON_RIGHT
      action).getMouseBtnState mouse_btn_right = _
    rw [hright]

end Sandbox
